import Mathlib

/-!
# MOS 6502 emulator (mdaub/6502-Emulator): shallow embedding and verified properties

The definitions below transcribe `src/cpu.c`, `src/cpu_utils.h`, `src/cpu.h` and
`src/main.c`.  The C globals (registers and the three memory arrays) become the
fields of `State`; every C function becomes a function on `State`.

Conventions of the embedding:

* `byte` (`uint8_t`) is `Fin 256`, `uint16_t` is `Fin 65536`.  C arithmetic is done
  after integer promotion, so expressions are computed in `Nat` (or `Int` when a
  negative intermediate is possible) and truncated explicitly (`% 256`, `% 65536`)
  when stored back.
* `~x` on a promoted `int` is modelled by `bnot x = 0xFFFFFFFF - x` when it is used
  as a bit mask, and by `-x - 1` when it is used as a summand.
* `assert` failures abort the program: functions that may assert return `Option`,
  `none` meaning abort.
* locals that the C code reads before writing (`arg1`, `arg2`, `intermediate`) get
  their indeterminate initial contents from a parameter of type `Locals`.
-/

namespace Emu6502

/-! ## Machine types -/

abbrev byte := Fin 256
abbrev uint16_t := Fin 65536

/-- Truncation of a non-negative C integer to `uint8_t`. -/
def toByte (n : Nat) : byte := ⟨n % 256, Nat.mod_lt _ (by decide)⟩

/-- Truncation of a (possibly negative) C `int` to `uint8_t`. -/
def intToByte (i : Int) : byte :=
  ⟨(i % 256).toNat, by
    have h1 : (0 : Int) ≤ i % 256 := Int.emod_nonneg _ (by decide)
    have h2 : i % 256 < 256 := Int.emod_lt_of_pos _ (by decide)
    omega⟩

/-- Truncation of a non-negative C integer to `uint16_t`. -/
def toU16 (n : Nat) : uint16_t := ⟨n % 65536, Nat.mod_lt _ (by decide)⟩

/-- Bit pattern of `~x` for a promoted 32-bit `int` holding `x`. -/
def bnot (x : Nat) : Nat := 4294967295 - x

/-- Bit pattern (32-bit two's complement) of a C `int`. -/
def bits32 (i : Int) : Nat := (i % 4294967296).toNat

/-! ## cpu.h / cpu_utils.h constants -/

def IRQ_ADDRESS : Nat := 0xfffe
def RST_ADDRESS : Nat := 0xfffc
def NMI_ADDRESS : Nat := 0xfffa

def flag_N : Nat := 0x80
def flag_V : Nat := 0x40
def flag_B : Nat := 0x10
def flag_D : Nat := 0x08
def flag_I : Nat := 0x04
def flag_Z : Nat := 0x02
def flag_C : Nat := 0x01

/-! The enumeration `address_mode`; it is used as an array index and in arithmetic,
so its members are kept as the integers the C compiler assigns. -/

def ind_indir_x : Nat := 0
def zpg : Nat := 1
def imm : Nat := 2
def abs : Nat := 3
def indir_ind_y : Nat := 4
def ind_zpg_x : Nat := 5
def ind_abs_y : Nat := 6
def ind_abs_x : Nat := 7
def indir_abs : Nat := 8
def rel : Nat := 9
def ind_zpg_y : Nat := 10
def ind_abs : Nat := 11
def reg_A : Nat := 12

def mode_mask : Nat := 0x1c

def ADC : Nat := 0x61
def AND : Nat := 0x21
def CMP : Nat := 0xc1
def EOR : Nat := 0x41
def LDA : Nat := 0xA1
def ORA : Nat := 0x01
def SBC : Nat := 0xe1

def ASL : Nat := 0x02
def BIT : Nat := 0x20
def CPX : Nat := 0xe0
def CPY : Nat := 0xc0
def DEC : Nat := 0xc2
def INC : Nat := 0xe2
def JMP : Nat := 0x40
def LDX : Nat := 0xA2
def LDY : Nat := 0xa0
def LSR : Nat := 0x42
def ROL : Nat := 0x22
def ROR : Nat := 0x62
def STA : Nat := 0x81
def STX : Nat := 0x82
def STY : Nat := 0x80

def BCC : Nat := 0x90
def BCS : Nat := 0xb0
def BEQ : Nat := 0xf0
def BMI : Nat := 0x30
def BNE : Nat := 0xd0
def BPL : Nat := 0x10
def BRK : Nat := 0x00
def BVC : Nat := 0x50
def BVS : Nat := 0x70
def CLC : Nat := 0x18
def CLD : Nat := 0xd8
def CLI : Nat := 0x58
def CLV : Nat := 0xb8
def DEX : Nat := 0xca
def DEY : Nat := 0x88
def INX : Nat := 0xe8
def INY : Nat := 0xc8
def JSR : Nat := 0x20
def NOP : Nat := 0xEA
def PHA : Nat := 0x48
def PHP : Nat := 0x08
def PLA : Nat := 0x68
def PLP : Nat := 0x28
def RTI : Nat := 0x40
def RTS : Nat := 0x60
def SEC : Nat := 0x38
def SED : Nat := 0xf8
def SEI : Nat := 0x78
def TAX : Nat := 0xaa
def TAY : Nat := 0xa8
def TSX : Nat := 0xba
def TXA : Nat := 0x8a
def TXS : Nat := 0x9a
def TYA : Nat := 0x98

/-! ## main.c: the memory bus of the reference host -/

/-- The three arrays `RAM_DATA`, `IO_MEM`, `ROM_DATA` of `main.c`. -/
structure Memory where
  RAM_DATA : Nat → byte
  IO_MEM : Nat → byte
  ROM_DATA : Nat → byte

/-- Target of the pointer returned by `memory_map`. -/
inductive Cell where
  | ram (i : Nat)
  | io (i : Nat)
  | rom (i : Nat)
  deriving DecidableEq, Repr

/-- C function `memory_map`: `address &= 0xffff`, then the RAM / IO / ROM split. -/
def memory_map (address : Nat) : Cell :=
  let address := address &&& 0xffff
  if address < 0x4000 then Cell.ram address
  else if address < 0x8000 then Cell.io (address - 0x4000)
  else Cell.rom (address - 0x8000)

/-- C function `read_memory`. -/
def read_memory (m : Memory) (address : Nat) : byte :=
  match memory_map address with
  | Cell.ram i => m.RAM_DATA i
  | Cell.io i => m.IO_MEM i
  | Cell.rom i => m.ROM_DATA i

/-- C function `read_memory_word`: little-endian word, truncated to `uint16_t`. -/
def read_memory_word (m : Memory) (address : Nat) : uint16_t :=
  toU16 ((read_memory m address).val ||| ((read_memory m (address + 1)).val <<< 8))

/-- C function `write_memory` (ROM is writable, as the source remarks). -/
def write_memory (m : Memory) (address : Nat) (data : byte) : Memory :=
  match memory_map address with
  | Cell.ram i => { m with RAM_DATA := fun j => if j = i then data else m.RAM_DATA j }
  | Cell.io i => { m with IO_MEM := fun j => if j = i then data else m.IO_MEM j }
  | Cell.rom i => { m with ROM_DATA := fun j => if j = i then data else m.ROM_DATA j }

/-! ## cpu.c: registers -/

/-- The CPU registers (`cpu_regA`, ... are file-scope variables of `cpu.c`) together
with the memory they operate on. -/
structure State where
  cpu_regA : byte
  cpu_regX : byte
  cpu_regY : byte
  cpu_SP : byte
  cpu_FLAGS : byte
  cpu_PC : uint16_t
  mem : Memory

/-- Indeterminate initial contents of the locals `arg1`, `arg2`, `intermediate`. -/
structure Locals where
  arg1 : byte
  arg2 : byte
  intermediate : Int

/-- Lookup table `c_conv`. -/
def c_conv (i : Nat) : Nat := [2, 1, 5, 3, 7, 6, 0, 4].getD i 0
/-- Lookup table `count_full_imm`. -/
def count_full_imm (i : Nat) : Nat := [1, 1, 1, 2, 1, 1, 2, 2].getD i 0
/-- Lookup table `count_full_a`. -/
def count_full_a (i : Nat) : Nat := [1, 1, 0, 2, 1, 1, 2, 2].getD i 0

/-- C function `cpu_reset`. -/
def cpu_reset (s : State) : State :=
  { s with cpu_PC := read_memory_word s.mem RST_ADDRESS }

/-- C function `cpu_stack_push`. -/
def cpu_stack_push (s : State) (data : byte) : Option State :=
  if s.cpu_SP.val ≠ 0 then
    let address := 0x0100 ||| s.cpu_SP.val
    some { s with mem := write_memory s.mem address data,
                  cpu_SP := toByte (s.cpu_SP.val + 256 - 1) }
  else none

/-- C function `cpu_stack_pop`. -/
def cpu_stack_pop (s : State) : Option (byte × State) :=
  if s.cpu_SP.val ≠ 0xff then
    let sp := toByte (s.cpu_SP.val + 1)
    let address := 0x0100 ||| sp.val
    some (read_memory s.mem address, { s with cpu_SP := sp })
  else none

/-- C function `IRQ` (its body is empty). -/
def IRQ (s : State) : State := s

/-- The cast `*(int8_t*)(&arg1)`. -/
def int8 (b : byte) : Int := if b.val < 128 then (b.val : Int) else (b.val : Int) - 256

/-- C function `get_effective_address` (result type `size_t`, 64 bits). -/
def get_effective_address (s : State) (mode : Nat) (arg1 arg2 : byte) : Nat :=
  let abs_arg := (toU16 ((arg2.val <<< 8) ||| arg1.val)).val
  if mode = zpg then arg1.val
  else if mode = ind_zpg_x then (s.cpu_regX.val + arg1.val) &&& 0xff
  else if mode = ind_zpg_y then (s.cpu_regY.val + arg1.val) &&& 0xff
  else if mode = abs then abs_arg
  else if mode = ind_abs_x then (s.cpu_regX.val + abs_arg) &&& 0xffff
  else if mode = ind_abs_y then (s.cpu_regY.val + abs_arg) &&& 0xffff
  else if mode = rel then (((s.cpu_PC.val : Int) + int8 arg1) % 18446744073709551616).toNat
  else if mode = indir_abs then (read_memory s.mem abs_arg).val
  else if mode = ind_indir_x then
    let address1 := (s.cpu_regX.val + arg1.val) &&& 0xff
    ((read_memory s.mem address1).val <<< 8) ||| (read_memory s.mem (address1 + 1)).val
  else if mode = indir_ind_y then (read_memory s.mem arg1.val).val + s.cpu_regY.val
  else 0x0000

/-- C function `read_address`. -/
def read_address (s : State) (mode : Nat) (arg1 arg2 : byte) : byte :=
  read_memory s.mem (get_effective_address s mode arg1 arg2)

/-- C function `address_delay`. -/
def address_delay (s : State) (mode : Nat) (arg1 arg2 : byte) : Int :=
  let warg := arg1.val ||| (arg2.val <<< 8)
  if mode = ind_abs_x then
    if (warg &&& 0xff) + s.cpu_regX.val > 0xff then 1 else 0
  else if mode = ind_indir_x then
    if s.cpu_regX.val + arg1.val > 0xff then 1 else 0
  else if mode = indir_ind_y then
    let add := (read_memory s.mem arg1.val).val
    let add := add ||| ((read_memory s.mem (arg1.val + 1)).val <<< 8)
    if (add &&& 0xff) + s.cpu_regY.val > 0xff then 1 else 0
  else 0

/-- C function `cpu_fetch`: `read_memory(cpu_PC++)`. -/
def cpu_fetch (s : State) : byte × State :=
  (read_memory s.mem s.cpu_PC.val, { s with cpu_PC := toU16 (s.cpu_PC.val + 1) })

/-- C function `get_args`; the out-parameters `*arg1`, `*arg2` keep their previous
contents when they are not fetched. -/
def get_args (s : State) (count : Nat) (arg1 arg2 : byte) : byte × byte × State :=
  if count = 2 then
    let f1 := cpu_fetch s
    let f2 := cpu_fetch f1.2
    (f1.1, f2.1, f2.2)
  else if count = 1 then
    let f1 := cpu_fetch s
    (f1.1, arg2, f1.2)
  else (arg1, arg2, s)

/-- C function `update_Zflag`. -/
def update_Zflag (s : State) (res : byte) : State :=
  { s with cpu_FLAGS :=
        (toByte ((s.cpu_FLAGS.val &&& bnot flag_Z) ||| (if res.val = 0 then 1 else 0) * flag_Z)) }

/-- C function `update_Nflag`. -/
def update_Nflag (s : State) (res : byte) : State :=
  { s with cpu_FLAGS :=
      toByte ((s.cpu_FLAGS.val &&& bnot flag_N) |||
        (if (res.val &&& 0x80) > 0 then 1 else 0) * flag_N) }

/-- C function `update_Cflag`. -/
def update_Cflag (s : State) (res : Int) : State :=
  { s with cpu_FLAGS :=
      toByte ((s.cpu_FLAGS.val &&& bnot flag_C) |||
        (if (bits32 res &&& 0x100) > 0 then 1 else 0) * flag_C) }

/-- Macro `accum_flags`: `update_Zflag(A); update_Nflag(A)`. -/
def accum_flags (s : State) : State :=
  let s1 := update_Zflag s s.cpu_regA
  update_Nflag s1 s1.cpu_regA

/-- C function `branch_instruction`. -/
def branch_instruction (s : State) (condition : byte) (arg1 : byte) : State × Int :=
  if condition.val ≠ 0 then
    let rel := if arg1.val &&& 0x80 ≠ 0 then arg1.val ||| 0xff00 else arg1.val
    let new_PC := s.cpu_PC.val + rel
    let retval : Int := if (new_PC &&& 0xff00) = (s.cpu_PC.val &&& 0xff00) then 3 else 4
    ({ s with cpu_PC := toU16 (new_PC &&& 0xffff) }, retval)
  else (s, 2)

/-- C function `get_data_full_imm`. -/
def get_data_full_imm (s : State) (mode : Nat) (arg1 arg2 : byte) : byte :=
  if mode = imm then arg1 else read_address s mode arg1 arg2

/-- C function `get_data_accum`. -/
def get_data_accum (s : State) (mode : Nat) (arg1 arg2 : byte) : byte :=
  if mode = imm then s.cpu_regA else read_address s mode arg1 arg2

/-- C function `set_data_accum`. -/
def set_data_accum (s : State) (mode : Nat) (arg1 arg2 : byte) (data : byte) : State :=
  if mode = imm then { s with cpu_regA := data }
  else { s with mem := write_memory s.mem (get_effective_address s mode arg1 arg2) data }

/-! ## cpu.c: `cpu_do_next_op`

The C function is three consecutive `switch` statements.  Each `case` is transcribed
as a definition of its own (`case_ADC`, ...), and each `switch` as a chain of `if`s
that selects the case and whose final `else` continues with the next `switch`. -/

/-- `case ASL:` of the third `switch` of `cpu_do_next_op`. -/
def case_ASL (s : State) (mode : Nat) (u : Locals) : Option (State × Int) :=
  if mode = imm ∨ mode = zpg ∨ mode = ind_zpg_x ∨ mode = abs ∨ mode = ind_abs_x then
    let g := get_args s (count_full_a mode) u.arg1 u.arg2
    let arg1 := g.1
    let arg2 := g.2.1
    let s := g.2.2
    let data := get_data_accum s mode arg1 arg2
    let s := { s with cpu_FLAGS := toByte ((s.cpu_FLAGS.val &&& bnot flag_C) |||
                  flag_C * (if (data.val &&& 0x80) = 0x80 then 1 else 0)) }
    let data := toByte ((data.val <<< 1) &&& 0xfe)
    let s := update_Zflag s data
    let s := set_data_accum s mode arg1 arg2 data
    some (s, if address_delay s mode arg1 arg2 + (mode : Int) = (imm : Int) then 2
             else if mode = zpg then 5 else if mode = ind_zpg_x then 6
             else if mode = abs then 6 else if mode = ind_abs_x then 7 else -1)
  else none

/-- `case BIT:` of the third `switch` of `cpu_do_next_op`. -/
def case_BIT (s : State) (mode : Nat) (u : Locals) : Option (State × Int) :=
  if mode = zpg ∨ mode = abs then
    let g := get_args s (if mode = zpg then 1 else 2) u.arg1 u.arg2
    let arg1 := g.1
    let arg2 := g.2.1
    let s := g.2.2
    let data := toByte (s.cpu_regA.val &&& (read_address s mode arg1 arg2).val)
    let s := { s with cpu_FLAGS :=
                  toByte ((s.cpu_FLAGS.val &&& bnot 0xc0) ||| (data.val &&& 0xC0)) }
    let s := update_Zflag s data
    some (s, if mode = zpg then 3 else 4)
  else none

/-- Code at the label `COMP:` shared by `case CPY` and `case CPX` of `cpu_do_next_op`. -/
def COMP (s : State) (COMP_reg : byte) (mode : Nat) (u : Locals) : Option (State × Int) :=
  if mode = imm ∨ mode = zpg ∨ mode = abs then
    let g := get_args s (count_full_imm mode) u.arg1 u.arg2
    let arg1 := g.1
    let arg2 := g.2.1
    let s := g.2.2
    let data := get_data_full_imm s mode arg1 arg2
    let intermediate : Int := (COMP_reg.val : Int) - (data.val : Int)
    let s := { s with cpu_FLAGS := toByte ((s.cpu_FLAGS.val &&& bnot flag_N) |||
                  (flag_N * (if (bits32 intermediate &&& 0x80) = 0x80 then 1 else 0))) }
    let s := { s with cpu_FLAGS := toByte ((s.cpu_FLAGS.val &&& bnot flag_C) |||
                  (flag_C * (if intermediate ≥ (data.val : Int) then 1 else 0))) }
    let s := { s with cpu_FLAGS := toByte ((s.cpu_FLAGS.val &&& bnot flag_Z) |||
                  (flag_Z * (if intermediate = 0 then 1 else 0))) }
    some (s, if mode = imm then 2 else if mode = zpg then 3 else 4)
  else none

/-- `case DEC:` of the third `switch` of `cpu_do_next_op`. -/
def case_DEC (s : State) (mode : Nat) (u : Locals) : Option (State × Int) :=
  if mode = zpg ∨ mode = ind_zpg_x ∨ mode = abs ∨ mode = ind_abs_x then
    let g := get_args s (count_full_a mode) u.arg1 u.arg2
    let arg1 := g.1
    let arg2 := g.2.1
    let s := g.2.2
    let data := toByte (bits32 (((read_address s mode arg1 arg2).val : Int) - 1) &&& 0xff)
    let s := update_Nflag s data
    let s := update_Zflag s data
    let s := set_data_accum s mode arg1 arg2 data
    some (s, if address_delay s mode arg1 arg2 + (mode : Int) = (zpg : Int) then 5
             else if mode = ind_zpg_x then 6 else if mode = abs then 6 else 7)
  else none

/-- `case INC:` of the third `switch` of `cpu_do_next_op`. -/
def case_INC (s : State) (mode : Nat) (u : Locals) : Option (State × Int) :=
  if mode = zpg ∨ mode = ind_zpg_x ∨ mode = abs ∨ mode = ind_abs_x then
    let g := get_args s (count_full_a mode) u.arg1 u.arg2
    let arg1 := g.1
    let arg2 := g.2.1
    let s := g.2.2
    let data := toByte (((read_address s mode arg1 arg2).val + 1) &&& 0xff)
    let s := update_Nflag s data
    let s := update_Zflag s data
    let s := set_data_accum s mode arg1 arg2 data
    some (s, if mode = zpg then 5 else if mode = ind_zpg_x then 6
             else if mode = abs then 6 else 7)
  else none

/-- `case LDX:` of the third `switch` of `cpu_do_next_op`. -/
def case_LDX (s : State) (mode : Nat) (u : Locals) : Option (State × Int) :=
  if mode = ind_indir_x ∨ mode = zpg ∨ mode = abs ∨ mode = ind_abs_x ∨ mode = ind_zpg_x then
    let mode := if mode = ind_indir_x then imm else mode
    let g := get_args s (count_full_imm mode) u.arg1 u.arg2
    let arg1 := g.1
    let arg2 := g.2.1
    let s := g.2.2
    let mode := if mode = ind_zpg_x then ind_zpg_y else mode
    let s := { s with cpu_regX := get_data_full_imm s mode arg1 arg2 }
    let s := update_Nflag s s.cpu_regX
    let s := update_Zflag s s.cpu_regX
    some (s, if address_delay s mode arg1 arg2 + (mode : Int) = (imm : Int) then 2
             else if mode = zpg then 3 else if mode = ind_zpg_y then 4
             else if mode = abs then 4 else 4)
  else none

/-- `case LDY:` of the third `switch` of `cpu_do_next_op`. -/
def case_LDY (s : State) (mode : Nat) (u : Locals) : Option (State × Int) :=
  if mode = imm ∨ mode = zpg ∨ mode = abs ∨ mode = ind_abs_x ∨ mode = ind_zpg_x then
    let g := get_args s (count_full_imm mode) u.arg1 u.arg2
    let arg1 := g.1
    let arg2 := g.2.1
    let s := g.2.2
    let s := { s with cpu_regY := get_data_full_imm s mode arg1 arg2 }
    let s := update_Nflag s s.cpu_regY
    let s := update_Zflag s s.cpu_regY
    some (s, if address_delay s mode arg1 arg2 + (mode : Int) = (imm : Int) then 2
             else if mode = zpg then 3 else if mode = ind_zpg_x then 4
             else if mode = abs then 4 else 4)
  else none

/-- `case LSR:` of the third `switch` of `cpu_do_next_op`. -/
def case_LSR (s : State) (mode : Nat) (u : Locals) : Option (State × Int) :=
  if mode = imm ∨ mode = zpg ∨ mode = abs ∨ mode = ind_abs_x ∨ mode = ind_zpg_x then
    let g := get_args s (count_full_a mode) u.arg1 u.arg2
    let arg1 := g.1
    let arg2 := g.2.1
    let s := g.2.2
    let s := { s with cpu_FLAGS := toByte (s.cpu_FLAGS.val &&& bnot (flag_N &&& flag_C)) }
    let data := get_data_accum s mode arg1 arg2
    let data := toByte ((data.val >>> 1) &&& 0x7f)
    let s := set_data_accum s mode arg1 arg2 data
    let s := update_Zflag s data
    some (s, if address_delay s mode arg1 arg2 + (mode : Int) = (imm : Int) then 2
             else if mode = zpg then 5 else if mode = ind_zpg_x then 6
             else if mode = abs then 6 else 7)
  else none

/-- `case ROL:` of the third `switch` of `cpu_do_next_op`. -/
def case_ROL (s : State) (mode : Nat) (u : Locals) : Option (State × Int) :=
  if mode = imm ∨ mode = zpg ∨ mode = abs ∨ mode = ind_abs_x ∨ mode = ind_zpg_x then
    let g := get_args s (count_full_a mode) u.arg1 u.arg2
    let arg1 := g.1
    let arg2 := g.2.1
    let s := g.2.2
    let data := get_data_accum s mode arg1 arg2
    let intermediate := (if (data.val &&& 0x80) = 0x80 then 1 else 0) * flag_C
    let data := toByte ((data.val <<< 1) &&& 0xfe)
    let data := toByte (data.val ||| (s.cpu_FLAGS.val &&& flag_C))
    let s := { s with cpu_FLAGS :=
                  toByte ((s.cpu_FLAGS.val &&& bnot flag_C) ||| intermediate) }
    let s := update_Zflag s data
    let s := update_Nflag s data
    let s := set_data_accum s mode arg1 arg2 data
    some (s, if address_delay s mode arg1 arg2 + (mode : Int) = (imm : Int) then 2
             else if mode = zpg then 5 else if mode = ind_zpg_x then 6
             else if mode = abs then 6 else 7)
  else none

/-- `case ROR:` of the third `switch` of `cpu_do_next_op`. -/
def case_ROR (s : State) (mode : Nat) (u : Locals) : Option (State × Int) :=
  if mode = imm ∨ mode = zpg ∨ mode = abs ∨ mode = ind_abs_x ∨ mode = ind_zpg_x then
    let g := get_args s (count_full_a mode) u.arg1 u.arg2
    let arg1 := g.1
    let arg2 := g.2.1
    let s := g.2.2
    let data := get_data_accum s mode arg1 arg2
    let intermediate := (if (data.val &&& 0x01) = 0x01 then 1 else 0) * flag_C
    let data := toByte ((data.val >>> 1) &&& 0x7f)
    let data := toByte (data.val |||
                  (s.cpu_FLAGS.val &&& (if flag_C ≠ 0 then 1 else 0)) * 0x80)
    let s := { s with cpu_FLAGS :=
                  toByte ((s.cpu_FLAGS.val &&& bnot flag_C) ||| intermediate) }
    let s := update_Zflag s data
    let s := update_Nflag s data
    let s := set_data_accum s mode arg1 arg2 data
    some (s, if address_delay s mode arg1 arg2 + (mode : Int) = (imm : Int) then 2
             else if mode = zpg then 5 else if mode = ind_zpg_x then 6
             else if mode = abs then 6 else 7)
  else none

/-- `case STA:` of the third `switch` of `cpu_do_next_op`. -/
def case_STA (s : State) (mode : Nat) (u : Locals) : Option (State × Int) :=
  if mode ≠ imm then
    let g := get_args s (count_full_imm mode) u.arg1 u.arg2
    let arg1 := g.1
    let arg2 := g.2.1
    let s := g.2.2
    let s := { s with mem :=
                  write_memory s.mem (get_effective_address s mode arg1 arg2) s.cpu_regA }
    some (s, if address_delay s mode arg1 arg2 + (mode : Int) = (zpg : Int) then 3
             else if mode = ind_zpg_x then 4 else if mode = abs then 4
             else if mode = ind_abs_x then 5 else if mode = ind_abs_y then 5 else 6)
  else none

/-- `case STX:` of the third `switch` of `cpu_do_next_op`. -/
def case_STX (s : State) (mode : Nat) (u : Locals) : Option (State × Int) :=
  if mode = zpg ∨ mode = ind_zpg_x ∨ mode = abs then
    let g := get_args s mode u.arg1 u.arg2
    let arg1 := g.1
    let arg2 := g.2.1
    let s := g.2.2
    let mode := if mode = ind_zpg_x then ind_zpg_y else mode
    let s := set_data_accum s mode arg1 arg2 s.cpu_regX
    some (s, if mode = zpg then 3 else 4)
  else none

/-- `case STY:` of the third `switch` of `cpu_do_next_op`. -/
def case_STY (s : State) (mode : Nat) (u : Locals) : Option (State × Int) :=
  if mode = zpg ∨ mode = ind_zpg_x ∨ mode = abs then
    let g := get_args s mode u.arg1 u.arg2
    let arg1 := g.1
    let arg2 := g.2.1
    let s := g.2.2
    let s := set_data_accum s mode arg1 arg2 s.cpu_regY
    some (s, if mode = zpg then 3 else 4)
  else none

/-- Third `switch` of `cpu_do_next_op` ("Variable Address Modes", on
`opcode & ~mode_mask`), followed by the final `assert(0)`. -/
def variable_address_modes (s : State) (opcode : byte) (mode : Nat) (u : Locals) :
    Option (State × Int) :=
  let sw := opcode.val &&& bnot mode_mask
  if sw = ASL then case_ASL s mode u
  else if sw = BIT then case_BIT s mode u
  else if sw = CPY then COMP s s.cpu_regY mode u
  else if sw = CPX then COMP s s.cpu_regX mode u
  else if sw = DEC then case_DEC s mode u
  else if sw = INC then case_INC s mode u
  else if sw = LDX then case_LDX s mode u
  else if sw = LDY then case_LDY s mode u
  else if sw = LSR then case_LSR s mode u
  else if sw = ROL then case_ROL s mode u
  else if sw = ROR then case_ROR s mode u
  else if sw = STA then case_STA s mode u
  else if sw = STX then case_STX s mode u
  else if sw = STY then case_STY s mode u
  else none

/-- `case BCC:` of the second `switch` of `cpu_do_next_op`. -/
def case_BCC (s : State) : Option (State × Int) :=
  let f := cpu_fetch s
  some (branch_instruction f.2 (toByte (bnot f.2.cpu_FLAGS.val &&& flag_C)) f.1)

/-- `case BCS:` of the second `switch` of `cpu_do_next_op`. -/
def case_BCS (s : State) : Option (State × Int) :=
  let f := cpu_fetch s
  some (branch_instruction f.2 (toByte (f.2.cpu_FLAGS.val &&& flag_C)) f.1)

/-- `case BEQ:` of the second `switch` of `cpu_do_next_op`. -/
def case_BEQ (s : State) : Option (State × Int) :=
  let f := cpu_fetch s
  some (branch_instruction f.2 (toByte (f.2.cpu_FLAGS.val &&& flag_Z)) f.1)

/-- `case BMI:` of the second `switch` of `cpu_do_next_op`. -/
def case_BMI (s : State) : Option (State × Int) :=
  let f := cpu_fetch s
  some (branch_instruction f.2 (toByte (f.2.cpu_FLAGS.val &&& flag_N)) f.1)

/-- `case BNE:` of the second `switch` of `cpu_do_next_op`. -/
def case_BNE (s : State) : Option (State × Int) :=
  let f := cpu_fetch s
  some (branch_instruction f.2 (toByte (bnot f.2.cpu_FLAGS.val &&& flag_Z)) f.1)

/-- `case BPL:` of the second `switch` of `cpu_do_next_op`. -/
def case_BPL (s : State) : Option (State × Int) :=
  let f := cpu_fetch s
  some (branch_instruction f.2 (toByte (bnot f.2.cpu_FLAGS.val &&& flag_N)) f.1)

/-- `case BRK:` of the second `switch` of `cpu_do_next_op`. -/
def case_BRK (s : State) : Option (State × Int) :=
  let s := { s with cpu_PC := toU16 (s.cpu_PC.val + 1) }
  (cpu_stack_push s (toByte ((s.cpu_PC.val >>> 8) &&& 0xff))).bind fun s =>
  (cpu_stack_push s (toByte (s.cpu_PC.val &&& 0xff))).bind fun s =>
  (cpu_stack_push s (toByte (s.cpu_FLAGS.val ||| flag_B))).bind fun s =>
  some ({ s with cpu_PC := read_memory_word s.mem IRQ_ADDRESS }, 7)

/-- `case BVC:` of the second `switch` of `cpu_do_next_op`. -/
def case_BVC (s : State) : Option (State × Int) :=
  let f := cpu_fetch s
  some (branch_instruction f.2 (toByte (f.2.cpu_FLAGS.val &&& flag_C)) f.1)

/-- `case BVS:` of the second `switch` of `cpu_do_next_op`. -/
def case_BVS (s : State) : Option (State × Int) :=
  let f := cpu_fetch s
  some (branch_instruction f.2 (toByte (f.2.cpu_FLAGS.val &&& flag_C)) f.1)

/-- `case CLC:` of the second `switch` of `cpu_do_next_op`. -/
def case_CLC (s : State) : Option (State × Int) :=
  some ({ s with cpu_FLAGS := toByte (s.cpu_FLAGS.val &&& bnot flag_C) }, 2)

/-- `case CLD:` of the second `switch` of `cpu_do_next_op`. -/
def case_CLD (s : State) : Option (State × Int) :=
  some ({ s with cpu_FLAGS := toByte (s.cpu_FLAGS.val &&& bnot flag_D) }, 2)

/-- `case CLI:` of the second `switch` of `cpu_do_next_op`. -/
def case_CLI (s : State) : Option (State × Int) :=
  some ({ s with cpu_FLAGS := toByte (s.cpu_FLAGS.val &&& bnot flag_I) }, 2)

/-- `case CLV:` of the second `switch` of `cpu_do_next_op`. -/
def case_CLV (s : State) : Option (State × Int) :=
  some ({ s with cpu_FLAGS := toByte (s.cpu_FLAGS.val &&& bnot flag_V) }, 2)

/-- `case DEX:` of the second `switch` of `cpu_do_next_op`. -/
def case_DEX (s : State) : Option (State × Int) :=
  let s := { s with cpu_regX := toByte (s.cpu_regX.val + 256 - 1) }
  let s := update_Zflag s s.cpu_regX
  let s := update_Nflag s s.cpu_regX
  some (s, 2)

/-- `case DEY:` of the second `switch` of `cpu_do_next_op`. -/
def case_DEY (s : State) : Option (State × Int) :=
  let s := { s with cpu_regY := toByte (s.cpu_regY.val + 256 - 1) }
  let s := update_Zflag s s.cpu_regY
  let s := update_Nflag s s.cpu_regY
  some (s, 2)

/-- `case INX:` of the second `switch` of `cpu_do_next_op`. -/
def case_INX (s : State) : Option (State × Int) :=
  let s := { s with cpu_regX := toByte (s.cpu_regX.val + 1) }
  let s := update_Zflag s s.cpu_regX
  let s := update_Nflag s s.cpu_regX
  some (s, 2)

/-- `case INY:` of the second `switch` of `cpu_do_next_op`. -/
def case_INY (s : State) : Option (State × Int) :=
  let s := { s with cpu_regX := toByte (s.cpu_regX.val + 1) }
  let s := update_Zflag s s.cpu_regY
  let s := update_Nflag s s.cpu_regY
  some (s, 2)

/-- `case JSR:` of the second `switch` of `cpu_do_next_op`. -/
def case_JSR (s : State) : Option (State × Int) :=
  let f1 := cpu_fetch s
  let f2 := cpu_fetch f1.2
  let arg1 := f1.1
  let arg2 := f2.1
  let s := f2.2
  let s := { s with cpu_PC := toU16 (s.cpu_PC.val + 65536 - 1) }
  (cpu_stack_push s (toByte ((s.cpu_PC.val >>> 8) &&& 0xff))).bind fun s =>
  (cpu_stack_push s (toByte (s.cpu_PC.val &&& 0xff))).bind fun s =>
  some ({ s with cpu_PC := toU16 (arg1.val ||| (arg2.val <<< 8)) }, 6)

/-- `case NOP:` of the second `switch` of `cpu_do_next_op`. -/
def case_NOP (s : State) : Option (State × Int) :=
  some (s, 2)

/-- `case PHA:` of the second `switch` of `cpu_do_next_op`. -/
def case_PHA (s : State) : Option (State × Int) :=
  (cpu_stack_push s s.cpu_regA).bind fun s => some (s, 3)

/-- `case PHP:` of the second `switch` of `cpu_do_next_op`. -/
def case_PHP (s : State) : Option (State × Int) :=
  (cpu_stack_push s s.cpu_FLAGS).bind fun s => some (s, 3)

/-- `case PLA:` of the second `switch` of `cpu_do_next_op`. -/
def case_PLA (s : State) : Option (State × Int) :=
  (cpu_stack_pop s).bind fun r =>
  some (accum_flags { r.2 with cpu_regA := r.1 }, 4)

/-- `case PLP:` of the second `switch` of `cpu_do_next_op`. -/
def case_PLP (s : State) : Option (State × Int) :=
  (cpu_stack_pop s).bind fun r =>
  some ({ r.2 with cpu_FLAGS := r.1 }, 4)

/-- `case RTI:` of the second `switch` of `cpu_do_next_op`. -/
def case_RTI (s : State) : Option (State × Int) :=
  (cpu_stack_pop s).bind fun r =>
  let s := { r.2 with cpu_FLAGS := r.1 }
  (cpu_stack_pop s).bind fun r =>
  let s := { r.2 with cpu_PC := toU16 r.1.val }
  (cpu_stack_pop s).bind fun r =>
  let s := { r.2 with cpu_PC := toU16 (r.2.cpu_PC.val ||| (r.1.val <<< 8)) }
  some (s, 6)

/-- `case RTS:` of the second `switch` of `cpu_do_next_op`. -/
def case_RTS (s : State) : Option (State × Int) :=
  (cpu_stack_pop s).bind fun r =>
  let s := { r.2 with cpu_PC := toU16 r.1.val }
  (cpu_stack_pop s).bind fun r =>
  let s := { r.2 with cpu_PC := toU16 (r.2.cpu_PC.val ||| (r.1.val <<< 8)) }
  let s := { s with cpu_PC := toU16 (s.cpu_PC.val + 1) }
  some (s, 6)

/-- `case SEC:` of the second `switch` of `cpu_do_next_op`. -/
def case_SEC (s : State) : Option (State × Int) :=
  some ({ s with cpu_FLAGS := toByte (s.cpu_FLAGS.val ||| flag_C) }, 2)

/-- `case SED:` of the second `switch` of `cpu_do_next_op`. -/
def case_SED (s : State) : Option (State × Int) :=
  some ({ s with cpu_FLAGS := toByte (s.cpu_FLAGS.val ||| flag_D) }, 2)

/-- `case SEI:` of the second `switch` of `cpu_do_next_op`. -/
def case_SEI (s : State) : Option (State × Int) :=
  some ({ s with cpu_FLAGS := toByte (s.cpu_FLAGS.val ||| flag_I) }, 2)

/-- `case TAX:` of the second `switch` of `cpu_do_next_op`. -/
def case_TAX (s : State) : Option (State × Int) :=
  let s := { s with cpu_regX := s.cpu_regA }
  let s := update_Nflag s s.cpu_regX
  let s := update_Zflag s s.cpu_regX
  some (s, 2)

/-- `case TAY:` of the second `switch` of `cpu_do_next_op`. -/
def case_TAY (s : State) : Option (State × Int) :=
  let s := { s with cpu_regY := s.cpu_regA }
  let s := update_Nflag s s.cpu_regY
  let s := update_Zflag s s.cpu_regY
  some (s, 2)

/-- `case TSX:` of the second `switch` of `cpu_do_next_op`. -/
def case_TSX (s : State) : Option (State × Int) :=
  let s := { s with cpu_regX := s.cpu_SP }
  let s := update_Zflag s s.cpu_regX
  let s := update_Nflag s s.cpu_regX
  some (s, 2)

/-- `case TXA:` of the second `switch` of `cpu_do_next_op`. -/
def case_TXA (s : State) : Option (State × Int) :=
  some (accum_flags { s with cpu_regA := s.cpu_regX }, 2)

/-- `case TXS:` of the second `switch` of `cpu_do_next_op`. -/
def case_TXS (s : State) : Option (State × Int) :=
  let s := { s with cpu_SP := s.cpu_regX }
  let s := update_Nflag s s.cpu_SP
  let s := update_Zflag s s.cpu_SP
  some (s, 2)

/-- `case TYA:` of the second `switch` of `cpu_do_next_op`. -/
def case_TYA (s : State) : Option (State × Int) :=
  some (accum_flags { s with cpu_regA := s.cpu_regY }, 2)

/-- `case 0x4c:` of the second `switch` of `cpu_do_next_op`. -/
def case_JMP_abs (s : State) (u : Locals) : Option (State × Int) :=
  let g := get_args s 2 u.arg1 u.arg2
  some ({ g.2.2 with cpu_PC := toU16 (g.1.val ||| (g.2.1.val <<< 8)) }, 3)

/-- `case 0x6c:` of the second `switch` of `cpu_do_next_op`. -/
def case_JMP_indirect (s : State) (u : Locals) : Option (State × Int) :=
  let g := get_args s 2 u.arg1 u.arg2
  let s := g.2.2
  let intermediate := g.1.val ||| (g.2.1.val <<< 8)
  some ({ s with cpu_PC := toU16 ((read_memory s.mem intermediate).val |||
            ((read_memory s.mem ((intermediate + 1) &&& 0xffff)).val <<< 8)) }, 5)

/-- Second `switch` of `cpu_do_next_op` ("Fixed Address Modes", on `opcode`); its
`default` continues with the third `switch`. -/
def fixed_address_modes (s : State) (opcode : byte) (mode : Nat) (u : Locals) :
    Option (State × Int) :=
  let op := opcode.val
  if op = BCC then case_BCC s
  else if op = BCS then case_BCS s
  else if op = BEQ then case_BEQ s
  else if op = BMI then case_BMI s
  else if op = BNE then case_BNE s
  else if op = BPL then case_BPL s
  else if op = BRK then case_BRK s
  else if op = BVC then case_BVC s
  else if op = BVS then case_BVS s
  else if op = CLC then case_CLC s
  else if op = CLD then case_CLD s
  else if op = CLI then case_CLI s
  else if op = CLV then case_CLV s
  else if op = DEX then case_DEX s
  else if op = DEY then case_DEY s
  else if op = INX then case_INX s
  else if op = INY then case_INY s
  else if op = JSR then case_JSR s
  else if op = NOP then case_NOP s
  else if op = PHA then case_PHA s
  else if op = PHP then case_PHP s
  else if op = PLA then case_PLA s
  else if op = PLP then case_PLP s
  else if op = RTI then case_RTI s
  else if op = RTS then case_RTS s
  else if op = SEC then case_SEC s
  else if op = SED then case_SED s
  else if op = SEI then case_SEI s
  else if op = TAX then case_TAX s
  else if op = TAY then case_TAY s
  else if op = TSX then case_TSX s
  else if op = TXA then case_TXA s
  else if op = TXS then case_TXS s
  else if op = TYA then case_TYA s
  else if op = 0x4c then case_JMP_abs s u
  else if op = 0x6c then case_JMP_indirect s u
  else variable_address_modes s opcode mode u

/-- Table `ADC_cycles` of `cpu_do_next_op`. -/
def ADC_cycles (i : Nat) : Int := [2, 3, 4, 4, 4, 4, 6, 5].getD i 0
/-- Table `AND_cycles` of `cpu_do_next_op`. -/
def AND_cycles (i : Nat) : Int := [2, 2, 3, 4, 4, 4, 6, 5].getD i 0
/-- Table `CMP_cycles` of `cpu_do_next_op`. -/
def CMP_cycles (i : Nat) : Int := [2, 3, 4, 4, 4, 4, 6, 5].getD i 0
/-- Table `EOR_cycles` of `cpu_do_next_op`. -/
def EOR_cycles (i : Nat) : Int := [2, 3, 4, 4, 4, 4, 6, 5].getD i 0
/-- Table `LDA_cycles` of `cpu_do_next_op`. -/
def LDA_cycles (i : Nat) : Int := [2, 3, 4, 4, 4, 4, 6, 5].getD i 0
/-- Table `OR_cycles` of `cpu_do_next_op` (never read by the code). -/
def OR_cycles (i : Nat) : Int := [2, 2, 3, 4, 4, 4, 6, 5].getD i 0
/-- Table `SBC_cycles` of `cpu_do_next_op`. -/
def SBC_cycles (i : Nat) : Int := [2, 3, 4, 4, 4, 4, 6, 5].getD i 0

/-- `case ADC:` of the first `switch` of `cpu_do_next_op`. -/
def case_ADC (s : State) (mode : Nat) (u : Locals) : Option (State × Int) :=
  let g := get_args s (count_full_imm mode) u.arg1 u.arg2
  let arg1 := g.1
  let arg2 := g.2.1
  let s := g.2.2
  let data := get_data_full_imm s mode arg1 arg2
  let intermediate := (s.cpu_FLAGS.val &&& flag_C) + data.val + s.cpu_regA.val
  let s := { s with cpu_FLAGS :=
      (if (s.cpu_regA.val &&& 0x80) ≠ (intermediate &&& 0x80) then toByte (s.cpu_FLAGS.val ||| flag_V)
       else toByte (s.cpu_FLAGS.val &&& bnot flag_V)) }
  let s := { s with cpu_FLAGS := toByte ((s.cpu_regA.val &&& 0x80) ||| (s.cpu_FLAGS.val &&& 0x7f)) }
  let s := update_Zflag s (toByte intermediate)
  let s := { s with cpu_FLAGS := toByte ((s.cpu_FLAGS.val &&& bnot flag_C) |||
                (if intermediate > 0xff then 1 else 0) * flag_C) }
  let s := { s with cpu_regA := toByte (intermediate &&& 0xff) }
  some (s, ADC_cycles (c_conv mode) + address_delay s mode arg1 arg2)

/-- `case AND:` of the first `switch` of `cpu_do_next_op`. -/
def case_AND (s : State) (mode : Nat) (u : Locals) : Option (State × Int) :=
  let g := get_args s (count_full_imm mode) u.arg1 u.arg2
  let arg1 := g.1
  let arg2 := g.2.1
  let s := g.2.2
  let data := get_data_full_imm s mode arg1 arg2
  let s := { s with cpu_regA := toByte (s.cpu_regA.val &&& data.val) }
  let s := accum_flags s
  some (s, AND_cycles (c_conv mode) + address_delay s mode arg1 arg2)

/-- `case CMP:` of the first `switch` of `cpu_do_next_op`. -/
def case_CMP (s : State) (mode : Nat) (u : Locals) : Option (State × Int) :=
  let g := get_args s (count_full_imm mode) u.arg1 u.arg2
  let arg1 := g.1
  let arg2 := g.2.1
  let s := g.2.2
  let data := get_data_full_imm s mode arg1 arg2
  let intermediate : Int := (s.cpu_regA.val : Int) + (-(data.val : Int) - 1) + 1
  let s := { s with cpu_FLAGS :=
      (toByte ((bits32 intermediate &&& flag_N) ||| (s.cpu_FLAGS.val &&& bnot flag_N))) }
  let s := { s with cpu_FLAGS :=
      (if intermediate = 0 then toByte (s.cpu_FLAGS.val ||| flag_Z)
       else toByte (s.cpu_FLAGS.val &&& bnot flag_Z)) }
  let s := { s with cpu_FLAGS :=
      (if s.cpu_regA.val ≥ data.val then toByte (s.cpu_FLAGS.val ||| flag_C)
       else toByte (s.cpu_FLAGS.val &&& bnot flag_C)) }
  some (s, CMP_cycles (c_conv mode))

/-- `case EOR:` of the first `switch` of `cpu_do_next_op`. -/
def case_EOR (s : State) (mode : Nat) (u : Locals) : Option (State × Int) :=
  let g := get_args s (count_full_imm mode) u.arg1 u.arg2
  let arg1 := g.1
  let arg2 := g.2.1
  let s := g.2.2
  let data := get_data_full_imm s mode arg1 arg2
  let s := { s with cpu_regA := toByte (s.cpu_regA.val ^^^ data.val) }
  let s := accum_flags s
  some (s, EOR_cycles (c_conv mode) + address_delay s mode arg1 arg2)

/-- `case LDA:` of the first `switch` of `cpu_do_next_op`. -/
def case_LDA (s : State) (mode : Nat) (u : Locals) : Option (State × Int) :=
  let g := get_args s (count_full_imm mode) u.arg1 u.arg2
  let arg1 := g.1
  let arg2 := g.2.1
  let s := g.2.2
  let s := { s with cpu_regA := get_data_full_imm s mode arg1 arg2 }
  let s := accum_flags s
  some (s, LDA_cycles (c_conv mode) + address_delay s mode arg1 arg2)

/-- `case ORA:` of the first `switch` of `cpu_do_next_op`. -/
def case_ORA (s : State) (mode : Nat) (u : Locals) : Option (State × Int) :=
  let g := get_args s (count_full_imm mode) u.arg1 u.arg2
  let arg1 := g.1
  let arg2 := g.2.1
  let s := g.2.2
  let data := get_data_full_imm s mode arg1 arg2
  let s := { s with cpu_regA := toByte (s.cpu_regA.val ||| data.val) }
  let s := accum_flags s
  some (s, AND_cycles mode + address_delay s mode arg1 arg2)

/-- `case SBC:` of the first `switch` of `cpu_do_next_op`. -/
def case_SBC (s : State) (mode : Nat) (u : Locals) : Option (State × Int) :=
  let g := get_args s (count_full_imm mode) u.arg1 u.arg2
  let arg1 := g.1
  let arg2 := g.2.1
  let s := g.2.2
  let data := get_data_full_imm s mode arg1 arg2
  let intermediate : Int :=
    if s.cpu_FLAGS.val &&& flag_D ≠ 0 then u.intermediate
    else (s.cpu_regA.val : Int) + (-(data.val : Int) - 1) + ((s.cpu_FLAGS.val &&& flag_C : Nat) : Int)
  let s :=
    if s.cpu_FLAGS.val &&& flag_D ≠ 0 then s
    else { s with cpu_FLAGS :=
        (if intermediate > 127 ∨ intermediate < -128 then toByte (s.cpu_FLAGS.val ||| flag_V)
         else toByte (s.cpu_FLAGS.val &&& bnot flag_V)) }
  let s := { s with cpu_FLAGS :=
      (if intermediate ≥ 0 then toByte (s.cpu_FLAGS.val ||| flag_C)
       else toByte (s.cpu_FLAGS.val &&& bnot flag_C)) }
  let s := { s with cpu_FLAGS :=
      (toByte ((bits32 intermediate &&& flag_N) ||| (s.cpu_FLAGS.val &&& bnot flag_N))) }
  let s := update_Zflag s (intToByte intermediate)
  let s := { s with cpu_regA := toByte (bits32 intermediate &&& 0xff) }
  some (s, SBC_cycles (c_conv mode) + address_delay s mode arg1 arg2)

/-- C function `cpu_do_next_op`: fetch, decode the mode bits, then the first `switch`
("Full address instructions", on `opcode & ~mode_mask`); its `default` continues with
the second `switch`.  The result is the new state and the returned cycle count;
`none` when an assertion aborts the program. -/
def cpu_do_next_op (s : State) (u : Locals) : Option (State × Int) :=
  let f := cpu_fetch s
  let opcode := f.1
  let s := f.2
  let mode := (opcode.val &&& mode_mask) >>> 2
  let sw := opcode.val &&& bnot mode_mask
  if sw = ADC then case_ADC s mode u
  else if sw = AND then case_AND s mode u
  else if sw = CMP then case_CMP s mode u
  else if sw = EOR then case_EOR s mode u
  else if sw = LDA then case_LDA s mode u
  else if sw = ORA then case_ORA s mode u
  else if sw = SBC then case_SBC s mode u
  else fixed_address_modes s opcode mode u

/-! ## cpu.c: the disassembler -/

/-- One lowercase hexadecimal digit. -/
def hex_digit (d : Nat) : Char :=
  if d < 10 then Char.ofNat (48 + d) else Char.ofNat (87 + d)

/-- Hexadecimal digits of `n`, most significant first, without leading zeros (at least
one digit); `fuel + 1` bounds the number of digits. -/
def to_hex : Nat → Nat → List Char
  | 0, n => [hex_digit (n % 16)]
  | fuel + 1, n => if n < 16 then [hex_digit n] else to_hex fuel (n / 16) ++ [hex_digit (n % 16)]

/-- The conversion `%0<width>x` of `printf` applied to an `unsigned int`. -/
def printf_x (width : Nat) (n : Nat) : String :=
  let d := to_hex 7 (n % 4294967296)
  String.mk (List.replicate (width - d.length) '0' ++ d)

/-- C function `address_mode_str`: the text written to its `buffer`.  In the source the
case `ind_indir_x` sets its format and then falls through into `zpg`, whose format
replaces it. -/
def address_mode_str (s : State) (mode : Nat) (arg1 arg2 : byte) : String :=
  let arg := arg1.val
  let word := arg1.val ||| (arg2.val <<< 8)
  if mode = reg_A then "A"
  else if mode = ind_indir_x then "$" ++ printf_x 2 word
  else if mode = zpg then "$" ++ printf_x 2 arg
  else if mode = rel then
    "$" ++ printf_x 2 arg1.val ++ " ; $" ++
      printf_x 4 (0xffff &&& (s.cpu_PC.val +
        (if arg1.val &&& 0x80 ≠ 0 then 0xff00 ||| arg1.val else arg1.val)))
  else if mode = imm then "#" ++ printf_x 2 arg
  else if mode = abs then "$" ++ printf_x 4 word
  else if mode = ind_abs then "($" ++ printf_x 4 word ++ ")"
  else if mode = indir_ind_y then "($" ++ printf_x 4 word ++ "), Y"
  else if mode = ind_zpg_x then "$" ++ printf_x 2 arg ++ ", X"
  else if mode = ind_zpg_y then "$" ++ printf_x 2 arg ++ ", Y"
  else if mode = ind_abs_x then "$" ++ printf_x 4 word ++ ", X"
  else if mode = ind_abs_y then "$" ++ printf_x 4 word ++ ", Y"
  else if mode = indir_abs then "($" ++ printf_x 4 word ++ ")"
  else "<??>"

/-- Variables of `dissasemble` that its three `switch` statements read and update:
the CPU state (the program counter is advanced by the fetches), the output `buffer`
(the empty string stands for `buffer[0] == 0`), and the locals `arg1`, `arg2`, `mode`. -/
structure Dis where
  s : State
  buffer : String
  arg1 : byte
  arg2 : byte
  mode : Nat

/-- The statement sequence `get_args(count, ..); address_mode_str(mode, ..);
sprintf(buffer, "<name> %s", add_str)` shared by most cases of `dissasemble`; `mode2`
is the mode passed to `address_mode_str`. -/
def dis_operand (d : Dis) (name : String) (count : Nat) (mode2 : Nat) : Dis :=
  let g := get_args d.s count d.arg1 d.arg2
  { s := g.2.2, arg1 := g.1, arg2 := g.2.1, mode := mode2,
    buffer := name ++ " " ++ address_mode_str g.2.2 mode2 g.1 g.2.1 }

/-- First `switch` of `dissasemble` (on `opcode & ~mode_mask`). -/
def dis_full_address (d : Dis) (opcode : byte) : Dis :=
  let sw := opcode.val &&& bnot mode_mask
  if sw = ADC then dis_operand d "ADC" (count_full_imm d.mode) d.mode
  else if sw = AND then dis_operand d "AND" (count_full_imm d.mode) d.mode
  else if sw = CMP then dis_operand d "CMP" (count_full_imm d.mode) d.mode
  else if sw = EOR then dis_operand d "EOR" (count_full_imm d.mode) d.mode
  else if sw = LDA then dis_operand d "LDA" (count_full_imm d.mode) d.mode
  else if sw = ORA then dis_operand d "ORA" (count_full_imm d.mode) d.mode
  else if sw = SBC then dis_operand d "SBC" (count_full_imm d.mode) d.mode
  else d

/-- Second `switch` of `dissasemble` (on `opcode`).  The case `BPL` does not fetch its
operand. -/
def dis_fixed_address (d : Dis) (opcode : byte) : Dis :=
  let op := opcode.val
  if op = BCC then dis_operand d "BCC" 1 rel
  else if op = BCS then dis_operand d "BCS" 1 rel
  else if op = BEQ then dis_operand d "BEQ" 1 rel
  else if op = BMI then dis_operand d "BMI" 1 rel
  else if op = BNE then dis_operand d "BNE" 1 rel
  else if op = BPL then dis_operand d "BPL" 0 rel
  else if op = BRK then { d with buffer := "BRK" }
  else if op = BVC then dis_operand d "BVC" 1 rel
  else if op = BVS then dis_operand d "BVS" 1 rel
  else if op = CLC then { d with buffer := "CLC" }
  else if op = CLD then { d with buffer := "CLD" }
  else if op = CLI then { d with buffer := "CLI" }
  else if op = CLV then { d with buffer := "CLV" }
  else if op = DEX then { d with buffer := "DEX" }
  else if op = DEY then { d with buffer := "DEY" }
  else if op = INX then { d with buffer := "INX" }
  else if op = INY then { d with buffer := "INY" }
  else if op = JSR then { dis_operand d "JSR" 2 abs with mode := d.mode }
  else if op = NOP then { d with buffer := "NOP" }
  else if op = PHA then { d with buffer := "PHA" }
  else if op = PHP then { d with buffer := "PHP" }
  else if op = PLA then { d with buffer := "PLA" }
  else if op = PLP then { d with buffer := "PLP" }
  else if op = RTI then { d with buffer := "RTI" }
  else if op = RTS then { d with buffer := "RTS" }
  else if op = SEC then { d with buffer := "SEC" }
  else if op = SED then { d with buffer := "SED" }
  else if op = SEI then { d with buffer := "SEI" }
  else if op = TAX then { d with buffer := "TAX" }
  else if op = TAY then { d with buffer := "TAY" }
  else if op = TSX then { d with buffer := "TSX" }
  else if op = TXA then { d with buffer := "TXA" }
  else if op = TXS then { d with buffer := "TXS" }
  else if op = TYA then { d with buffer := "TYA" }
  else if op = 0x4c then { dis_operand d "JMP" 2 abs with mode := d.mode }
  else if op = 0x6c then { dis_operand d "JMP" 2 ind_abs with mode := d.mode }
  else d

/-- Third `switch` of `dissasemble` (on `opcode & ~mode_mask`); `none` when one of its
assertions fails. -/
def dis_variable_address (d : Dis) (opcode : byte) : Option Dis :=
  let sw := opcode.val &&& bnot mode_mask
  let mode := d.mode
  if sw = ASL then
    if mode = imm ∨ mode = zpg ∨ mode = ind_zpg_x ∨ mode = abs ∨ mode = ind_abs_x then
      some (dis_operand d "ASL" (count_full_a mode) (if mode = imm then reg_A else mode))
    else none
  else if sw = BIT then
    if mode = zpg ∨ mode = abs then
      some (dis_operand d "BIT" (if mode = zpg then 1 else 2) mode)
    else none
  else if sw = CPY then
    if mode = imm ∨ mode = zpg ∨ mode = abs then
      some (dis_operand d "CPY" (count_full_imm mode) mode)
    else none
  else if sw = CPX then
    if mode = imm ∨ mode = zpg ∨ mode = abs then
      some (dis_operand d "CPX" (count_full_imm mode) mode)
    else none
  else if sw = DEC then
    if mode = zpg ∨ mode = ind_zpg_x ∨ mode = abs ∨ mode = ind_abs_x then
      some (dis_operand d "DEC" (count_full_a mode) mode)
    else none
  else if sw = INC then
    if mode = zpg ∨ mode = ind_zpg_x ∨ mode = abs ∨ mode = ind_abs_x then
      some (dis_operand d "INC" (count_full_a mode) mode)
    else none
  else if sw = LDX then
    if mode = ind_indir_x ∨ mode = zpg ∨ mode = abs ∨ mode = ind_abs_x ∨ mode = ind_zpg_x then
      let mode := if mode = ind_indir_x then imm else mode
      some (dis_operand d "LDX" (count_full_imm mode) mode)
    else none
  else if sw = LDY then
    if mode = imm ∨ mode = zpg ∨ mode = abs ∨ mode = ind_abs_x ∨ mode = ind_zpg_x then
      some (dis_operand d "LDY" (count_full_imm mode) mode)
    else none
  else if sw = LSR then
    if mode = imm ∨ mode = zpg ∨ mode = abs ∨ mode = ind_abs_x ∨ mode = ind_zpg_x then
      some (dis_operand d "LSR" (count_full_a mode) (if mode = imm then reg_A else mode))
    else none
  else if sw = ROL then
    if mode = imm ∨ mode = zpg ∨ mode = abs ∨ mode = ind_abs_x ∨ mode = ind_zpg_x then
      some (dis_operand d "ROL" (count_full_a mode) (if mode = imm then reg_A else mode))
    else none
  else if sw = ROR then
    if mode = imm ∨ mode = zpg ∨ mode = abs ∨ mode = ind_abs_x ∨ mode = ind_zpg_x then
      some (dis_operand d "ROR" (count_full_a mode) (if mode = imm then reg_A else mode))
    else none
  else if sw = STA then
    if mode ≠ imm then
      some (dis_operand d "STA" (count_full_imm mode) mode)
    else none
  else if sw = STX then
    if mode = zpg ∨ mode = ind_zpg_x ∨ mode = abs then
      some (dis_operand d "STX" mode (if mode = ind_zpg_x then ind_zpg_y else mode))
    else none
  else if sw = STY then
    if mode = zpg ∨ mode = ind_zpg_x ∨ mode = abs then
      some (dis_operand d "STY" mode mode)
    else none
  else some d

/-- C function `dissasemble(adr, buffer, buffsize)`: the state it leaves and the text it
leaves in `buffer`; `none` when an assertion aborts the program.  `u` gives the
indeterminate initial contents of the locals `arg1` and `arg2`. -/
def dissasemble (s : State) (adr : uint16_t) (u : Locals) : Option (State × String) :=
  let _PC := s.cpu_PC
  let s := { s with cpu_PC := adr }
  let f := cpu_fetch s
  let opcode := f.1
  let mode := (opcode.val &&& mode_mask) >>> 2
  let d : Dis := { s := f.2, buffer := "", arg1 := u.arg1, arg2 := u.arg2, mode := mode }
  let d := dis_full_address d opcode
  let d := dis_fixed_address d opcode
  if d.buffer ≠ "" then
    some ({ d.s with cpu_PC := _PC }, d.buffer)
  else
    (dis_variable_address d opcode).bind fun d =>
      let buffer := if d.buffer = "" then "<" ++ printf_x 2 opcode.val ++ ">" else d.buffer
      some ({ d.s with cpu_PC := _PC }, buffer)

/-! ## main.c: the reference host -/

/-- Array `hello_world`: the string, then the machine code. -/
def hello_world : List byte :=
  [0x48, 0x65, 0x6c, 0x6c, 0x6f, 0x20, 0x57, 0x6f, 0x72, 0x6c, 0x64, 0x21, 0x00,
   0xa2, 0xff,
   0x9a,
   0xe8,
   0xbd, 0x00, 0x80,
   0x9d, 0x00, 0x40,
   0xd0, 0xf7,
   0xa9, 0xaa,
   0x8d, 0xff, 0x40,
   0xa9, 0xbb,
   0x8d, 0xff, 0x40]

/-- Zero-initialised static arrays. -/
def zero_memory : Memory :=
  { RAM_DATA := fun _ => 0, IO_MEM := fun _ => 0, ROM_DATA := fun _ => 0 }

/-- Static initial values of the registers (`cpu_SP = 0xff`, the others zero). -/
def initial_state : State :=
  { cpu_regA := 0, cpu_regX := 0, cpu_regY := 0, cpu_SP := 0xff, cpu_FLAGS := 0,
    cpu_PC := 0, mem := zero_memory }

/-- The copy loop of `load_hello_world`, `ROM_DATA[i] = hello_world[i]` from index `i`. -/
def copy_rom (rom : Nat → byte) : List byte → Nat → Nat → byte
  | [], _ => rom
  | b :: bs, i => copy_rom (fun j => if j = i then b else rom j) bs (i + 1)

/-- C function `load_hello_world`. -/
def load_hello_world (m : Memory) : Memory :=
  let rom := copy_rom m.ROM_DATA hello_world 0
  let rom := fun j => if j = RST_ADDRESS - 0x8000 then (0x0d : byte) else rom j
  let rom := fun j => if j = RST_ADDRESS - 0x8000 + 1 then (0x80 : byte) else rom j
  { m with ROM_DATA := rom }

/-- The bytes `puts` prints from index `i` of an array: up to the first NUL, reading at
most `n` bytes. -/
def c_string (f : Nat → byte) : Nat → Nat → List byte
  | 0, _ => []
  | n + 1, i => if (f i).val = 0 then [] else f i :: c_string f n (i + 1)

/-- What the terminal device does with a command. -/
inductive Output where
  | puts_IO_MEM (text : List byte)
  | halt_message
  deriving DecidableEq, Repr

/-- The emulated machine together with what the host has printed so far. -/
structure Host where
  cpu : State
  out : List Output

/-- C function `run_terminal_interface`; the Boolean is its return value `running`. -/
def run_terminal_interface (h : Host) : Bool × Host :=
  let command := read_memory h.cpu.mem 0x40ff
  let cpu := { h.cpu with mem := write_memory h.cpu.mem 0x40ff 0 }
  if command.val = 0xaa then
    (true, { cpu := cpu, out := h.out ++ [Output.puts_IO_MEM (c_string cpu.mem.IO_MEM 0x4000 0)] })
  else if command.val = 0xbb then
    (false, { cpu := cpu, out := h.out ++ [Output.halt_message] })
  else (true, { cpu := cpu, out := h.out })

/-- Body of the `while` loop of `run_mode`: one instruction, then the terminal.
`none` when an assertion aborts the program. -/
def run_mode_body (h : Host) (u : Locals) : Option (Bool × Host) :=
  (cpu_do_next_op h.cpu u).bind fun r =>
    some (run_terminal_interface { h with cpu := r.1 })

/-- Result of running a loop with a bound on the number of iterations. -/
inductive Outcome where
  | returned (h : Host)
  | aborted
  | out_of_fuel

/-- C function `run_mode`, with `fuel` bounding the number of loop iterations; `g i`
gives the indeterminate locals of the `i`-th call of `cpu_do_next_op`. -/
def run_mode : Nat → Host → (Nat → Locals) → Nat → Outcome
  | 0, _, _, _ => Outcome.out_of_fuel
  | fuel + 1, h, g, i =>
    match run_mode_body h (g i) with
    | none => Outcome.aborted
    | some (running, h1) =>
      if running then run_mode fuel h1 g (i + 1) else Outcome.returned h1

/-- The part of `main` before `run_mode` when no input file is given:
`load_hello_world(); write_memory(0x40ff, 0); cpu_reset();`. -/
def main_setup : Host :=
  let m := load_hello_world initial_state.mem
  let m := write_memory m 0x40ff 0
  { cpu := cpu_reset { initial_state with mem := m }, out := [] }

/-! ## Vocabulary used to state the properties -/

/-- Truth value of the C expression `p & f`: the flag with mask `f` is set in the
status byte `p`. -/
def flag_set (p : byte) (f : Nat) : Bool := p.val &&& f != 0

/-- Truncation of a (possibly negative) integer to `uint16_t` (arithmetic mod 2^16). -/
def intToU16 (i : Int) : uint16_t :=
  ⟨(i % 65536).toNat, by
    have h1 : (0 : Int) ≤ i % 65536 := Int.emod_nonneg _ (by decide)
    have h2 : i % 65536 < 65536 := Int.emod_lt_of_pos _ (by decide)
    omega⟩

/-- What a load of the byte `v` into a register leaves in the rest of the state `t`,
starting from `s`, for a two-byte instruction: Z and N reflect `v`, the other six bits
of P are unchanged, PC has advanced by 2, SP and the memory are unchanged. -/
def load_post (s t : State) (v : byte) : Prop :=
  flag_set t.cpu_FLAGS flag_Z = decide (v.val = 0) ∧
  flag_set t.cpu_FLAGS flag_N = v.val.testBit 7 ∧
  t.cpu_FLAGS.val &&& 0x7d = s.cpu_FLAGS.val &&& 0x7d ∧
  t.cpu_PC = toU16 (s.cpu_PC.val + 2) ∧
  t.cpu_SP = s.cpu_SP ∧ t.mem = s.mem

/-! ## Concrete inputs -/

/-- Memory `m` with the bytes `bs` stored from address `a` on. -/
def store_bytes (m : Memory) : Nat → List byte → Memory
  | _, [] => m
  | a, b :: bs => store_bytes (write_memory m a b) (a + 1) bs

/-- A machine with zeroed memory except for the bytes `bs` at address `pc`, where the
program counter points; SP is `0xff`, the other registers are as given. -/
def machine (pc : Nat) (bs : List byte) (a x y p : byte) : State :=
  { cpu_regA := a, cpu_regX := x, cpu_regY := y, cpu_SP := 0xff, cpu_FLAGS := p,
    cpu_PC := toU16 pc, mem := store_bytes zero_memory pc bs }

/-- `LDA #$80` at `$1000` with A = 1, X = 2, Y = 3, P = `$43`. -/
def lda_input : State := machine 0x1000 [0xA9, 0x80] 1 2 3 0x43

/-- `LDY #$05` at `$1000` with all registers and flags zero. -/
def ldy_input : State := machine 0x1000 [0xA0, 0x05] 0 0 0 0

/-- Some contents for the uninitialised locals. -/
def locals0 : Locals := { arg1 := 0, arg2 := 0, intermediate := 0 }

/-- The condition under which each branch is taken, by opcode: BCC (0x90) C=0,
BCS (0xB0) C=1, BEQ (0xF0) Z=1, BNE (0xD0) Z=0, BMI (0x30) N=1, BPL (0x10) N=0. -/
def branch_condition (op : Nat) (p : byte) : Bool :=
  if op = 0x90 then !flag_set p flag_C
  else if op = 0xB0 then flag_set p flag_C
  else if op = 0xF0 then flag_set p flag_Z
  else if op = 0xD0 then !flag_set p flag_Z
  else if op = 0x30 then flag_set p flag_N
  else !flag_set p flag_N

/-- `BNE $10` at `$1000` with all flags clear. -/
def bne_forward_input : State := machine 0x1000 [0xD0, 0x10] 0 0 0 0

/-- `BNE $80` at `$1080` with all flags clear. -/
def bne_backward_input : State := machine 0x1080 [0xD0, 0x80] 0 0 0 0

/-- `BVC $10` at `$1000` with all flags clear (V = 0, C = 0). -/
def bvc_input : State := machine 0x1000 [0x50, 0x10] 0 0 0 0

/-- `BVS $10` at `$1000` with only the carry flag set (V = 0, C = 1). -/
def bvs_input : State := machine 0x1000 [0x70, 0x10] 0 0 0 0x01

/-- The sum `tmp = A + m + c` of ADC, with `c` the carry flag of `s` as 0 or 1. -/
def adc_tmp (s : State) (m : byte) : Nat :=
  s.cpu_regA.val + m.val + (if flag_set s.cpu_FLAGS flag_C then 1 else 0)

/-- `ADC #$50` at `$1000` with A = `$50` and all flags clear. -/
def adc_input : State := machine 0x1000 [0x69, 0x50] 0x50 0 0 0

/-- `PHA; PLA` at `$1000` with A = `$80`, SP = `$ff` and all flags clear. -/
def pha_pla_input : State := machine 0x1000 [0x48, 0x68] 0x80 0 0 0

/-- `JSR $1005` at `$1000` and `RTS` at `$1005`, SP = `$ff`. -/
def jsr_rts_input : State := machine 0x1000 [0x20, 0x05, 0x10, 0xEA, 0xEA, 0x60] 1 2 3 0x41

/-- Two states agree on A, X, Y, SP, P and the memory (everything but the program
counter). -/
def eq_but_PC (a b : State) : Prop :=
  a.cpu_regA = b.cpu_regA ∧ a.cpu_regX = b.cpu_regX ∧ a.cpu_regY = b.cpu_regY ∧
    a.cpu_SP = b.cpu_SP ∧ a.cpu_FLAGS = b.cpu_FLAGS ∧ a.mem = b.mem

/-- `LDA #$05` at `$1000`, with the program counter elsewhere (`$2000`). -/
def dis_input : State :=
  { machine 0x1000 [0xA9, 0x05] 1 2 3 0x41 with cpu_PC := 0x2000 }

/-- The opcode at the program counter is one of those of the Hello World program:
LDX # (A2), TXS (9A), INX (E8), LDA abs,X (BD), STA abs,X (9D), BNE (D0), LDA # (A9),
STA abs (8D). -/
def hello_op (s : State) : Bool :=
  decide ((read_memory s.mem s.cpu_PC.val).val ∈
    [0xA2, 0x9A, 0xE8, 0xBD, 0x9D, 0xD0, 0xA9, 0x8D])

/-- Every instruction executed in the first `fuel` iterations of `run_mode` from `h`
(with `locals0` for the locals) has one of the opcodes of `hello_op`. -/
def only_hello_ops : Nat → Host → Bool
  | 0, _ => true
  | fuel + 1, h =>
    hello_op h.cpu &&
      match run_mode_body h locals0 with
      | none => true
      | some (running, h1) => if running then only_hello_ops fuel h1 else true

/-- The commands the terminal reads at `$40FF`, one per iteration of the loop of
`run_mode`, for at most `fuel` iterations (the list ends when the loop ends). -/
def commands_seen : Nat → Host → (Nat → Locals) → Nat → List Nat
  | 0, _, _, _ => []
  | fuel + 1, h, g, i =>
    match cpu_do_next_op h.cpu (g i) with
    | none => []
    | some r =>
      (read_memory r.1.mem 0x40ff).val ::
        (if (run_terminal_interface { h with cpu := r.1 }).1
          then commands_seen fuel (run_terminal_interface { h with cpu := r.1 }).2 g (i + 1)
          else [])

/-- The machine after `n` iterations of the loop of `run_mode` that all leave `running`
true; `none` if an assertion fails or the loop ends on the way. -/
def after_iterations : Nat → Host → (Nat → Locals) → Nat → Option Host
  | 0, h, _, _ => some h
  | n + 1, h, g, i =>
    match run_mode_body h (g i) with
    | none => none
    | some (running, h1) => if running then after_iterations n h1 g (i + 1) else none

/-- The output of a run that returned. -/
def Outcome.printed : Outcome → Option (List Output)
  | Outcome.returned h => some h.out
  | _ => none

/-- The run did not finish within its fuel. -/
def Outcome.ran_out : Outcome → Bool
  | Outcome.out_of_fuel => true
  | _ => false

/-- The 12 bytes of "Hello World!". -/
def hello_text : List byte :=
  [0x48, 0x65, 0x6c, 0x6c, 0x6f, 0x20, 0x57, 0x6f, 0x72, 0x6c, 0x64, 0x21]

/-- `SBC #$F0` at `$1000` with A = `$50` and only the carry flag set (D = 0, C = 1). -/
def sbc_input : State := machine 0x1000 [0xE9, 0xF0] 0x50 0 0 0x01

/-- `CPX #$03` at `$0000` with X = 5. -/
def cpx_immediate_input : State := machine 0x0000 [0xE0, 0x03] 0 5 0 0

/-- `CPY #$03` at `$0000` with Y = 5. -/
def cpy_immediate_input : State := machine 0x0000 [0xC0, 0x03] 0 0 5 0

/-- `CPX $02` at `$0000` with X = 5; the zero-page cell `$02` holds 3. -/
def cpx_zero_page_input : State := machine 0x0000 [0xE4, 0x02, 0x03] 0 5 0 0

/-- `CPY $02` at `$0000` with Y = 5; the zero-page cell `$02` holds 3. -/
def cpy_zero_page_input : State := machine 0x0000 [0xC4, 0x02, 0x03] 0 0 5 0

/-- `ASL A` at `$1000` with A = `$40` and all flags clear. -/
def asl_input : State := machine 0x1000 [0x0A] 0x40 0 0 0

/-- `LSR A` at `$1000` with A = `$01` and only the N flag set. -/
def lsr_input : State := machine 0x1000 [0x4A] 0x01 0 0 0x80

/-- `INY` at `$1000` with X = 7 and Y = 5. -/
def iny_input : State := machine 0x1000 [0xC8] 0 7 5 0

/-- `BIT $02` at `$0000` with A = 0 and all flags clear; the zero-page cell `$02` holds
`$C0`. -/
def bit_input : State := machine 0x0000 [0x24, 0x02, 0xC0] 0 0 0 0

/-- The sum `tmp = A + (~m & 0xFF) + c` of SBC, with `c` the carry flag of `s` as 0 or 1. -/
def sbc_tmp (s : State) (m : byte) : Nat :=
  s.cpu_regA.val + (bnot m.val &&& 0xFF) + (if flag_set s.cpu_FLAGS flag_C then 1 else 0)

/-- `SBC #$30` at `$1000` with A = `$50` and only the carry flag set (D = 0, C = 1). -/
def sbc_plain_input : State := machine 0x1000 [0xE9, 0x30] 0x50 0 0 0x01

/-- The operand of the instruction at PC, by addressing form: the byte after the opcode
(immediate), the zero-page byte that this byte addresses (zero page), or the byte at the
little-endian 16-bit address held by the two bytes after the opcode (absolute). -/
def operand_at (s : State) (form : Nat) : byte :=
  let b1 := read_memory s.mem (s.cpu_PC.val + 1)
  let b2 := read_memory s.mem (s.cpu_PC.val + 2)
  if form = imm then b1
  else if form = zpg then read_memory s.mem b1.val
  else read_memory s.mem (b1.val ||| (b2.val <<< 8))

/-- What a comparison of the register value `r` with the operand `m` leaves in `t`,
starting from `s`: C = (r >= m), Z = (r == m), N = bit 7 of `(r - m) & 0xFF`; A, X, Y, SP
and the memory are unchanged, and so are V, bit 5, B, D and I (mask 0x7C) of P. -/
def compare_post (s t : State) (r m : byte) : Prop :=
  flag_set t.cpu_FLAGS flag_C = decide (r.val ≥ m.val) ∧
  flag_set t.cpu_FLAGS flag_Z = decide (r = m) ∧
  flag_set t.cpu_FLAGS flag_N = (bits32 ((r.val : Int) - (m.val : Int)) &&& 0xFF).testBit 7 ∧
  t.cpu_regA = s.cpu_regA ∧ t.cpu_regX = s.cpu_regX ∧ t.cpu_regY = s.cpu_regY ∧
  t.cpu_SP = s.cpu_SP ∧ t.mem = s.mem ∧
  t.cpu_FLAGS.val &&& 0x7C = s.cpu_FLAGS.val &&& 0x7C

/-- `CMP $1003` at `$1000` with A = `$30`, X = 1, Y = 2 and P = `$43` (V, Z, C set); the
cell `$1003` holds `$50`. -/
def cmp_input : State := machine 0x1000 [0xCD, 0x03, 0x10, 0x50] 0x30 1 2 0x43

/-- The address of the memory operand of the instruction at PC, by addressing form: the
byte `b1` after the opcode (zero page), `(b1 + X) & 0xFF` (zero page,X), the little-endian
word `b1 | b2 << 8` after the opcode (absolute), or that word plus X, modulo 2^16
(absolute,X). -/
def operand_address (s : State) (form : Nat) : Nat :=
  let b1 := (read_memory s.mem (s.cpu_PC.val + 1)).val
  let b2 := (read_memory s.mem (s.cpu_PC.val + 2)).val
  if form = zpg then b1
  else if form = ind_zpg_x then (b1 + s.cpu_regX.val) % 256
  else if form = abs then b1 ||| (b2 <<< 8)
  else ((b1 ||| (b2 <<< 8)) + s.cpu_regX.val) % 65536

/-- The value a shift or rotate instruction operates on: A in the accumulator form (mode
code `imm`), the byte at `operand_address` in the memory forms. -/
def shift_operand (s : State) (form : Nat) : byte :=
  if form = imm then s.cpu_regA else read_memory s.mem (operand_address s form)

/-- The carry flag of `s` as the number 0 or 1. -/
def carry_in (s : State) : Nat := if flag_set s.cpu_FLAGS flag_C then 1 else 0

/-- The value ROL writes: `((v << 1) | c) & 0xFF`. -/
def rol_value (v : byte) (c : Nat) : Nat := ((v.val <<< 1) ||| c) &&& 0xFF

/-- The value ROR writes: `(v >> 1) | (c << 7)`. -/
def ror_value (v : byte) (c : Nat) : Nat := (v.val >>> 1) ||| (c <<< 7)

/-- The opcode of ROL (`left`) or ROR in each of the five forms. -/
def rotate_opcode (left : Bool) (form : Nat) : Nat :=
  if left then
    (if form = imm then 0x2A else if form = zpg then 0x26 else if form = ind_zpg_x then 0x36
     else if form = abs then 0x2E else 0x3E)
  else
    (if form = imm then 0x6A else if form = zpg then 0x66 else if form = ind_zpg_x then 0x76
     else if form = abs then 0x6E else 0x7E)

/-- What a shift or rotate that writes the value `w` and moves `cout` into the carry
leaves in `t`, starting from `s`: a byte of value `w` is written to A (accumulator form,
memory unchanged) or to the operand address (memory forms, A unchanged); C = `cout`,
Z = (w == 0), N = bit 7 of `w`; V, bit 5, B, D, I (mask 0x7C), X, Y and SP are unchanged. -/
def rotate_post (s t : State) (form : Nat) (w : Nat) (cout : Bool) : Prop :=
  (∃ b : byte, b.val = w ∧
    if form = imm then t.cpu_regA = b ∧ t.mem = s.mem
    else t.cpu_regA = s.cpu_regA ∧ t.mem = write_memory s.mem (operand_address s form) b) ∧
  flag_set t.cpu_FLAGS flag_C = cout ∧
  flag_set t.cpu_FLAGS flag_Z = decide (w = 0) ∧
  flag_set t.cpu_FLAGS flag_N = w.testBit 7 ∧
  t.cpu_FLAGS.val &&& 0x7C = s.cpu_FLAGS.val &&& 0x7C ∧
  t.cpu_regX = s.cpu_regX ∧ t.cpu_regY = s.cpu_regY ∧ t.cpu_SP = s.cpu_SP

/-- `ROL $10,X` at `$1000` with X = 2, A = 7 and P = `$41` (V and C set); the zero-page
cell `$12` holds `$C1`. -/
def rol_input : State :=
  { machine 0x1000 [0x36, 0x10] 7 2 3 0x41 with
    mem := write_memory (store_bytes zero_memory 0x1000 [0x36, 0x10]) 0x12 0xC1 }

/-- `ROR A` at `$1000` with A = `$03` and P = `$41` (V and C set). -/
def ror_input : State := machine 0x1000 [0x6A] 0x03 2 3 0x41

/-- `TXS` at `$1000` with X = `$80` and all flags clear. -/
def txs_input : State := machine 0x1000 [0x9A] 0 0x80 0 0

/-- The little-endian word held by the memory cells `a` and `a + 1`. -/
def word_at (m : Memory) (a : Nat) : Nat :=
  (read_memory m a).val ||| ((read_memory m (a + 1)).val <<< 8)

/-- `BRK` at `$1000` with A = 1, X = 2, Y = 3, SP = `$ff` and P = `$41` (I clear); the
IRQ/BRK vector `$FFFE/$FFFF` holds `$1234`. -/
def brk_input : State :=
  { machine 0x1000 [0x00] 1 2 3 0x41 with
    mem := write_memory (write_memory (store_bytes zero_memory 0x1000 [0x00]) 0xFFFE 0x34)
      0xFFFF 0x12 }

/-- A state with D set and I clear (P = `$08`) and PC = 0; the reset vector
`$FFFC/$FFFD` holds `$800d`. -/
def reset_input : State :=
  { machine 0xFFFC [0x0d, 0x80] 0 0 0 0x08 with cpu_PC := 0 }

/-- A state with I clear (P = `$00`), PC = `$1000` and SP = `$ff`; the IRQ vector
`$FFFE/$FFFF` holds `$1234`. -/
def irq_input : State :=
  { machine 0x1000 [0xEA] 0 0 0 0 with
    mem := write_memory (write_memory (store_bytes zero_memory 0x1000 [0xEA]) 0xFFFE 0x34)
      0xFFFF 0x12 }

/-- `STX $2000` at `$1000` with X = 7 and everything else zero. -/
def stx_absolute_input : State := machine 0x1000 [0x8E, 0x00, 0x20] 0 7 0 0

/-- `STY $10,X` at `$1000` with X = 2, Y = 9 and everything else zero. -/
def sty_zero_page_x_input : State := machine 0x1000 [0x94, 0x10] 0 2 9 0

/-- The cycle table of the read-modify-write instructions and BIT, by opcode: ASL, LSR,
ROL, ROR in accumulator, zero-page, zero-page,X, absolute and absolute,X form (2, 5, 6, 6,
7), INC and DEC in the four memory forms (5, 6, 6, 7), BIT zero-page (3) and absolute (4). -/
def rmw_cycle_table : List (Nat × Int) :=
  [(0x0A, 2), (0x06, 5), (0x16, 6), (0x0E, 6), (0x1E, 7),
   (0x4A, 2), (0x46, 5), (0x56, 6), (0x4E, 6), (0x5E, 7),
   (0x2A, 2), (0x26, 5), (0x36, 6), (0x2E, 6), (0x3E, 7),
   (0x6A, 2), (0x66, 5), (0x76, 6), (0x6E, 6), (0x7E, 7),
   (0xE6, 5), (0xF6, 6), (0xEE, 6), (0xFE, 7),
   (0xC6, 5), (0xD6, 6), (0xCE, 6), (0xDE, 7),
   (0x24, 3), (0x2C, 4)]

/-- The cycle count of a shift, rotate, INC or DEC by addressing form: 2 (accumulator),
5 (zero page), 6 (zero page,X), 6 (absolute), 7 (absolute,X). -/
def rmw_cycles (form : Nat) : Int :=
  if form = imm then 2 else if form = zpg then 5 else if form = ind_zpg_x then 6
  else if form = abs then 6 else 7

/-- `ASL $20F0,X` at `$1000` with X = `$20`: the indexed address `$2110` lies in the page
after that of `$20F0`. -/
def asl_page_cross_input : State := machine 0x1000 [0x1E, 0xF0, 0x20] 0 0x20 0 0

/-- The masks of the ALU group (first `switch`): ADC, AND, CMP, EOR, LDA, ORA, SBC. -/
def alu_bases : List Nat := [ADC, AND, CMP, EOR, LDA, ORA, SBC]

/-- The mnemonic of an ALU-group mask. -/
def alu_mnemonic (base : Nat) : String :=
  if base = ADC then "ADC" else if base = AND then "AND" else if base = CMP then "CMP"
  else if base = EOR then "EOR" else if base = LDA then "LDA" else if base = ORA then "ORA"
  else "SBC"

/-- The operand templates of the disassembly, by addressing mode, applied to the operand
bytes `b1`, `b2` that follow the opcode: `#%02x`, `$%02x`, `$%02x, X`, `$%04x`, `$%04x, X`,
`$%04x, Y`, `($%02x, X)` and `($%02x), Y`. -/
def operand_template (mode : Nat) (b1 b2 : byte) : String :=
  if mode = imm then "#" ++ printf_x 2 b1.val
  else if mode = zpg then "$" ++ printf_x 2 b1.val
  else if mode = ind_zpg_x then "$" ++ printf_x 2 b1.val ++ ", X"
  else if mode = abs then "$" ++ printf_x 4 (b1.val ||| (b2.val <<< 8))
  else if mode = ind_abs_x then "$" ++ printf_x 4 (b1.val ||| (b2.val <<< 8)) ++ ", X"
  else if mode = ind_abs_y then "$" ++ printf_x 4 (b1.val ||| (b2.val <<< 8)) ++ ", Y"
  else if mode = ind_indir_x then "($" ++ printf_x 2 b1.val ++ ", X)"
  else "($" ++ printf_x 2 b1.val ++ "), Y"

/-- The opcodes of the second `switch` (fixed address modes). -/
def fixed_opcodes : List Nat :=
  [BCC, BCS, BEQ, BMI, BNE, BPL, BRK, BVC, BVS, CLC, CLD, CLI, CLV, DEX, DEY, INX, INY, JSR,
   NOP, PHA, PHP, PLA, PLP, RTI, RTS, SEC, SED, SEI, TAX, TAY, TSX, TXA, TXS, TYA, 0x4c, 0x6c]

/-- `LDA ($20,X)` at `$1000`. -/
def lda_indirect_x_input : State := machine 0x1000 [0xA1, 0x20] 0 0 0 0

/-- `LDA ($20),Y` at `$1000`. -/
def lda_indirect_y_input : State := machine 0x1000 [0xB1, 0x20] 0 0 0 0

/-- `LDA $c000` at `$1000`. -/
def lda_absolute_input : State := machine 0x1000 [0xAD, 0x00, 0xC0] 0 0 0 0

/-- The byte `b` (an opcode) at `$1000`, followed by zeros. -/
def opcode_input (b : byte) : State := machine 0x1000 [b] 0 0 0 0

/-- `LDA ($1C,X)` at `$1000` with X = 4; the zero-page cells `$20`, `$21` hold `$00`,
`$80` (the little-endian pointer `$8000`), the cell `$8000` holds `$42` and the cell
`$0080` holds `$99`. -/
def indexed_indirect_input : State :=
  { machine 0x1000 [0xA1, 0x1C] 0 4 0 0 with
    mem := store_bytes (store_bytes (store_bytes (store_bytes zero_memory 0x1000 [0xA1, 0x1C])
      0x20 [0x00, 0x80]) 0x8000 [0x42]) 0x0080 [0x99] }

/-- `LDA ($20),Y` at `$1000` with Y = 4; the zero-page cells `$20`, `$21` hold `$00`,
`$80` (the little-endian pointer `$8000`), the cell `$8004` holds `$42` and the cell
`$0004` holds `$99`. -/
def indirect_indexed_input : State :=
  { machine 0x1000 [0xB1, 0x20] 0 0 4 0 with
    mem := store_bytes (store_bytes (store_bytes (store_bytes zero_memory 0x1000 [0xB1, 0x20])
      0x20 [0x00, 0x80]) 0x8004 [0x42]) 0x0004 [0x99] }

/-- `LDX $2000,Y` at `$1000` with X = 1 and Y = 2; the cells `$2001` and `$2002` hold
`$11` and `$22`. -/
def ldx_absolute_y_input : State :=
  { machine 0x1000 [0xBE, 0x00, 0x20] 0 1 2 0 with
    mem := store_bytes (store_bytes zero_memory 0x1000 [0xBE, 0x00, 0x20])
      0x2001 [0x11, 0x22] }

/-- A state with X = `$ff` and Y = 0 and zeroed memory: the operand `$02` of an
(indirect,X) instruction wraps around the zero page. -/
def zero_page_wrap_input : State := machine 0x1000 [] 0 0xff 0 0

/-- A state with Y = `$20` and zeroed memory. -/
def index_y_input : State := machine 0x1000 [] 0 0 0x20 0

/-! # Properties -/

/-! ## Arithmetic of the C operators -/

theorem and_ffff (a : Nat) : a &&& 0xffff = a % 65536 := by
  rw [show (0xffff : Nat) = 2 ^ 16 - 1 by norm_num, Nat.and_pow_two_sub_one_eq_mod]

theorem and_ff (a : Nat) : a &&& 0xff = a % 256 := by
  rw [show (0xff : Nat) = 2 ^ 8 - 1 by norm_num, Nat.and_pow_two_sub_one_eq_mod]

theorem shl8_or (a b : Nat) (hb : b < 256) : (a <<< 8) ||| b = a * 256 + b := by
  have h := Nat.mul_add_lt_is_or (show b < 2 ^ 8 by simpa using hb) a
  rw [Nat.shiftLeft_eq, Nat.mul_comm a (2 ^ 8), ← h]

theorem or_shl8 (a b : Nat) (hb : b < 256) : b ||| (a <<< 8) = a * 256 + b := by
  rw [Nat.lor_comm, shl8_or a b hb]

theorem or_ff00 (b : Nat) (hb : b < 256) : b ||| 0xff00 = 0xff00 + b := by
  have h := or_shl8 0xff b hb
  simpa using h

theorem or_0100 (b : Nat) (hb : b < 256) : 0x0100 ||| b = 256 + b := by
  have h := shl8_or 1 b hb
  simpa using h

theorem and_ff00 (x : Nat) : x &&& 0xff00 = x / 256 % 256 * 256 := by
  apply Nat.eq_of_testBit_eq
  intro i
  rw [show (0xff00 : Nat) = (2 ^ 8 - 1) <<< 8 by decide,
    show x / 256 % 256 * 256 = ((x >>> 8) % 2 ^ 8) <<< 8 by
      rw [Nat.shiftLeft_eq, Nat.shiftRight_eq_div_pow]; norm_num]
  simp only [Nat.testBit_and, Nat.testBit_shiftLeft, Nat.testBit_two_pow_sub_one,
    Nat.testBit_mod_two_pow, Nat.testBit_shiftRight]
  by_cases h : 8 ≤ i
  · have e : 8 + (i - 8) = i := by omega
    simp [h, e, Bool.and_comm]
  · simp [h]

/-! ## Memory -/

theorem read_memory_mod (m : Memory) (a : Nat) :
    read_memory m (a % 65536) = read_memory m a := by
  simp [read_memory, memory_map, and_ffff]

theorem read_memory_toU16 (m : Memory) (a : Nat) :
    read_memory m (toU16 a).val = read_memory m a :=
  read_memory_mod m a

theorem read_write_memory (m : Memory) (a b : Nat) (v : byte) :
    read_memory (write_memory m a v) b =
      if a % 65536 = b % 65536 then v else read_memory m b := by
  unfold read_memory write_memory memory_map
  simp only [and_ffff]
  have ha : a % 65536 < 65536 := Nat.mod_lt _ (by decide)
  have hb : b % 65536 < 65536 := Nat.mod_lt _ (by decide)
  by_cases h : a % 65536 = b % 65536
  · rw [h]; simp only [if_true]
    split_ifs <;> simp
  · simp only [h, if_false]
    split_ifs <;> simp <;> omega

theorem toU16_add (a b : Nat) : toU16 ((toU16 a).val + b) = toU16 (a + b) := by
  simp [toU16, Nat.add_mod]

/-! ## Status-flag updates -/

set_option maxRecDepth 100000 in
theorem bit7_byte : ∀ v : byte, decide ((v.val &&& 0x80) > 0) = v.val.testBit 7 := by decide

/-- `update_Zflag` then `update_Nflag` with the same byte: Z and N reflect the byte and
the other six bits are kept. -/
theorem flags_ZN (s : State) (v : byte) :
    flag_set (update_Nflag (update_Zflag s v) v).cpu_FLAGS flag_Z = decide (v.val = 0) ∧
    flag_set (update_Nflag (update_Zflag s v) v).cpu_FLAGS flag_N = v.val.testBit 7 ∧
    (update_Nflag (update_Zflag s v) v).cpu_FLAGS.val &&& 0x7d = s.cpu_FLAGS.val &&& 0x7d := by
  rw [← bit7_byte v]
  simp only [update_Nflag, update_Zflag]
  generalize s.cpu_FLAGS = p
  by_cases h1 : v.val = 0 <;> by_cases h2 : (v.val &&& 0x80) > 0 <;>
    simp only [h1, h2, if_true, if_false, decide_True, decide_False] <;> revert p <;>
    set_option maxRecDepth 100000 in decide

/-- `update_Nflag` then `update_Zflag` with the same byte. -/
theorem flags_NZ (s : State) (v : byte) :
    flag_set (update_Zflag (update_Nflag s v) v).cpu_FLAGS flag_Z = decide (v.val = 0) ∧
    flag_set (update_Zflag (update_Nflag s v) v).cpu_FLAGS flag_N = v.val.testBit 7 ∧
    (update_Zflag (update_Nflag s v) v).cpu_FLAGS.val &&& 0x7d = s.cpu_FLAGS.val &&& 0x7d := by
  rw [← bit7_byte v]
  simp only [update_Nflag, update_Zflag]
  generalize s.cpu_FLAGS = p
  by_cases h1 : v.val = 0 <;> by_cases h2 : (v.val &&& 0x80) > 0 <;>
    simp only [h1, h2, if_true, if_false, decide_True, decide_False] <;> revert p <;>
    set_option maxRecDepth 100000 in decide

@[simp] theorem update_Zflag_regA (s : State) (v : byte) : (update_Zflag s v).cpu_regA = s.cpu_regA := rfl
@[simp] theorem update_Zflag_regX (s : State) (v : byte) : (update_Zflag s v).cpu_regX = s.cpu_regX := rfl
@[simp] theorem update_Zflag_regY (s : State) (v : byte) : (update_Zflag s v).cpu_regY = s.cpu_regY := rfl
@[simp] theorem update_Zflag_SP (s : State) (v : byte) : (update_Zflag s v).cpu_SP = s.cpu_SP := rfl
@[simp] theorem update_Zflag_PC (s : State) (v : byte) : (update_Zflag s v).cpu_PC = s.cpu_PC := rfl
@[simp] theorem update_Zflag_mem (s : State) (v : byte) : (update_Zflag s v).mem = s.mem := rfl
@[simp] theorem update_Nflag_regA (s : State) (v : byte) : (update_Nflag s v).cpu_regA = s.cpu_regA := rfl
@[simp] theorem update_Nflag_regX (s : State) (v : byte) : (update_Nflag s v).cpu_regX = s.cpu_regX := rfl
@[simp] theorem update_Nflag_regY (s : State) (v : byte) : (update_Nflag s v).cpu_regY = s.cpu_regY := rfl
@[simp] theorem update_Nflag_SP (s : State) (v : byte) : (update_Nflag s v).cpu_SP = s.cpu_SP := rfl
@[simp] theorem update_Nflag_PC (s : State) (v : byte) : (update_Nflag s v).cpu_PC = s.cpu_PC := rfl
@[simp] theorem update_Nflag_mem (s : State) (v : byte) : (update_Nflag s v).mem = s.mem := rfl

/-! ## Decoding: which case an opcode byte selects -/

theorem dispatch_A9 (s : State) (u : Locals)
    (h0 : (read_memory s.mem s.cpu_PC.val).val = 0xA9) :
    cpu_do_next_op s u = case_LDA (cpu_fetch s).2 imm u := by
  have e1 : (0xA9 &&& bnot mode_mask) = 0xA1 := by decide
  have e2 : ((0xA9 &&& mode_mask) >>> 2) = 2 := by decide
  simp only [cpu_do_next_op, cpu_fetch, h0, e1, e2]
  simp [ADC, AND, CMP, EOR, LDA, imm]

theorem dispatch_A2 (s : State) (u : Locals)
    (h0 : (read_memory s.mem s.cpu_PC.val).val = 0xA2) :
    cpu_do_next_op s u = case_LDX (cpu_fetch s).2 ind_indir_x u := by
  have e1 : (0xA2 &&& bnot mode_mask) = 0xA2 := by decide
  have e2 : ((0xA2 &&& mode_mask) >>> 2) = 0 := by decide
  simp only [cpu_do_next_op, fixed_address_modes, variable_address_modes, cpu_fetch, h0, e1, e2]
  simp [ADC, AND, CMP, EOR, LDA, ORA, SBC, ASL, BIT, CPX, CPY, DEC, INC, LDX, ind_indir_x,
    BCC, BCS, BEQ, BMI, BNE, BPL, BRK, BVC, BVS, CLC, CLD, CLI, CLV, DEX, DEY, INX, INY, JSR,
    NOP, PHA, PHP, PLA, PLP, RTI, RTS, SEC, SED, SEI, TAX, TAY, TSX, TXA, TXS, TYA]

theorem dispatch_A0 (s : State) (u : Locals)
    (h0 : (read_memory s.mem s.cpu_PC.val).val = 0xA0) :
    cpu_do_next_op s u = case_LDY (cpu_fetch s).2 ind_indir_x u := by
  have e1 : (0xA0 &&& bnot mode_mask) = 0xA0 := by decide
  have e2 : ((0xA0 &&& mode_mask) >>> 2) = 0 := by decide
  simp only [cpu_do_next_op, fixed_address_modes, variable_address_modes, cpu_fetch, h0, e1, e2]
  simp [ADC, AND, CMP, EOR, LDA, ORA, SBC, ASL, BIT, CPX, CPY, DEC, INC, LDX, LDY, ind_indir_x,
    BCC, BCS, BEQ, BMI, BNE, BPL, BRK, BVC, BVS, CLC, CLD, CLI, CLV, DEX, DEY, INX, INY, JSR,
    NOP, PHA, PHP, PLA, PLP, RTI, RTS, SEC, SED, SEI, TAX, TAY, TSX, TXA, TXS, TYA]


/-! ## Loads -/

/-- Claim C4: for every state and byte `v`, `LDA #v` (opcode 0xA9) sets A to `v` and
`LDX #v` (opcode 0xA2) sets X to `v`; in both cases Z = (v == 0), N = bit 7 of `v`, the
other six bits of P are unchanged, PC advances by 2, and the other registers, SP and
the memory are unchanged. -/
theorem load_immediate_LDA_LDX (s : State) (u : Locals) (v : byte)
    (hop : (read_memory s.mem s.cpu_PC.val).val = 0xA9 ∨
      (read_memory s.mem s.cpu_PC.val).val = 0xA2)
    (hv : read_memory s.mem (s.cpu_PC.val + 1) = v) :
    ∃ t c, cpu_do_next_op s u = some (t, c) ∧
      ((read_memory s.mem s.cpu_PC.val).val = 0xA9 → t.cpu_regA = v ∧ t.cpu_regX = s.cpu_regX) ∧
      ((read_memory s.mem s.cpu_PC.val).val = 0xA2 → t.cpu_regX = v ∧ t.cpu_regA = s.cpu_regA) ∧
      t.cpu_regY = s.cpu_regY ∧ load_post s t v := by
  rcases hop with h0 | h0
  · rw [dispatch_A9 s u h0]
    simp only [case_LDA, cpu_fetch, get_args, count_full_imm, imm, List.getD, accum_flags,
      get_data_full_imm]
    simp only [List.get?, Option.getD, if_true, if_false, OfNat.ofNat_ne_one, read_memory_toU16,
      hv, toU16_add, load_post]
    refine ⟨_, _, rfl, ?_⟩
    have hf := flags_ZN { s with cpu_regA := v, cpu_PC := toU16 (s.cpu_PC.val + 1 + 1) } v
    simpa [h0] using hf
  · rw [dispatch_A2 s u h0]
    simp only [case_LDX, cpu_fetch, get_args, count_full_imm, imm, ind_indir_x, ind_zpg_x,
      ind_zpg_y, zpg, abs, ind_abs_x, List.getD, get_data_full_imm]
    simp only [List.get?, Option.getD, if_true, if_false, OfNat.ofNat_ne_one, read_memory_toU16,
      hv, toU16_add, load_post, true_or]
    norm_num
    have hf := flags_NZ { s with cpu_regX := v, cpu_PC := toU16 (s.cpu_PC.val + 1 + 1) } v
    simpa [h0] using hf

/-- Witness of `load_immediate_LDA_LDX`: `LDA #$80` at `$1000`. -/
theorem load_immediate_LDA_LDX_witness :
    ((read_memory lda_input.mem lda_input.cpu_PC.val).val = 0xA9 ∨
      (read_memory lda_input.mem lda_input.cpu_PC.val).val = 0xA2) ∧
    read_memory lda_input.mem (lda_input.cpu_PC.val + 1) = 0x80 ∧
    ∃ t c, cpu_do_next_op lda_input locals0 = some (t, c) ∧
      ((read_memory lda_input.mem lda_input.cpu_PC.val).val = 0xA9 →
        t.cpu_regA = 0x80 ∧ t.cpu_regX = lda_input.cpu_regX) ∧
      ((read_memory lda_input.mem lda_input.cpu_PC.val).val = 0xA2 →
        t.cpu_regX = 0x80 ∧ t.cpu_regA = lda_input.cpu_regA) ∧
      t.cpu_regY = lda_input.cpu_regY ∧ load_post lda_input t 0x80 :=
  ⟨by decide, by decide,
    load_immediate_LDA_LDX lda_input locals0 0x80 (by decide) (by decide)⟩

/-- Every `LDY #v` (opcode 0xA0) fails the assertion of `case LDY`: the opcode decodes to
mode 0 (`ind_indir_x`), which the assertion does not admit. -/
theorem LDY_immediate_aborts (s : State) (u : Locals)
    (h0 : (read_memory s.mem s.cpu_PC.val).val = 0xA0) :
    cpu_do_next_op s u = none := by
  rw [dispatch_A0 s u h0]
  simp [case_LDY, imm, ind_indir_x, zpg, abs, ind_abs_x, ind_zpg_x]

/-- Claim C5 (code defect): at `LDY #$05` the code aborts on its assertion instead of
loading Y; the sibling case `LDX` remaps mode 0 to `imm`, `LDY` does not. -/
theorem LDY_immediate_fails_assertion :
    cpu_do_next_op ldy_input locals0 = none :=
  LDY_immediate_aborts _ _ (by decide)

/-! ## Branches -/

set_option maxRecDepth 100000 in
theorem bit7_ne_zero : ∀ v : byte, (v.val &&& 0x80 ≠ 0) ↔ 128 ≤ v.val := by decide

theorem branch_offset (arg1 : byte) :
    (if arg1.val &&& 0x80 ≠ 0 then arg1.val ||| 0xff00 else arg1.val) =
      if 128 ≤ arg1.val then 0xff00 + arg1.val else arg1.val := by
  have h7 := bit7_ne_zero arg1
  by_cases h : 128 ≤ arg1.val
  · rw [if_pos (h7.mpr h), if_pos h, or_ff00 _ arg1.isLt]
  · rw [if_neg (fun hh => h (h7.mp hh)), if_neg h]

theorem intToU16_val (i : Int) : (intToU16 i).val = (i % 65536).toNat := rfl

/-- A taken branch: the new program counter is `PC + sign_extend(arg1)` modulo 2^16, and
the cycle count is 3 when it lies in the page of `PC`, else 4. -/
theorem branch_instruction_taken (s : State) (c arg1 : byte) (hc : c.val ≠ 0) :
    branch_instruction s c arg1 =
      ({ s with cpu_PC := intToU16 ((s.cpu_PC.val : Int) + int8 arg1) },
        if (intToU16 ((s.cpu_PC.val : Int) + int8 arg1)).val &&& 0xff00 = s.cpu_PC.val &&& 0xff00
        then 3 else 4) := by
  have hb := arg1.isLt
  have hp := s.cpu_PC.isLt
  unfold branch_instruction
  rw [if_pos hc]
  simp only [branch_offset, and_ffff, and_ff00]
  have e1 : toU16 ((s.cpu_PC.val + if 128 ≤ arg1.val then 0xff00 + arg1.val else arg1.val) % 65536)
      = intToU16 ((s.cpu_PC.val : Int) + int8 arg1) := by
    apply Fin.ext
    simp only [toU16, intToU16, int8]
    split_ifs <;> omega
  have e2 : (s.cpu_PC.val + if 128 ≤ arg1.val then 0xff00 + arg1.val else arg1.val) / 256 % 256 * 256
      = (intToU16 ((s.cpu_PC.val : Int) + int8 arg1)).val / 256 % 256 * 256 := by
    simp only [intToU16, int8]
    split_ifs <;> omega
  rw [e1, e2]

theorem branch_instruction_not_taken (s : State) (c arg1 : byte) (hc : c.val = 0) :
    branch_instruction s c arg1 = (s, 2) := by
  simp [branch_instruction, hc]

/-- Values of the opcode constants, for `simp`. -/
theorem opcode_values :
    ADC = 0x61 ∧ AND = 0x21 ∧ CMP = 0xc1 ∧ EOR = 0x41 ∧ LDA = 0xA1 ∧ ORA = 0x01 ∧ SBC = 0xe1 ∧
    ASL = 0x02 ∧ BIT = 0x20 ∧ CPX = 0xe0 ∧ CPY = 0xc0 ∧ DEC = 0xc2 ∧ INC = 0xe2 ∧
    LDX = 0xA2 ∧ LDY = 0xa0 ∧ LSR = 0x42 ∧ ROL = 0x22 ∧ ROR = 0x62 ∧ STA = 0x81 ∧
    STX = 0x82 ∧ STY = 0x80 ∧
    BCC = 0x90 ∧ BCS = 0xb0 ∧ BEQ = 0xf0 ∧ BMI = 0x30 ∧ BNE = 0xd0 ∧ BPL = 0x10 ∧ BRK = 0x00 ∧
    BVC = 0x50 ∧ BVS = 0x70 ∧ CLC = 0x18 ∧ CLD = 0xd8 ∧ CLI = 0x58 ∧ CLV = 0xb8 ∧ DEX = 0xca ∧
    DEY = 0x88 ∧ INX = 0xe8 ∧ INY = 0xc8 ∧ JSR = 0x20 ∧ NOP = 0xEA ∧ PHA = 0x48 ∧ PHP = 0x08 ∧
    PLA = 0x68 ∧ PLP = 0x28 ∧ RTI = 0x40 ∧ RTS = 0x60 ∧ SEC = 0x38 ∧ SED = 0xf8 ∧ SEI = 0x78 ∧
    TAX = 0xaa ∧ TAY = 0xa8 ∧ TSX = 0xba ∧ TXA = 0x8a ∧ TXS = 0x9a ∧ TYA = 0x98 := by
  decide

theorem dispatch_90 (s : State) (u : Locals)
    (h0 : (read_memory s.mem s.cpu_PC.val).val = 0x90) :
    cpu_do_next_op s u = case_BCC (cpu_fetch s).2 := by
  have e1 : (0x90 &&& bnot mode_mask) = 128 := by decide
  simp only [cpu_do_next_op, fixed_address_modes, cpu_fetch, h0, e1]
  simp [opcode_values]

theorem dispatch_B0 (s : State) (u : Locals)
    (h0 : (read_memory s.mem s.cpu_PC.val).val = 0xB0) :
    cpu_do_next_op s u = case_BCS (cpu_fetch s).2 := by
  have e1 : (0xB0 &&& bnot mode_mask) = 160 := by decide
  simp only [cpu_do_next_op, fixed_address_modes, cpu_fetch, h0, e1]
  simp [opcode_values]

theorem dispatch_F0 (s : State) (u : Locals)
    (h0 : (read_memory s.mem s.cpu_PC.val).val = 0xF0) :
    cpu_do_next_op s u = case_BEQ (cpu_fetch s).2 := by
  have e1 : (0xF0 &&& bnot mode_mask) = 224 := by decide
  simp only [cpu_do_next_op, fixed_address_modes, cpu_fetch, h0, e1]
  simp [opcode_values]

theorem dispatch_30 (s : State) (u : Locals)
    (h0 : (read_memory s.mem s.cpu_PC.val).val = 0x30) :
    cpu_do_next_op s u = case_BMI (cpu_fetch s).2 := by
  have e1 : (0x30 &&& bnot mode_mask) = 32 := by decide
  simp only [cpu_do_next_op, fixed_address_modes, cpu_fetch, h0, e1]
  simp [opcode_values]

theorem dispatch_D0 (s : State) (u : Locals)
    (h0 : (read_memory s.mem s.cpu_PC.val).val = 0xD0) :
    cpu_do_next_op s u = case_BNE (cpu_fetch s).2 := by
  have e1 : (0xD0 &&& bnot mode_mask) = 192 := by decide
  simp only [cpu_do_next_op, fixed_address_modes, cpu_fetch, h0, e1]
  simp [opcode_values]

theorem dispatch_10 (s : State) (u : Locals)
    (h0 : (read_memory s.mem s.cpu_PC.val).val = 0x10) :
    cpu_do_next_op s u = case_BPL (cpu_fetch s).2 := by
  have e1 : (0x10 &&& bnot mode_mask) = 0 := by decide
  simp only [cpu_do_next_op, fixed_address_modes, cpu_fetch, h0, e1]
  simp [opcode_values]

theorem dispatch_50 (s : State) (u : Locals)
    (h0 : (read_memory s.mem s.cpu_PC.val).val = 0x50) :
    cpu_do_next_op s u = case_BVC (cpu_fetch s).2 := by
  have e1 : (0x50 &&& bnot mode_mask) = 64 := by decide
  simp only [cpu_do_next_op, fixed_address_modes, cpu_fetch, h0, e1]
  simp [opcode_values]

theorem dispatch_70 (s : State) (u : Locals)
    (h0 : (read_memory s.mem s.cpu_PC.val).val = 0x70) :
    cpu_do_next_op s u = case_BVS (cpu_fetch s).2 := by
  have e1 : (0x70 &&& bnot mode_mask) = 96 := by decide
  simp only [cpu_do_next_op, fixed_address_modes, cpu_fetch, h0, e1]
  simp [opcode_values]

theorem dispatch_20 (s : State) (u : Locals)
    (h0 : (read_memory s.mem s.cpu_PC.val).val = 0x20) :
    cpu_do_next_op s u = case_JSR (cpu_fetch s).2 := by
  have e1 : (0x20 &&& bnot mode_mask) = 32 := by decide
  simp only [cpu_do_next_op, fixed_address_modes, cpu_fetch, h0, e1]
  simp [opcode_values]

theorem dispatch_60 (s : State) (u : Locals)
    (h0 : (read_memory s.mem s.cpu_PC.val).val = 0x60) :
    cpu_do_next_op s u = case_RTS (cpu_fetch s).2 := by
  have e1 : (0x60 &&& bnot mode_mask) = 96 := by decide
  simp only [cpu_do_next_op, fixed_address_modes, cpu_fetch, h0, e1]
  simp [opcode_values]

theorem dispatch_48 (s : State) (u : Locals)
    (h0 : (read_memory s.mem s.cpu_PC.val).val = 0x48) :
    cpu_do_next_op s u = case_PHA (cpu_fetch s).2 := by
  have e1 : (0x48 &&& bnot mode_mask) = 64 := by decide
  simp only [cpu_do_next_op, fixed_address_modes, cpu_fetch, h0, e1]
  simp [opcode_values]

theorem dispatch_68 (s : State) (u : Locals)
    (h0 : (read_memory s.mem s.cpu_PC.val).val = 0x68) :
    cpu_do_next_op s u = case_PLA (cpu_fetch s).2 := by
  have e1 : (0x68 &&& bnot mode_mask) = 96 := by decide
  simp only [cpu_do_next_op, fixed_address_modes, cpu_fetch, h0, e1]
  simp [opcode_values]

theorem dispatch_9A (s : State) (u : Locals)
    (h0 : (read_memory s.mem s.cpu_PC.val).val = 0x9A) :
    cpu_do_next_op s u = case_TXS (cpu_fetch s).2 := by
  have e1 : (0x9A &&& bnot mode_mask) = 130 := by decide
  simp only [cpu_do_next_op, fixed_address_modes, cpu_fetch, h0, e1]
  simp [opcode_values]

theorem dispatch_E8 (s : State) (u : Locals)
    (h0 : (read_memory s.mem s.cpu_PC.val).val = 0xE8) :
    cpu_do_next_op s u = case_INX (cpu_fetch s).2 := by
  have e1 : (0xE8 &&& bnot mode_mask) = 224 := by decide
  simp only [cpu_do_next_op, fixed_address_modes, cpu_fetch, h0, e1]
  simp [opcode_values]

theorem dispatch_69 (s : State) (u : Locals)
    (h0 : (read_memory s.mem s.cpu_PC.val).val = 0x69) :
    cpu_do_next_op s u = case_ADC (cpu_fetch s).2 imm u := by
  have e1 : (0x69 &&& bnot mode_mask) = 97 := by decide
  have e2 : ((0x69 &&& mode_mask) >>> 2) = 2 := by decide
  simp only [cpu_do_next_op, cpu_fetch, h0, e1, e2]
  simp [opcode_values, imm]

theorem dispatch_BD (s : State) (u : Locals)
    (h0 : (read_memory s.mem s.cpu_PC.val).val = 0xBD) :
    cpu_do_next_op s u = case_LDA (cpu_fetch s).2 ind_abs_x u := by
  have e1 : (0xBD &&& bnot mode_mask) = 161 := by decide
  have e2 : ((0xBD &&& mode_mask) >>> 2) = 7 := by decide
  simp only [cpu_do_next_op, cpu_fetch, h0, e1, e2]
  simp [opcode_values, ind_abs_x]

theorem dispatch_9D (s : State) (u : Locals)
    (h0 : (read_memory s.mem s.cpu_PC.val).val = 0x9D) :
    cpu_do_next_op s u = case_STA (cpu_fetch s).2 ind_abs_x u := by
  have e1 : (0x9D &&& bnot mode_mask) = 129 := by decide
  have e2 : ((0x9D &&& mode_mask) >>> 2) = 7 := by decide
  simp only [cpu_do_next_op, fixed_address_modes, variable_address_modes, cpu_fetch, h0, e1, e2]
  simp [opcode_values, ind_abs_x]

theorem dispatch_8D (s : State) (u : Locals)
    (h0 : (read_memory s.mem s.cpu_PC.val).val = 0x8D) :
    cpu_do_next_op s u = case_STA (cpu_fetch s).2 abs u := by
  have e1 : (0x8D &&& bnot mode_mask) = 129 := by decide
  have e2 : ((0x8D &&& mode_mask) >>> 2) = 3 := by decide
  simp only [cpu_do_next_op, fixed_address_modes, variable_address_modes, cpu_fetch, h0, e1, e2]
  simp [opcode_values, abs]

set_option maxRecDepth 100000 in
theorem branch_conditions_byte : ∀ p : byte,
    ((toByte (bnot p.val &&& flag_C)).val ≠ 0 ↔ flag_set p flag_C = false) ∧
    ((toByte (p.val &&& flag_C)).val ≠ 0 ↔ flag_set p flag_C = true) ∧
    ((toByte (bnot p.val &&& flag_Z)).val ≠ 0 ↔ flag_set p flag_Z = false) ∧
    ((toByte (p.val &&& flag_Z)).val ≠ 0 ↔ flag_set p flag_Z = true) ∧
    ((toByte (bnot p.val &&& flag_N)).val ≠ 0 ↔ flag_set p flag_N = false) ∧
    ((toByte (p.val &&& flag_N)).val ≠ 0 ↔ flag_set p flag_N = true) := by
  decide

/-- Fetching the operand of a branch at `s` and calling `branch_instruction` with a
condition byte that is non-zero exactly when `b` holds. -/
theorem branch_result (s : State) (cnd operand : byte) (b : Bool)
    (hb : cnd.val ≠ 0 ↔ b = true)
    (hv : read_memory s.mem (s.cpu_PC.val + 1) = operand) :
    branch_instruction (cpu_fetch (cpu_fetch s).2).2 cnd (cpu_fetch (cpu_fetch s).2).1 =
      if b then
        ({ s with cpu_PC := intToU16 (((toU16 (s.cpu_PC.val + 2)).val : Int) + int8 operand) },
          if (intToU16 (((toU16 (s.cpu_PC.val + 2)).val : Int) + int8 operand)).val &&& 0xFF00
              = (toU16 (s.cpu_PC.val + 2)).val &&& 0xFF00 then 3 else 4)
      else ({ s with cpu_PC := toU16 (s.cpu_PC.val + 2) }, 2) := by
  have hf1 : (cpu_fetch (cpu_fetch s).2).1 = operand := by
    simp only [cpu_fetch, read_memory_toU16, hv]
  have hf2 : (cpu_fetch (cpu_fetch s).2).2 = { s with cpu_PC := toU16 (s.cpu_PC.val + 2) } := by
    simp only [cpu_fetch, toU16_add]
  rw [hf1, hf2]
  cases b with
  | true =>
    rw [branch_instruction_taken _ _ _ (hb.mpr rfl)]
    simp
  | false =>
    have hc : cnd.val = 0 := by
      by_contra h
      exact absurd (hb.mp h) (by simp)
    rw [branch_instruction_not_taken _ _ _ hc]
    simp

/-- Claim C6: BCC, BCS, BEQ, BNE, BMI, BPL.  With `PC_after` = opcode address + 2 and
`target = (PC_after + sign_extend(operand)) mod 2^16`, the branch is taken exactly when
its flag condition holds; when taken PC = target and the call returns 3 if target and
`PC_after` are in the same page and 4 otherwise; when not taken PC = `PC_after` and it
returns 2.  Nothing but the program counter changes. -/
theorem branch_semantics (s : State) (u : Locals) (op : Nat) (operand : byte)
    (hop : (read_memory s.mem s.cpu_PC.val).val = op)
    (hbr : op = 0x90 ∨ op = 0xB0 ∨ op = 0xF0 ∨ op = 0xD0 ∨ op = 0x30 ∨ op = 0x10)
    (hv : read_memory s.mem (s.cpu_PC.val + 1) = operand) :
    cpu_do_next_op s u = some (
      if branch_condition op s.cpu_FLAGS then
        ({ s with cpu_PC := intToU16 (((toU16 (s.cpu_PC.val + 2)).val : Int) + int8 operand) },
          if (intToU16 (((toU16 (s.cpu_PC.val + 2)).val : Int) + int8 operand)).val &&& 0xFF00
              = (toU16 (s.cpu_PC.val + 2)).val &&& 0xFF00 then 3 else 4)
      else ({ s with cpu_PC := toU16 (s.cpu_PC.val + 2) }, 2)) := by
  have hc := branch_conditions_byte s.cpu_FLAGS
  obtain ⟨c1, c2, c3, c4, c5, c6⟩ := hc
  rcases hbr with h | h | h | h | h | h <;> subst h
  · rw [dispatch_90 s u hop, case_BCC,
      show branch_condition 0x90 s.cpu_FLAGS = (!flag_set s.cpu_FLAGS flag_C) from rfl,
      branch_result s _ operand (!flag_set s.cpu_FLAGS flag_C) (by simpa [cpu_fetch] using c1) hv]
  · rw [dispatch_B0 s u hop, case_BCS,
      show branch_condition 0xB0 s.cpu_FLAGS = (flag_set s.cpu_FLAGS flag_C) from rfl,
      branch_result s _ operand (flag_set s.cpu_FLAGS flag_C) (by simpa [cpu_fetch] using c2) hv]
  · rw [dispatch_F0 s u hop, case_BEQ,
      show branch_condition 0xF0 s.cpu_FLAGS = (flag_set s.cpu_FLAGS flag_Z) from rfl,
      branch_result s _ operand (flag_set s.cpu_FLAGS flag_Z) (by simpa [cpu_fetch] using c4) hv]
  · rw [dispatch_D0 s u hop, case_BNE,
      show branch_condition 0xD0 s.cpu_FLAGS = (!flag_set s.cpu_FLAGS flag_Z) from rfl,
      branch_result s _ operand (!flag_set s.cpu_FLAGS flag_Z) (by simpa [cpu_fetch] using c3) hv]
  · rw [dispatch_30 s u hop, case_BMI,
      show branch_condition 0x30 s.cpu_FLAGS = (flag_set s.cpu_FLAGS flag_N) from rfl,
      branch_result s _ operand (flag_set s.cpu_FLAGS flag_N) (by simpa [cpu_fetch] using c6) hv]
  · rw [dispatch_10 s u hop, case_BPL,
      show branch_condition 0x10 s.cpu_FLAGS = (!flag_set s.cpu_FLAGS flag_N) from rfl,
      branch_result s _ operand (!flag_set s.cpu_FLAGS flag_N) (by simpa [cpu_fetch] using c5) hv]

/-- Witness of `branch_semantics`: BNE at `$1000`, operand `$10`, Z = 0 gives PC = `$1012`
and 3 cycles. -/
theorem branch_semantics_witness :
    (read_memory bne_forward_input.mem bne_forward_input.cpu_PC.val).val = 0xD0 ∧
    ((0xD0 : Nat) = 0x90 ∨ (0xD0 : Nat) = 0xB0 ∨ (0xD0 : Nat) = 0xF0 ∨ (0xD0 : Nat) = 0xD0 ∨
      (0xD0 : Nat) = 0x30 ∨ (0xD0 : Nat) = 0x10) ∧
    read_memory bne_forward_input.mem (bne_forward_input.cpu_PC.val + 1) = 0x10 ∧
    cpu_do_next_op bne_forward_input locals0 = some (
      if branch_condition 0xD0 bne_forward_input.cpu_FLAGS then
        ({ bne_forward_input with
            cpu_PC := intToU16 (((toU16 (bne_forward_input.cpu_PC.val + 2)).val : Int) + int8 0x10) },
          if (intToU16 (((toU16 (bne_forward_input.cpu_PC.val + 2)).val : Int) + int8 0x10)).val
                &&& 0xFF00 = (toU16 (bne_forward_input.cpu_PC.val + 2)).val &&& 0xFF00 then 3 else 4)
      else ({ bne_forward_input with cpu_PC := toU16 (bne_forward_input.cpu_PC.val + 2) }, 2)) ∧
    (cpu_do_next_op bne_forward_input locals0).map (fun r => (r.1.cpu_PC.val, r.2))
      = some (0x1012, 3) :=
  ⟨by decide, by decide, by decide,
    branch_semantics bne_forward_input locals0 0xD0 0x10 (by decide) (by decide) (by decide),
    by decide⟩

/-- For every state, BVC (0x50) and BVS (0x70) are both taken exactly when the carry
flag is set: both cases pass `P & flag_C` to `branch_instruction`. -/
theorem BVC_BVS_test_carry (s : State) (u : Locals) (operand : byte)
    (hop : (read_memory s.mem s.cpu_PC.val).val = 0x50 ∨
      (read_memory s.mem s.cpu_PC.val).val = 0x70)
    (hv : read_memory s.mem (s.cpu_PC.val + 1) = operand) :
    cpu_do_next_op s u = some (
      if flag_set s.cpu_FLAGS flag_C then
        ({ s with cpu_PC := intToU16 (((toU16 (s.cpu_PC.val + 2)).val : Int) + int8 operand) },
          if (intToU16 (((toU16 (s.cpu_PC.val + 2)).val : Int) + int8 operand)).val &&& 0xFF00
              = (toU16 (s.cpu_PC.val + 2)).val &&& 0xFF00 then 3 else 4)
      else ({ s with cpu_PC := toU16 (s.cpu_PC.val + 2) }, 2)) := by
  have c2 := (branch_conditions_byte s.cpu_FLAGS).2.1
  rcases hop with h0 | h0
  · rw [dispatch_50 s u h0, case_BVC,
      branch_result s _ operand (flag_set s.cpu_FLAGS flag_C) (by simpa [cpu_fetch] using c2) hv]
  · rw [dispatch_70 s u h0, case_BVS,
      branch_result s _ operand (flag_set s.cpu_FLAGS flag_C) (by simpa [cpu_fetch] using c2) hv]

/-- Claim C7 (code defect): with V = 0 and C = 0, BVC is not taken (PC = `$1002`, 2
cycles) although V is clear; with V = 0 and C = 1, BVS is taken (PC = `$1012`) although
V is clear.  Both test the carry flag. -/
theorem BVC_BVS_ignore_overflow_flag :
    flag_set bvc_input.cpu_FLAGS flag_V = false ∧
    (cpu_do_next_op bvc_input locals0).map (fun r => (r.1.cpu_PC.val, r.2)) = some (0x1002, 2) ∧
    flag_set bvs_input.cpu_FLAGS flag_V = false ∧
    (cpu_do_next_op bvs_input locals0).map (fun r => (r.1.cpu_PC.val, r.2)) = some (0x1012, 3) := by
  decide

/-- Claim C8 as stated fails: BNE at `$1080` with operand `$80` and Z = 0 does not return
4 cycles. -/
theorem backward_branch_not_4_cycles :
    (read_memory bne_backward_input.mem 0x1080).val = 0xD0 ∧
    (read_memory bne_backward_input.mem 0x1081).val = 0x80 ∧
    bne_backward_input.cpu_PC.val = 0x1080 ∧
    flag_set bne_backward_input.cpu_FLAGS flag_Z = false ∧
    ¬ ∃ t, cpu_do_next_op bne_backward_input locals0 = some (t, 4) ∧ t.cpu_PC.val = 0x1002 := by
  refine ⟨by decide, by decide, by decide, by decide, ?_⟩
  have h : (cpu_do_next_op bne_backward_input locals0).map Prod.snd = some 3 := by decide
  rintro ⟨t, ht, _⟩
  rw [ht] at h
  simp at h

/-- Claim C8, amended: with BNE (0xD0) at PC = `$1080`, operand `$80` and Z = 0, one call of
`cpu_do_next_op` sets PC = `$1002` and returns 3 cycles (`$1002` and `$1082` are in the same
page); nothing else changes. -/
theorem backward_branch_same_page (s : State) (u : Locals)
    (hpc : s.cpu_PC.val = 0x1080)
    (hop : (read_memory s.mem 0x1080).val = 0xD0)
    (hv : read_memory s.mem 0x1081 = 0x80)
    (hz : flag_set s.cpu_FLAGS flag_Z = false) :
    cpu_do_next_op s u = some ({ s with cpu_PC := 0x1002 }, 3) := by
  have c3 := (branch_conditions_byte s.cpu_FLAGS).2.2.1
  have hop' : (read_memory s.mem s.cpu_PC.val).val = 0xD0 := by rw [hpc]; exact hop
  have hv' : read_memory s.mem (s.cpu_PC.val + 1) = 0x80 := by rw [hpc]; exact hv
  rw [dispatch_D0 s u hop', case_BNE,
    branch_result s _ 0x80 (!flag_set s.cpu_FLAGS flag_Z) (by simpa [cpu_fetch] using c3) hv']
  simp only [hz, hpc, Bool.not_false, if_true]
  have e : intToU16 (((toU16 (0x1080 + 2)).val : Int) + int8 0x80) = 0x1002 := by decide
  rw [e]
  have e2 : ((0x1002 : uint16_t).val &&& 0xFF00 = (toU16 (0x1080 + 2)).val &&& 0xFF00) := by decide
  rw [if_pos e2]

/-- Witness of `backward_branch_same_page`. -/
theorem backward_branch_same_page_witness :
    bne_backward_input.cpu_PC.val = 0x1080 ∧
    (read_memory bne_backward_input.mem 0x1080).val = 0xD0 ∧
    read_memory bne_backward_input.mem 0x1081 = 0x80 ∧
    flag_set bne_backward_input.cpu_FLAGS flag_Z = false ∧
    cpu_do_next_op bne_backward_input locals0 =
      some ({ bne_backward_input with cpu_PC := 0x1002 }, 3) :=
  ⟨by decide, by decide, by decide, by decide,
    backward_branch_same_page bne_backward_input locals0 (by decide) (by decide) (by decide)
      (by decide)⟩

/-! ## Operand fetch -/

theorem get_args_zero (s : State) (a1 a2 : byte) : get_args s 0 a1 a2 = (a1, a2, s) := by
  simp [get_args]

theorem get_args_one (s : State) (a1 a2 : byte) :
    get_args s 1 a1 a2 = ((cpu_fetch s).1, a2, (cpu_fetch s).2) := by
  simp [get_args]

theorem get_args_two (s : State) (a1 a2 : byte) :
    get_args s 2 a1 a2 =
      ((cpu_fetch s).1, (cpu_fetch (cpu_fetch s).2).1, (cpu_fetch (cpu_fetch s).2).2) := by
  simp [get_args]

/-- The fetch of the first operand byte, after the opcode fetch. -/
theorem fetch_operand (s : State) (v : byte) (hv : read_memory s.mem (s.cpu_PC.val + 1) = v) :
    cpu_fetch (cpu_fetch s).2 = (v, { s with cpu_PC := toU16 (s.cpu_PC.val + 2) }) := by
  simp only [cpu_fetch, read_memory_toU16, hv, toU16_add]

/-- The fetch of the second operand byte. -/
theorem fetch_operand2 (s : State) (v : byte) (hv : read_memory s.mem (s.cpu_PC.val + 2) = v) :
    cpu_fetch { s with cpu_PC := toU16 (s.cpu_PC.val + 2) } =
      (v, { s with cpu_PC := toU16 (s.cpu_PC.val + 3) }) := by
  simp only [cpu_fetch, read_memory_toU16, hv, toU16_add]

/-! ## Arithmetic instructions -/

theorem and_shifted_mask (x k w : Nat) :
    x &&& ((2 ^ w - 1) <<< k) = ((x >>> k) % 2 ^ w) <<< k := by
  apply Nat.eq_of_testBit_eq
  intro i
  simp only [Nat.testBit_and, Nat.testBit_shiftLeft, Nat.testBit_two_pow_sub_one,
    Nat.testBit_mod_two_pow, Nat.testBit_shiftRight]
  by_cases h : k ≤ i
  · have e : k + (i - k) = i := by omega
    simp [h, e, Bool.and_comm]
  · simp [h]

theorem and_80 (x : Nat) : x &&& 0x80 = x / 128 % 2 * 128 := by
  have h := and_shifted_mask x 7 1
  simpa [Nat.shiftLeft_eq, Nat.shiftRight_eq_div_pow] using h

theorem testBit7 (x : Nat) : x.testBit 7 = decide (x / 128 % 2 = 1) := by
  rw [Nat.testBit_to_div_mod]

set_option maxRecDepth 100000 in
theorem carry_in_byte : ∀ p : byte,
    p.val &&& flag_C = if flag_set p flag_C then 1 else 0 := by decide

theorem and_80_testBit (x : Nat) : x &&& 0x80 = if x.testBit 7 then 0x80 else 0 := by
  rw [and_80, testBit7]
  by_cases h : x / 128 % 2 = 1
  · simp [h]
  · have h0 : x / 128 % 2 = 0 := by omega
    simp [h0]

/-- Claim C10: for every A, operand `m` and carry-in, `ADC #m` (opcode 0x69) with
`tmp = A + m + c` leaves A = tmp mod 256, C = (tmp > 0xFF), Z = (tmp mod 256 == 0),
V = (bit 7 of the old A differs from bit 7 of tmp), and the flags B, D, I and bit 5
(mask 0x3C) unchanged, whatever the value of D. -/
theorem ADC_immediate_result_C_Z_V (s : State) (u : Locals) (m : byte)
    (h0 : (read_memory s.mem s.cpu_PC.val).val = 0x69)
    (hv : read_memory s.mem (s.cpu_PC.val + 1) = m) :
    ∃ t c, cpu_do_next_op s u = some (t, c) ∧
      t.cpu_regA.val = adc_tmp s m % 256 ∧
      flag_set t.cpu_FLAGS flag_C = decide (adc_tmp s m > 0xFF) ∧
      flag_set t.cpu_FLAGS flag_Z = decide (adc_tmp s m % 256 = 0) ∧
      flag_set t.cpu_FLAGS flag_V = (s.cpu_regA.val.testBit 7 != (adc_tmp s m).testBit 7) ∧
      t.cpu_FLAGS.val &&& 0x3C = s.cpu_FLAGS.val &&& 0x3C := by
  rw [dispatch_69 s u h0]
  simp only [case_ADC, show count_full_imm imm = 1 from rfl, get_args_one, fetch_operand s m hv,
    get_data_full_imm, if_true, update_Zflag, carry_in_byte]
  refine ⟨_, _, rfl, ?_⟩
  have e : (if flag_set s.cpu_FLAGS flag_C = true then 1 else 0) + m.val + s.cpu_regA.val
      = adc_tmp s m := by
    unfold adc_tmp; omega
  simp only [e, and_80_testBit]
  generalize adc_tmp s m = tmp
  generalize s.cpu_FLAGS = p
  have hz : (toByte tmp).val = tmp % 256 := rfl
  rw [hz]
  refine ⟨by simp [toByte, and_ff], ?_⟩
  cases hA : s.cpu_regA.val.testBit 7 <;> cases hT : tmp.testBit 7 <;>
    by_cases hZ : tmp % 256 = 0 <;> by_cases hC : tmp > 255 <;>
    simp only [hZ, hC, if_true, if_false, decide_True, decide_False, Bool.false_eq_true,
      ne_eq, not_true_eq_false, not_false_eq_true, bne_self_eq_false] <;>
    revert p <;> set_option maxRecDepth 100000 in decide

/-- Witness of `ADC_immediate_result_C_Z_V`: A = `$50`, operand `$50`, C = 0. -/
theorem ADC_immediate_result_C_Z_V_witness :
    (read_memory adc_input.mem adc_input.cpu_PC.val).val = 0x69 ∧
    read_memory adc_input.mem (adc_input.cpu_PC.val + 1) = 0x50 ∧
    ∃ t c, cpu_do_next_op adc_input locals0 = some (t, c) ∧
      t.cpu_regA.val = adc_tmp adc_input 0x50 % 256 ∧
      flag_set t.cpu_FLAGS flag_C = decide (adc_tmp adc_input 0x50 > 0xFF) ∧
      flag_set t.cpu_FLAGS flag_Z = decide (adc_tmp adc_input 0x50 % 256 = 0) ∧
      flag_set t.cpu_FLAGS flag_V =
        (adc_input.cpu_regA.val.testBit 7 != (adc_tmp adc_input 0x50).testBit 7) ∧
      t.cpu_FLAGS.val &&& 0x3C = adc_input.cpu_FLAGS.val &&& 0x3C :=
  ⟨by decide, by decide,
    ADC_immediate_result_C_Z_V adc_input locals0 0x50 (by decide) (by decide)⟩

/-! ## Stack -/

theorem push_ok (s : State) (d : byte) (h : s.cpu_SP.val ≠ 0) :
    cpu_stack_push s d =
      some { s with mem := write_memory s.mem (256 + s.cpu_SP.val) d,
                    cpu_SP := toByte (s.cpu_SP.val + 256 - 1) } := by
  simp only [cpu_stack_push, h, ne_eq, not_false_eq_true, if_true, or_0100 _ s.cpu_SP.isLt]

theorem pop_ok (s : State) (h : s.cpu_SP.val ≠ 0xff) :
    cpu_stack_pop s =
      some (read_memory s.mem (256 + (toByte (s.cpu_SP.val + 1)).val),
        { s with cpu_SP := toByte (s.cpu_SP.val + 1) }) := by
  simp only [cpu_stack_pop, h, ne_eq, not_false_eq_true, if_true,
    or_0100 _ (toByte (s.cpu_SP.val + 1)).isLt]

theorem toByte_val (n : Nat) : (toByte n).val = n % 256 := rfl

theorem toU16_val (n : Nat) : (toU16 n).val = n % 65536 := rfl

theorem toByte_self (b : byte) : toByte b.val = b := by
  apply Fin.ext
  simp [toByte_val, Nat.mod_eq_of_lt b.isLt]

/-- Claim C3: for every A = `v` and SP ≠ 0, with PHA (0x48) at PC and PLA (0x68) at PC+1,
the latter not located in the stack slot `$0100|SP`, two calls of `cpu_do_next_op` return 3
and 4 cycles and leave A = `v`, SP as before, Z = (v == 0), N = bit 7 of `v` and the other
bits of P unchanged. -/
theorem PHA_PLA_round_trip (s : State) (u1 u2 : Locals)
    (hsp : s.cpu_SP.val ≠ 0)
    (h0 : (read_memory s.mem s.cpu_PC.val).val = 0x48)
    (h1 : (read_memory s.mem (s.cpu_PC.val + 1)).val = 0x68)
    (hslot : (s.cpu_PC.val + 1) % 65536 ≠ 0x0100 ||| s.cpu_SP.val) :
    ∃ t1 t2, cpu_do_next_op s u1 = some (t1, 3) ∧ cpu_do_next_op t1 u2 = some (t2, 4) ∧
      t2.cpu_regA = s.cpu_regA ∧ t2.cpu_SP = s.cpu_SP ∧
      flag_set t2.cpu_FLAGS flag_Z = decide (s.cpu_regA.val = 0) ∧
      flag_set t2.cpu_FLAGS flag_N = s.cpu_regA.val.testBit 7 ∧
      t2.cpu_FLAGS.val &&& 0x7d = s.cpu_FLAGS.val &&& 0x7d := by
  have hS := s.cpu_SP.isLt
  have hP := s.cpu_PC.isLt
  rw [or_0100 _ hS] at hslot
  -- first instruction
  have step1 : cpu_do_next_op s u1 =
      some ({ s with mem := write_memory s.mem (256 + s.cpu_SP.val) s.cpu_regA,
                     cpu_SP := toByte (s.cpu_SP.val + 256 - 1),
                     cpu_PC := toU16 (s.cpu_PC.val + 1) }, 3) := by
    rw [dispatch_48 s u1 h0, case_PHA, push_ok _ _ (by simpa [cpu_fetch] using hsp)]
    simp [cpu_fetch]
  -- second instruction
  have hop2 : (read_memory (write_memory s.mem (256 + s.cpu_SP.val) s.cpu_regA)
      (toU16 (s.cpu_PC.val + 1)).val).val = 0x68 := by
    rw [read_memory_toU16, read_write_memory, if_neg, h1]
    omega
  have hsp2 : (toByte (s.cpu_SP.val + 256 - 1)).val ≠ 0xff := by
    rw [toByte_val]; omega
  have hsp3 : toByte ((toByte (s.cpu_SP.val + 256 - 1)).val + 1) = s.cpu_SP := by
    apply Fin.ext
    simp only [toByte_val]; omega
  have step2 : ∃ t2, cpu_do_next_op
      { s with mem := write_memory s.mem (256 + s.cpu_SP.val) s.cpu_regA,
               cpu_SP := toByte (s.cpu_SP.val + 256 - 1),
               cpu_PC := toU16 (s.cpu_PC.val + 1) } u2 = some (t2, 4) ∧
      t2.cpu_regA = s.cpu_regA ∧ t2.cpu_SP = s.cpu_SP ∧
      flag_set t2.cpu_FLAGS flag_Z = decide (s.cpu_regA.val = 0) ∧
      flag_set t2.cpu_FLAGS flag_N = s.cpu_regA.val.testBit 7 ∧
      t2.cpu_FLAGS.val &&& 0x7d = s.cpu_FLAGS.val &&& 0x7d := by
    rw [dispatch_68 _ u2 hop2, case_PLA, pop_ok _ (by simpa [cpu_fetch] using hsp2)]
    simp only [cpu_fetch, Option.some_bind, hsp3, read_write_memory, if_true, accum_flags]
    refine ⟨_, rfl, ?_⟩
    have hf := flags_ZN { s with mem := write_memory s.mem (256 + s.cpu_SP.val) s.cpu_regA,
                                 cpu_PC := toU16 ((toU16 (s.cpu_PC.val + 1)).val + 1) } s.cpu_regA
    simpa using hf
  obtain ⟨t2, h2, rest⟩ := step2
  exact ⟨_, t2, step1, h2, rest⟩

/-- Witness of `PHA_PLA_round_trip`. -/
theorem PHA_PLA_round_trip_witness :
    pha_pla_input.cpu_SP.val ≠ 0 ∧
    (read_memory pha_pla_input.mem pha_pla_input.cpu_PC.val).val = 0x48 ∧
    (read_memory pha_pla_input.mem (pha_pla_input.cpu_PC.val + 1)).val = 0x68 ∧
    (pha_pla_input.cpu_PC.val + 1) % 65536 ≠ 0x0100 ||| pha_pla_input.cpu_SP.val ∧
    ∃ t1 t2, cpu_do_next_op pha_pla_input locals0 = some (t1, 3) ∧
      cpu_do_next_op t1 locals0 = some (t2, 4) ∧
      t2.cpu_regA = pha_pla_input.cpu_regA ∧ t2.cpu_SP = pha_pla_input.cpu_SP ∧
      flag_set t2.cpu_FLAGS flag_Z = decide (pha_pla_input.cpu_regA.val = 0) ∧
      flag_set t2.cpu_FLAGS flag_N = pha_pla_input.cpu_regA.val.testBit 7 ∧
      t2.cpu_FLAGS.val &&& 0x7d = pha_pla_input.cpu_FLAGS.val &&& 0x7d :=
  ⟨by decide, by decide, by decide, by decide,
    PHA_PLA_round_trip pha_pla_input locals0 locals0 (by decide) (by decide) (by decide)
      (by decide)⟩

theorem word_of_bytes (w : Nat) (hw : w < 65536) :
    (toByte (w &&& 0xff)).val ||| ((toByte ((w >>> 8) &&& 0xff)).val <<< 8) = w := by
  rw [or_shl8 _ _ (toByte (w &&& 0xff)).isLt]
  simp only [toByte_val, and_ff, Nat.shiftRight_eq_div_pow]
  omega

/-- Claim C2: for every state with SP ≥ 2 in which a JSR (0x20) at address `a` = PC targets
an address `sub` that holds RTS (0x60) and is not one of the two stack slots written, two
calls of `cpu_do_next_op` each return 6 and leave PC = (a + 3) mod 2^16, SP at its initial
value, and A, X, Y and P unchanged. -/
theorem JSR_RTS_round_trip (s : State) (u1 u2 : Locals) (lo hi : byte)
    (hsp : 2 ≤ s.cpu_SP.val)
    (h0 : (read_memory s.mem s.cpu_PC.val).val = 0x20)
    (hlo : read_memory s.mem (s.cpu_PC.val + 1) = lo)
    (hhi : read_memory s.mem (s.cpu_PC.val + 2) = hi)
    (hsub : (read_memory s.mem (lo.val ||| (hi.val <<< 8))).val = 0x60)
    (hslot1 : lo.val ||| (hi.val <<< 8) ≠ 0x0100 ||| s.cpu_SP.val)
    (hslot2 : lo.val ||| (hi.val <<< 8) ≠ 0x0100 ||| (s.cpu_SP.val - 1)) :
    ∃ t1 t2, cpu_do_next_op s u1 = some (t1, 6) ∧ cpu_do_next_op t1 u2 = some (t2, 6) ∧
      t2.cpu_PC = toU16 (s.cpu_PC.val + 3) ∧ t2.cpu_SP = s.cpu_SP ∧
      t2.cpu_regA = s.cpu_regA ∧ t2.cpu_regX = s.cpu_regX ∧ t2.cpu_regY = s.cpu_regY ∧
      t2.cpu_FLAGS = s.cpu_FLAGS := by
  have hS := s.cpu_SP.isLt
  have hP := s.cpu_PC.isLt
  have hl := lo.isLt
  have hh := hi.isLt
  rw [or_0100 _ hS] at hslot1
  rw [or_0100 _ (by omega)] at hslot2
  have hsubv : lo.val ||| (hi.val <<< 8) = hi.val * 256 + lo.val := or_shl8 _ _ hl
  rw [hsubv] at hsub hslot1 hslot2
  have hret : toU16 ((toU16 (s.cpu_PC.val + 3)).val + 65536 - 1) = toU16 (s.cpu_PC.val + 2) := by
    apply Fin.ext
    simp only [toU16_val]; omega
  have hsp1 : (toByte (s.cpu_SP.val + 256 - 1)).val = s.cpu_SP.val - 1 := by
    rw [toByte_val]; omega
  have hsp2 : (toByte (s.cpu_SP.val - 1 + 256 - 1)).val = s.cpu_SP.val - 2 := by
    rw [toByte_val]; omega
  -- first instruction
  have step1 : cpu_do_next_op s u1 =
      some ({ s with
        mem := write_memory
          (write_memory s.mem (256 + s.cpu_SP.val)
            (toByte (((toU16 (s.cpu_PC.val + 2)).val >>> 8) &&& 0xff)))
          (256 + (s.cpu_SP.val - 1)) (toByte ((toU16 (s.cpu_PC.val + 2)).val &&& 0xff)),
        cpu_SP := toByte (s.cpu_SP.val - 1 + 256 - 1),
        cpu_PC := toU16 (hi.val * 256 + lo.val) }, 6) := by
    rw [dispatch_20 s u1 h0, case_JSR]
    simp only [fetch_operand s lo hlo, fetch_operand2 s hi hhi, hret, hsubv]
    rw [push_ok _ _ (by simp only []; omega)]
    simp only [Option.some_bind]
    rw [push_ok _ _ (by simp only [hsp1]; omega)]
    simp only [Option.some_bind, hsp1]
  -- second instruction
  have hop2 : (read_memory (write_memory
          (write_memory s.mem (256 + s.cpu_SP.val)
            (toByte (((toU16 (s.cpu_PC.val + 2)).val >>> 8) &&& 0xff)))
          (256 + (s.cpu_SP.val - 1)) (toByte ((toU16 (s.cpu_PC.val + 2)).val &&& 0xff)))
        (toU16 (hi.val * 256 + lo.val)).val).val = 0x60 := by
    rw [read_memory_toU16, read_write_memory, if_neg (by omega), read_write_memory,
      if_neg (by omega), hsub]
  have step2 : ∃ t2, cpu_do_next_op
      { s with
        mem := write_memory
          (write_memory s.mem (256 + s.cpu_SP.val)
            (toByte (((toU16 (s.cpu_PC.val + 2)).val >>> 8) &&& 0xff)))
          (256 + (s.cpu_SP.val - 1)) (toByte ((toU16 (s.cpu_PC.val + 2)).val &&& 0xff)),
        cpu_SP := toByte (s.cpu_SP.val - 1 + 256 - 1),
        cpu_PC := toU16 (hi.val * 256 + lo.val) } u2 = some (t2, 6) ∧
      t2.cpu_PC = toU16 (s.cpu_PC.val + 3) ∧ t2.cpu_SP = s.cpu_SP ∧
      t2.cpu_regA = s.cpu_regA ∧ t2.cpu_regX = s.cpu_regX ∧ t2.cpu_regY = s.cpu_regY ∧
      t2.cpu_FLAGS = s.cpu_FLAGS := by
    have hq1 : toByte ((toByte (s.cpu_SP.val - 1 + 256 - 1)).val + 1) = toByte (s.cpu_SP.val - 1) := by
      apply Fin.ext; simp only [toByte_val]; omega
    have hq2 : toByte ((toByte (s.cpu_SP.val - 1)).val + 1) = s.cpu_SP := by
      apply Fin.ext; simp only [toByte_val]; omega
    have hq3 : (toByte (s.cpu_SP.val - 1)).val = s.cpu_SP.val - 1 := by
      simp only [toByte_val]; omega
    rw [dispatch_60 _ u2 hop2, case_RTS, pop_ok _ (by simp only [cpu_fetch, hsp2]; omega)]
    simp only [cpu_fetch, Option.some_bind, hq1]
    rw [pop_ok _ (by simp only [hq3]; omega)]
    have hq4 : toByte (s.cpu_SP.val - 1 + 1) = s.cpu_SP := by
      apply Fin.ext; simp only [toByte_val]; omega
    have c1 : ¬ ((256 + (s.cpu_SP.val - 1)) % 65536 = (256 + s.cpu_SP.val) % 65536) := by omega
    simp only [Option.some_bind, hq3, hq4, read_write_memory, c1, if_true, if_false]
    refine ⟨_, rfl, ?_, rfl, rfl, rfl, rfl, rfl⟩
    have hw := word_of_bytes (toU16 (s.cpu_PC.val + 2)).val (toU16 (s.cpu_PC.val + 2)).isLt
    simp only [toU16_val] at hw ⊢
    apply Fin.ext
    simp only [toU16_val]
    have hb : (toByte ((s.cpu_PC.val + 2) % 65536 &&& 255)).val % 65536
        = (toByte ((s.cpu_PC.val + 2) % 65536 &&& 255)).val :=
      Nat.mod_eq_of_lt (by have := (toByte ((s.cpu_PC.val + 2) % 65536 &&& 255)).isLt; omega)
    rw [hb, hw]
    omega
  obtain ⟨t2, h2, rest⟩ := step2
  exact ⟨_, t2, step1, h2, rest⟩

/-- Witness of `JSR_RTS_round_trip`: `JSR $1005` at `$1000`, `RTS` at `$1005`. -/
theorem JSR_RTS_round_trip_witness :
    2 ≤ jsr_rts_input.cpu_SP.val ∧
    (read_memory jsr_rts_input.mem jsr_rts_input.cpu_PC.val).val = 0x20 ∧
    read_memory jsr_rts_input.mem (jsr_rts_input.cpu_PC.val + 1) = 0x05 ∧
    read_memory jsr_rts_input.mem (jsr_rts_input.cpu_PC.val + 2) = 0x10 ∧
    (read_memory jsr_rts_input.mem ((0x05 : byte).val ||| ((0x10 : byte).val <<< 8))).val = 0x60 ∧
    (0x05 : byte).val ||| ((0x10 : byte).val <<< 8) ≠ 0x0100 ||| jsr_rts_input.cpu_SP.val ∧
    (0x05 : byte).val ||| ((0x10 : byte).val <<< 8) ≠ 0x0100 ||| (jsr_rts_input.cpu_SP.val - 1) ∧
    ∃ t1 t2, cpu_do_next_op jsr_rts_input locals0 = some (t1, 6) ∧
      cpu_do_next_op t1 locals0 = some (t2, 6) ∧
      t2.cpu_PC = toU16 (jsr_rts_input.cpu_PC.val + 3) ∧ t2.cpu_SP = jsr_rts_input.cpu_SP ∧
      t2.cpu_regA = jsr_rts_input.cpu_regA ∧ t2.cpu_regX = jsr_rts_input.cpu_regX ∧
      t2.cpu_regY = jsr_rts_input.cpu_regY ∧ t2.cpu_FLAGS = jsr_rts_input.cpu_FLAGS :=
  ⟨by decide, by decide, by decide, by decide, by decide, by decide, by decide,
    JSR_RTS_round_trip jsr_rts_input locals0 locals0 0x05 0x10 (by decide) (by decide)
      (by decide) (by decide) (by decide) (by decide) (by decide)⟩

/-! ## Disassembler -/

theorem eq_but_PC_refl (a : State) : eq_but_PC a a := ⟨rfl, rfl, rfl, rfl, rfl, rfl⟩

theorem eq_but_PC_trans {a b c : State} (h1 : eq_but_PC a b) (h2 : eq_but_PC b c) :
    eq_but_PC a c :=
  ⟨h1.1.trans h2.1, h1.2.1.trans h2.2.1, h1.2.2.1.trans h2.2.2.1,
    h1.2.2.2.1.trans h2.2.2.2.1, h1.2.2.2.2.1.trans h2.2.2.2.2.1,
    h1.2.2.2.2.2.trans h2.2.2.2.2.2⟩

theorem cpu_fetch_frame (s : State) : eq_but_PC (cpu_fetch s).2 s :=
  ⟨rfl, rfl, rfl, rfl, rfl, rfl⟩

theorem get_args_frame (s : State) (count : Nat) (a1 a2 : byte) :
    eq_but_PC (get_args s count a1 a2).2.2 s := by
  unfold get_args
  split_ifs
  · exact eq_but_PC_trans (cpu_fetch_frame _) (cpu_fetch_frame _)
  · exact cpu_fetch_frame _
  · exact eq_but_PC_refl _

theorem dis_operand_frame (d : Dis) (name : String) (count mode2 : Nat) :
    eq_but_PC (dis_operand d name count mode2).s d.s :=
  get_args_frame _ _ _ _

theorem ite_frame (c : Prop) [Decidable c] (a b : Dis) (t : State)
    (ha : eq_but_PC a.s t) (hb : eq_but_PC b.s t) : eq_but_PC (if c then a else b).s t := by
  split_ifs <;> assumption

theorem ite_frame_opt (c : Prop) [Decidable c] (a b : Option Dis) (t : State)
    (ha : ∀ d1, a = some d1 → eq_but_PC d1.s t) (hb : ∀ d1, b = some d1 → eq_but_PC d1.s t) :
    ∀ d1, (if c then a else b) = some d1 → eq_but_PC d1.s t := by
  split_ifs <;> assumption

theorem some_frame_opt (a : Dis) (t : State) (ha : eq_but_PC a.s t) :
    ∀ d1, some a = some d1 → eq_but_PC d1.s t := by
  intro d1 h
  cases h
  exact ha

theorem none_frame_opt (t : State) :
    ∀ d1 : Dis, (none : Option Dis) = some d1 → eq_but_PC d1.s t := by
  intro d1 h
  cases h

theorem dis_full_address_frame (d : Dis) (opcode : byte) :
    eq_but_PC (dis_full_address d opcode).s d.s := by
  unfold dis_full_address
  generalize opcode.val &&& bnot mode_mask = sw
  dsimp only
  repeat' first
    | exact dis_operand_frame _ _ _ _
    | exact eq_but_PC_refl _
    | apply ite_frame

theorem dis_fixed_address_frame (d : Dis) (opcode : byte) :
    eq_but_PC (dis_fixed_address d opcode).s d.s := by
  unfold dis_fixed_address
  generalize opcode.val = op
  dsimp only
  repeat' first
    | exact dis_operand_frame _ _ _ _
    | exact eq_but_PC_refl _
    | apply ite_frame

theorem dis_variable_address_frame (d d1 : Dis) (opcode : byte)
    (h : dis_variable_address d opcode = some d1) : eq_but_PC d1.s d.s := by
  revert d1
  unfold dis_variable_address
  generalize opcode.val &&& bnot mode_mask = sw
  dsimp only
  repeat' first
    | exact none_frame_opt _
    | exact some_frame_opt _ _ (dis_operand_frame _ _ _ _)
    | exact some_frame_opt _ _ (eq_but_PC_refl _)
    | apply ite_frame_opt

theorem restore_PC (a s : State) (h : eq_but_PC a s) : { a with cpu_PC := s.cpu_PC } = s := by
  obtain ⟨h1, h2, h3, h4, h5, h6⟩ := h
  cases s
  simp_all

/-- Claim C9: whenever `dissasemble(adr, ..)` returns (no assertion fires), the state it
leaves (A, X, Y, SP, P, PC and the whole memory) is the state before the call; PC is
restored on both return paths. -/
theorem dissasemble_preserves_state (s : State) (adr : uint16_t) (u : Locals)
    (r : State × String) (h : dissasemble s adr u = some r) : r.1 = s := by
  unfold dissasemble at h
  dsimp only at h
  have hfix := dis_fixed_address_frame
    (dis_full_address
      { s := (cpu_fetch { s with cpu_PC := adr }).2, buffer := "", arg1 := u.arg1,
        arg2 := u.arg2,
        mode := ((cpu_fetch { s with cpu_PC := adr }).1.val &&& mode_mask) >>> 2 }
      (cpu_fetch { s with cpu_PC := adr }).1)
    (cpu_fetch { s with cpu_PC := adr }).1
  have hfull := dis_full_address_frame
      { s := (cpu_fetch { s with cpu_PC := adr }).2, buffer := "", arg1 := u.arg1,
        arg2 := u.arg2,
        mode := ((cpu_fetch { s with cpu_PC := adr }).1.val &&& mode_mask) >>> 2 }
      (cpu_fetch { s with cpu_PC := adr }).1
  have h0 : eq_but_PC (cpu_fetch { s with cpu_PC := adr }).2 s := ⟨rfl, rfl, rfl, rfl, rfl, rfl⟩
  have h2 := eq_but_PC_trans hfix (eq_but_PC_trans hfull h0)
  split_ifs at h with hb
  · cases h
    exact restore_PC _ _ h2
  · cases hv : dis_variable_address
      (dis_fixed_address
        (dis_full_address
          { s := (cpu_fetch { s with cpu_PC := adr }).2, buffer := "", arg1 := u.arg1,
            arg2 := u.arg2,
            mode := ((cpu_fetch { s with cpu_PC := adr }).1.val &&& mode_mask) >>> 2 }
          (cpu_fetch { s with cpu_PC := adr }).1)
        (cpu_fetch { s with cpu_PC := adr }).1)
      (cpu_fetch { s with cpu_PC := adr }).1 with
    | none => rw [hv] at h; simp at h
    | some d1 =>
      rw [hv] at h
      simp only [Option.some_bind] at h
      cases h
      exact restore_PC _ _ (eq_but_PC_trans (dis_variable_address_frame _ _ _ hv) h2)

/-- Witness of `dissasemble_preserves_state`: `LDA #$05` at `$1000`, disassembled while
the program counter is `$2000`. -/
theorem dissasemble_preserves_state_witness :
    dissasemble dis_input 0x1000 locals0 = some (dis_input, "LDA #05") ∧
    (dis_input, "LDA #05").1 = dis_input :=
  ⟨by rfl, dissasemble_preserves_state dis_input 0x1000 locals0 (dis_input, "LDA #05") (by rfl)⟩

/-! ## The Hello World run -/

/-- For the opcodes of the Hello World program the result of `cpu_do_next_op` does not
depend on the indeterminate locals. -/
theorem hello_op_locals (s : State) (u : Locals) (h : hello_op s = true) :
    cpu_do_next_op s u = cpu_do_next_op s locals0 := by
  simp only [hello_op, decide_eq_true_eq, List.mem_cons, List.mem_singleton, List.not_mem_nil,
    or_false] at h
  rcases h with h | h | h | h | h | h | h | h
  · rw [dispatch_A2 s u h, dispatch_A2 s locals0 h]
    simp [case_LDX, get_args_one, get_data_full_imm, address_delay, count_full_imm,
      ind_indir_x, imm, zpg, abs, ind_abs_x, ind_zpg_x, ind_zpg_y, indir_ind_y]
  · rw [dispatch_9A s u h, dispatch_9A s locals0 h]
  · rw [dispatch_E8 s u h, dispatch_E8 s locals0 h]
  · rw [dispatch_BD s u h, dispatch_BD s locals0 h]
    simp only [case_LDA, show count_full_imm ind_abs_x = 2 from rfl, get_args_two]
  · rw [dispatch_9D s u h, dispatch_9D s locals0 h]
    simp only [case_STA, show count_full_imm ind_abs_x = 2 from rfl, get_args_two]
  · rw [dispatch_D0 s u h, dispatch_D0 s locals0 h]
  · rw [dispatch_A9 s u h, dispatch_A9 s locals0 h]
    simp [case_LDA, get_args_one, get_data_full_imm, address_delay, count_full_imm,
      ind_indir_x, imm, zpg, abs, ind_abs_x, ind_zpg_x, ind_zpg_y, indir_ind_y]
  · rw [dispatch_8D s u h, dispatch_8D s locals0 h]
    simp only [case_STA, show count_full_imm abs = 2 from rfl, get_args_two]

theorem body_locals (h : Host) (u : Locals) (hk : hello_op h.cpu = true) :
    run_mode_body h u = run_mode_body h locals0 := by
  simp only [run_mode_body, hello_op_locals h.cpu u hk]

/-- When only Hello World opcodes are executed, `run_mode` does not depend on the
indeterminate locals. -/
theorem run_mode_locals (fuel : Nat) : ∀ (h : Host) (g : Nat → Locals) (i j : Nat),
    only_hello_ops fuel h = true →
    run_mode fuel h g i = run_mode fuel h (fun _ => locals0) j := by
  induction fuel with
  | zero => intro h g i j _; rfl
  | succ n ih =>
    intro h g i j hk
    simp only [only_hello_ops, Bool.and_eq_true] at hk
    obtain ⟨hk1, hk2⟩ := hk
    simp only [run_mode, body_locals h (g i) hk1]
    cases hb : run_mode_body h locals0 with
    | none => rfl
    | some r =>
      obtain ⟨running, h1⟩ := r
      rw [hb] at hk2
      cases running with
      | false => rfl
      | true =>
        simp only [if_true] at hk2 ⊢
        exact ih h1 g (i + 1) (j + 1) hk2

theorem commands_seen_locals (fuel : Nat) : ∀ (h : Host) (g : Nat → Locals) (i j : Nat),
    only_hello_ops fuel h = true →
    commands_seen fuel h g i = commands_seen fuel h (fun _ => locals0) j := by
  induction fuel with
  | zero => intro h g i j _; rfl
  | succ n ih =>
    intro h g i j hk
    simp only [only_hello_ops, Bool.and_eq_true] at hk
    obtain ⟨hk1, hk2⟩ := hk
    simp only [commands_seen, hello_op_locals h.cpu (g i) hk1]
    simp only [run_mode_body] at hk2
    cases hb : cpu_do_next_op h.cpu locals0 with
    | none => rfl
    | some r =>
      rw [hb] at hk2
      simp only [Option.some_bind] at hk2
      by_cases hr : (run_terminal_interface { h with cpu := r.1 }).1 = true
      · rw [if_pos hr] at hk2
        simp only [if_pos hr]
        rw [ih _ g (i + 1) (j + 1) hk2]
      · simp only [if_neg hr]

theorem after_iterations_locals (n : Nat) : ∀ (h : Host) (g : Nat → Locals) (i j : Nat),
    only_hello_ops n h = true →
    after_iterations n h g i = after_iterations n h (fun _ => locals0) j := by
  induction n with
  | zero => intro h g i j _; rfl
  | succ n ih =>
    intro h g i j hk
    simp only [only_hello_ops, Bool.and_eq_true] at hk
    obtain ⟨hk1, hk2⟩ := hk
    simp only [after_iterations, body_locals h (g i) hk1]
    cases hb : run_mode_body h locals0 with
    | none => rfl
    | some r =>
      obtain ⟨running, h1⟩ := r
      rw [hb] at hk2
      cases running with
      | false => rfl
      | true =>
        simp only [if_true] at hk2 ⊢
        exact ih h1 g (i + 1) (j + 1) hk2

theorem run_mode_more_fuel (n k : Nat) : ∀ (h : Host) (g : Nat → Locals) (i : Nat) (h1 : Host),
    run_mode n h g i = Outcome.returned h1 → run_mode (n + k) h g i = Outcome.returned h1 := by
  induction n with
  | zero => intro h g i h1 hr; simp [run_mode] at hr
  | succ n ih =>
    intro h g i h1 hr
    rw [Nat.add_right_comm]
    simp only [run_mode] at hr ⊢
    cases hb : run_mode_body h (g i) with
    | none => rw [hb] at hr; simp at hr
    | some r =>
      obtain ⟨running, h2⟩ := r
      rw [hb] at hr
      cases running with
      | false => simpa using hr
      | true =>
        simp only [if_true] at hr ⊢
        exact ih h2 g (i + 1) h1 hr

theorem bind_step_locals (o : Option Host) (u : Locals)
    (ho : o.all (fun h => hello_op h.cpu) = true) :
    o.bind (fun h => cpu_do_next_op h.cpu u) = o.bind (fun h => cpu_do_next_op h.cpu locals0) := by
  cases o with
  | none => simp only [Option.none_bind]
  | some h =>
    have ho1 : hello_op h.cpu = true := ho
    rw [Option.some_bind, Option.some_bind, hello_op_locals h.cpu u ho1]

theorem hello_ops_58 : only_hello_ops 58 main_setup = true := by decide!

theorem hello_ops_57 : only_hello_ops 57 main_setup = true := by decide!

theorem hello_ops_55 : only_hello_ops 55 main_setup = true := by decide!

/-- Claim C1: the reference host on the built-in Hello World program (`main_setup`, then
`run_mode`), whatever the indeterminate locals: the loop has not ended after 57
instructions and returns after the 58th, with no assertion failure; the terminal has then
printed "Hello World!" exactly once and after it the halt message; the commands it read
at `$40FF` are 55 zeros, `0xAA`, zero, `0xBB`; when it reads `0xAA` (after the 56th
instruction) memory `$4000..$400C` holds the 12 bytes of "Hello World!" and a NUL. -/
theorem hello_world_run (g : Nat → Locals) :
    (run_mode 57 main_setup g 0).ran_out = true ∧
    (∀ k, (run_mode (58 + k) main_setup g 0).printed =
      some [Output.puts_IO_MEM hello_text, Output.halt_message]) ∧
    commands_seen 58 main_setup g 0 = List.replicate 55 0 ++ [0xAA, 0, 0xBB] ∧
    ((after_iterations 55 main_setup g 0).bind (fun h => cpu_do_next_op h.cpu (g 55))).map
        (fun r => ((read_memory r.1.mem 0x40ff).val,
          (List.range 13).map (fun i => read_memory r.1.mem (0x4000 + i))))
      = some (0xAA, hello_text ++ [0]) := by
  refine ⟨?_, ?_, ?_, ?_⟩
  · rw [run_mode_locals 57 main_setup g 0 0 hello_ops_57]
    decide!
  · intro k
    have h58 : ∃ h1, run_mode 58 main_setup g 0 = Outcome.returned h1 ∧
        h1.out = [Output.puts_IO_MEM hello_text, Output.halt_message] := by
      rw [run_mode_locals 58 main_setup g 0 0 hello_ops_58]
      cases hr : run_mode 58 main_setup (fun _ => locals0) 0 with
      | returned h1 =>
        refine ⟨h1, rfl, ?_⟩
        have e : (run_mode 58 main_setup (fun _ => locals0) 0).printed
            = some [Output.puts_IO_MEM hello_text, Output.halt_message] := by decide!
        rw [hr] at e
        simpa [Outcome.printed] using e
      | aborted =>
        have e : (run_mode 58 main_setup (fun _ => locals0) 0).printed
            = some [Output.puts_IO_MEM hello_text, Output.halt_message] := by decide!
        rw [hr] at e
        simp [Outcome.printed] at e
      | out_of_fuel =>
        have e : (run_mode 58 main_setup (fun _ => locals0) 0).printed
            = some [Output.puts_IO_MEM hello_text, Output.halt_message] := by decide!
        rw [hr] at e
        simp [Outcome.printed] at e
    obtain ⟨h1, hr, ho⟩ := h58
    rw [run_mode_more_fuel 58 k main_setup g 0 h1 hr]
    simp [Outcome.printed, ho]
  · rw [commands_seen_locals 58 main_setup g 0 0 hello_ops_58]
    decide!
  · rw [after_iterations_locals 55 main_setup g 0 0 hello_ops_55,
      bind_step_locals _ (g 55) (by decide!)]
    decide!

/-! ## Defects found by evaluation -/

/-- Claim C11 (code defect): `ADC #$50` with A = `$50` and C = 0 leaves A = `$A0`, whose
bit 7 is set, but the N flag clear: `case ADC` copies bit 7 of A into N before it stores
the result in A, so N is bit 7 of the old A. -/
theorem ADC_negative_flag_from_old_A :
    (cpu_do_next_op adc_input locals0).map
        (fun r => (r.1.cpu_regA.val, flag_set r.1.cpu_FLAGS flag_N, flag_set r.1.cpu_FLAGS flag_V,
          flag_set r.1.cpu_FLAGS flag_C, flag_set r.1.cpu_FLAGS flag_Z))
      = some (0xA0, false, true, false, false) ∧
    (0xA0 : Nat).testBit 7 = true := by
  decide

/-- Claim C13 (code defect): `SBC #$F0` with A = `$50`, C = 1 and D = 0 leaves A = `$60`
and sets V, although bit 7 of the old A and bit 7 of the result are both 0: `case SBC`
tests `A + ~data + C` (A and data unsigned) against the range -128..127. -/
theorem SBC_overflow_flag_wrong :
    flag_set sbc_input.cpu_FLAGS flag_D = false ∧
    (cpu_do_next_op sbc_input locals0).map
        (fun r => (r.1.cpu_regA.val, flag_set r.1.cpu_FLAGS flag_V, flag_set r.1.cpu_FLAGS flag_C,
          flag_set r.1.cpu_FLAGS flag_N, flag_set r.1.cpu_FLAGS flag_Z))
      = some (0x60, true, false, false, false) ∧
    (sbc_input.cpu_regA.val.testBit 7 != (0x60 : Nat).testBit 7) = false := by
  decide

/-- Claim C15 (code defects): `CPX #$03` and `CPY #$03` fail the assertion of `COMP`
(opcodes 0xE0 and 0xC0 decode to mode 0, `ind_indir_x`); `CPX $02` and `CPY $02` with
register 5 and operand 3 complete but leave C clear although 5 ≥ 3, because the carry
is computed from `intermediate >= data` with `intermediate = register - data`. -/
theorem CPX_CPY_immediate_abort_and_carry_wrong :
    (cpu_do_next_op cpx_immediate_input locals0).isNone = true ∧
    (cpu_do_next_op cpy_immediate_input locals0).isNone = true ∧
    (cpu_do_next_op cpx_zero_page_input locals0).map
        (fun r => (flag_set r.1.cpu_FLAGS flag_C, flag_set r.1.cpu_FLAGS flag_Z,
          flag_set r.1.cpu_FLAGS flag_N))
      = some (false, false, false) ∧
    (cpu_do_next_op cpy_zero_page_input locals0).map
        (fun r => (flag_set r.1.cpu_FLAGS flag_C, flag_set r.1.cpu_FLAGS flag_Z,
          flag_set r.1.cpu_FLAGS flag_N))
      = some (false, false, false) := by
  decide

/-- Claim C16 (code defect): `ASL A` with A = `$40` and N = 0 writes `$80`, whose bit 7 is
set, sets C = 0 and Z = 0, but leaves N clear: `case ASL` never calls `update_Nflag`. -/
theorem ASL_leaves_negative_flag :
    (cpu_do_next_op asl_input locals0).map
        (fun r => (r.1.cpu_regA.val, flag_set r.1.cpu_FLAGS flag_C, flag_set r.1.cpu_FLAGS flag_Z,
          flag_set r.1.cpu_FLAGS flag_N))
      = some (0x80, false, false, false) ∧
    (0x80 : Nat).testBit 7 = true := by
  decide

/-- Claim C17 (code defect): `LSR A` with A = `$01`, N = 1 and C = 0 writes 0 and sets Z,
but leaves C clear (bit 0 of the operand is 1) and N set: the statement
`P &= ~(flag_N & flag_C)` changes nothing and the carry is never assigned. -/
theorem LSR_leaves_carry_and_negative :
    (cpu_do_next_op lsr_input locals0).map
        (fun r => (r.1.cpu_regA.val, flag_set r.1.cpu_FLAGS flag_C, flag_set r.1.cpu_FLAGS flag_N,
          flag_set r.1.cpu_FLAGS flag_Z))
      = some (0, false, true, true) ∧
    (0x01 : Nat).testBit 0 = true := by
  decide

/-- Claim C19 (code defect): `INY` with X = 7 and Y = 5 leaves Y = 5 and makes X = 8:
`case INY` increments X. -/
theorem INY_increments_X :
    (cpu_do_next_op iny_input locals0).map
        (fun r => (r.1.cpu_regX.val, r.1.cpu_regY.val)) = some (8, 5) := by
  decide

/-- Claim C20 (code defect): `BIT $02` with A = 0 and M = `$C0` leaves N and V clear
although bits 7 and 6 of M are set: `case BIT` takes both flags from `A & M`. -/
theorem BIT_flags_from_A_and_M :
    (read_memory bit_input.mem 0x02).val = 0xC0 ∧
    (cpu_do_next_op bit_input locals0).map
        (fun r => (flag_set r.1.cpu_FLAGS flag_N, flag_set r.1.cpu_FLAGS flag_V,
          flag_set r.1.cpu_FLAGS flag_Z))
      = some (false, false, true) := by
  decide

/-! ## Decoding of further opcodes -/

theorem dispatch_C8 (s : State) (u : Locals)
    (h0 : (read_memory s.mem s.cpu_PC.val).val = 0xC8) :
    cpu_do_next_op s u = case_INY (cpu_fetch s).2 := by
  have e1 : (0xC8 &&& bnot mode_mask) = 192 := by decide
  simp only [cpu_do_next_op, fixed_address_modes, cpu_fetch, h0, e1]
  simp [opcode_values]

theorem dispatch_E9 (s : State) (u : Locals)
    (h0 : (read_memory s.mem s.cpu_PC.val).val = 0xE9) :
    cpu_do_next_op s u = case_SBC (cpu_fetch s).2 imm u := by
  have e1 : (0xE9 &&& bnot mode_mask) = 225 := by decide
  have e2 : ((0xE9 &&& mode_mask) >>> 2) = 2 := by decide
  simp only [cpu_do_next_op, cpu_fetch, h0, e1, e2]
  simp [opcode_values, imm]

theorem dispatch_C9 (s : State) (u : Locals)
    (h0 : (read_memory s.mem s.cpu_PC.val).val = 0xC9) :
    cpu_do_next_op s u = case_CMP (cpu_fetch s).2 imm u := by
  have e1 : (0xC9 &&& bnot mode_mask) = 193 := by decide
  have e2 : ((0xC9 &&& mode_mask) >>> 2) = 2 := by decide
  simp only [cpu_do_next_op, cpu_fetch, h0, e1, e2]
  simp [opcode_values, imm]

theorem dispatch_C5 (s : State) (u : Locals)
    (h0 : (read_memory s.mem s.cpu_PC.val).val = 0xC5) :
    cpu_do_next_op s u = case_CMP (cpu_fetch s).2 zpg u := by
  have e1 : (0xC5 &&& bnot mode_mask) = 193 := by decide
  have e2 : ((0xC5 &&& mode_mask) >>> 2) = 1 := by decide
  simp only [cpu_do_next_op, cpu_fetch, h0, e1, e2]
  simp [opcode_values, zpg]

theorem dispatch_CD (s : State) (u : Locals)
    (h0 : (read_memory s.mem s.cpu_PC.val).val = 0xCD) :
    cpu_do_next_op s u = case_CMP (cpu_fetch s).2 abs u := by
  have e1 : (0xCD &&& bnot mode_mask) = 193 := by decide
  have e2 : ((0xCD &&& mode_mask) >>> 2) = 3 := by decide
  simp only [cpu_do_next_op, cpu_fetch, h0, e1, e2]
  simp [opcode_values, abs]

theorem dispatch_2A (s : State) (u : Locals)
    (h0 : (read_memory s.mem s.cpu_PC.val).val = 0x2A) :
    cpu_do_next_op s u = case_ROL (cpu_fetch s).2 imm u := by
  have e1 : (0x2A &&& bnot mode_mask) = 34 := by decide
  have e2 : ((0x2A &&& mode_mask) >>> 2) = 2 := by decide
  simp only [cpu_do_next_op, fixed_address_modes, variable_address_modes, cpu_fetch, h0, e1, e2]
  simp [opcode_values, imm]

theorem dispatch_26 (s : State) (u : Locals)
    (h0 : (read_memory s.mem s.cpu_PC.val).val = 0x26) :
    cpu_do_next_op s u = case_ROL (cpu_fetch s).2 zpg u := by
  have e1 : (0x26 &&& bnot mode_mask) = 34 := by decide
  have e2 : ((0x26 &&& mode_mask) >>> 2) = 1 := by decide
  simp only [cpu_do_next_op, fixed_address_modes, variable_address_modes, cpu_fetch, h0, e1, e2]
  simp [opcode_values, zpg]

theorem dispatch_36 (s : State) (u : Locals)
    (h0 : (read_memory s.mem s.cpu_PC.val).val = 0x36) :
    cpu_do_next_op s u = case_ROL (cpu_fetch s).2 ind_zpg_x u := by
  have e1 : (0x36 &&& bnot mode_mask) = 34 := by decide
  have e2 : ((0x36 &&& mode_mask) >>> 2) = 5 := by decide
  simp only [cpu_do_next_op, fixed_address_modes, variable_address_modes, cpu_fetch, h0, e1, e2]
  simp [opcode_values, ind_zpg_x]

theorem dispatch_2E (s : State) (u : Locals)
    (h0 : (read_memory s.mem s.cpu_PC.val).val = 0x2E) :
    cpu_do_next_op s u = case_ROL (cpu_fetch s).2 abs u := by
  have e1 : (0x2E &&& bnot mode_mask) = 34 := by decide
  have e2 : ((0x2E &&& mode_mask) >>> 2) = 3 := by decide
  simp only [cpu_do_next_op, fixed_address_modes, variable_address_modes, cpu_fetch, h0, e1, e2]
  simp [opcode_values, abs]

theorem dispatch_3E (s : State) (u : Locals)
    (h0 : (read_memory s.mem s.cpu_PC.val).val = 0x3E) :
    cpu_do_next_op s u = case_ROL (cpu_fetch s).2 ind_abs_x u := by
  have e1 : (0x3E &&& bnot mode_mask) = 34 := by decide
  have e2 : ((0x3E &&& mode_mask) >>> 2) = 7 := by decide
  simp only [cpu_do_next_op, fixed_address_modes, variable_address_modes, cpu_fetch, h0, e1, e2]
  simp [opcode_values, ind_abs_x]

theorem dispatch_6A (s : State) (u : Locals)
    (h0 : (read_memory s.mem s.cpu_PC.val).val = 0x6A) :
    cpu_do_next_op s u = case_ROR (cpu_fetch s).2 imm u := by
  have e1 : (0x6A &&& bnot mode_mask) = 98 := by decide
  have e2 : ((0x6A &&& mode_mask) >>> 2) = 2 := by decide
  simp only [cpu_do_next_op, fixed_address_modes, variable_address_modes, cpu_fetch, h0, e1, e2]
  simp [opcode_values, imm]

theorem dispatch_66 (s : State) (u : Locals)
    (h0 : (read_memory s.mem s.cpu_PC.val).val = 0x66) :
    cpu_do_next_op s u = case_ROR (cpu_fetch s).2 zpg u := by
  have e1 : (0x66 &&& bnot mode_mask) = 98 := by decide
  have e2 : ((0x66 &&& mode_mask) >>> 2) = 1 := by decide
  simp only [cpu_do_next_op, fixed_address_modes, variable_address_modes, cpu_fetch, h0, e1, e2]
  simp [opcode_values, zpg]

theorem dispatch_76 (s : State) (u : Locals)
    (h0 : (read_memory s.mem s.cpu_PC.val).val = 0x76) :
    cpu_do_next_op s u = case_ROR (cpu_fetch s).2 ind_zpg_x u := by
  have e1 : (0x76 &&& bnot mode_mask) = 98 := by decide
  have e2 : ((0x76 &&& mode_mask) >>> 2) = 5 := by decide
  simp only [cpu_do_next_op, fixed_address_modes, variable_address_modes, cpu_fetch, h0, e1, e2]
  simp [opcode_values, ind_zpg_x]

theorem dispatch_6E (s : State) (u : Locals)
    (h0 : (read_memory s.mem s.cpu_PC.val).val = 0x6E) :
    cpu_do_next_op s u = case_ROR (cpu_fetch s).2 abs u := by
  have e1 : (0x6E &&& bnot mode_mask) = 98 := by decide
  have e2 : ((0x6E &&& mode_mask) >>> 2) = 3 := by decide
  simp only [cpu_do_next_op, fixed_address_modes, variable_address_modes, cpu_fetch, h0, e1, e2]
  simp [opcode_values, abs]

theorem dispatch_7E (s : State) (u : Locals)
    (h0 : (read_memory s.mem s.cpu_PC.val).val = 0x7E) :
    cpu_do_next_op s u = case_ROR (cpu_fetch s).2 ind_abs_x u := by
  have e1 : (0x7E &&& bnot mode_mask) = 98 := by decide
  have e2 : ((0x7E &&& mode_mask) >>> 2) = 7 := by decide
  simp only [cpu_do_next_op, fixed_address_modes, variable_address_modes, cpu_fetch, h0, e1, e2]
  simp [opcode_values, ind_abs_x]

theorem dispatch_0A (s : State) (u : Locals)
    (h0 : (read_memory s.mem s.cpu_PC.val).val = 0x0A) :
    cpu_do_next_op s u = case_ASL (cpu_fetch s).2 imm u := by
  have e1 : (0x0A &&& bnot mode_mask) = 2 := by decide
  have e2 : ((0x0A &&& mode_mask) >>> 2) = 2 := by decide
  simp only [cpu_do_next_op, fixed_address_modes, variable_address_modes, cpu_fetch, h0, e1, e2]
  simp [opcode_values, imm]

theorem dispatch_06 (s : State) (u : Locals)
    (h0 : (read_memory s.mem s.cpu_PC.val).val = 0x06) :
    cpu_do_next_op s u = case_ASL (cpu_fetch s).2 zpg u := by
  have e1 : (0x06 &&& bnot mode_mask) = 2 := by decide
  have e2 : ((0x06 &&& mode_mask) >>> 2) = 1 := by decide
  simp only [cpu_do_next_op, fixed_address_modes, variable_address_modes, cpu_fetch, h0, e1, e2]
  simp [opcode_values, zpg]

theorem dispatch_16 (s : State) (u : Locals)
    (h0 : (read_memory s.mem s.cpu_PC.val).val = 0x16) :
    cpu_do_next_op s u = case_ASL (cpu_fetch s).2 ind_zpg_x u := by
  have e1 : (0x16 &&& bnot mode_mask) = 2 := by decide
  have e2 : ((0x16 &&& mode_mask) >>> 2) = 5 := by decide
  simp only [cpu_do_next_op, fixed_address_modes, variable_address_modes, cpu_fetch, h0, e1, e2]
  simp [opcode_values, ind_zpg_x]

theorem dispatch_0E (s : State) (u : Locals)
    (h0 : (read_memory s.mem s.cpu_PC.val).val = 0x0E) :
    cpu_do_next_op s u = case_ASL (cpu_fetch s).2 abs u := by
  have e1 : (0x0E &&& bnot mode_mask) = 2 := by decide
  have e2 : ((0x0E &&& mode_mask) >>> 2) = 3 := by decide
  simp only [cpu_do_next_op, fixed_address_modes, variable_address_modes, cpu_fetch, h0, e1, e2]
  simp [opcode_values, abs]

theorem dispatch_1E (s : State) (u : Locals)
    (h0 : (read_memory s.mem s.cpu_PC.val).val = 0x1E) :
    cpu_do_next_op s u = case_ASL (cpu_fetch s).2 ind_abs_x u := by
  have e1 : (0x1E &&& bnot mode_mask) = 2 := by decide
  have e2 : ((0x1E &&& mode_mask) >>> 2) = 7 := by decide
  simp only [cpu_do_next_op, fixed_address_modes, variable_address_modes, cpu_fetch, h0, e1, e2]
  simp [opcode_values, ind_abs_x]

theorem dispatch_4A (s : State) (u : Locals)
    (h0 : (read_memory s.mem s.cpu_PC.val).val = 0x4A) :
    cpu_do_next_op s u = case_LSR (cpu_fetch s).2 imm u := by
  have e1 : (0x4A &&& bnot mode_mask) = 66 := by decide
  have e2 : ((0x4A &&& mode_mask) >>> 2) = 2 := by decide
  simp only [cpu_do_next_op, fixed_address_modes, variable_address_modes, cpu_fetch, h0, e1, e2]
  simp [opcode_values, imm]

theorem dispatch_46 (s : State) (u : Locals)
    (h0 : (read_memory s.mem s.cpu_PC.val).val = 0x46) :
    cpu_do_next_op s u = case_LSR (cpu_fetch s).2 zpg u := by
  have e1 : (0x46 &&& bnot mode_mask) = 66 := by decide
  have e2 : ((0x46 &&& mode_mask) >>> 2) = 1 := by decide
  simp only [cpu_do_next_op, fixed_address_modes, variable_address_modes, cpu_fetch, h0, e1, e2]
  simp [opcode_values, zpg]

theorem dispatch_56 (s : State) (u : Locals)
    (h0 : (read_memory s.mem s.cpu_PC.val).val = 0x56) :
    cpu_do_next_op s u = case_LSR (cpu_fetch s).2 ind_zpg_x u := by
  have e1 : (0x56 &&& bnot mode_mask) = 66 := by decide
  have e2 : ((0x56 &&& mode_mask) >>> 2) = 5 := by decide
  simp only [cpu_do_next_op, fixed_address_modes, variable_address_modes, cpu_fetch, h0, e1, e2]
  simp [opcode_values, ind_zpg_x]

theorem dispatch_4E (s : State) (u : Locals)
    (h0 : (read_memory s.mem s.cpu_PC.val).val = 0x4E) :
    cpu_do_next_op s u = case_LSR (cpu_fetch s).2 abs u := by
  have e1 : (0x4E &&& bnot mode_mask) = 66 := by decide
  have e2 : ((0x4E &&& mode_mask) >>> 2) = 3 := by decide
  simp only [cpu_do_next_op, fixed_address_modes, variable_address_modes, cpu_fetch, h0, e1, e2]
  simp [opcode_values, abs]

theorem dispatch_5E (s : State) (u : Locals)
    (h0 : (read_memory s.mem s.cpu_PC.val).val = 0x5E) :
    cpu_do_next_op s u = case_LSR (cpu_fetch s).2 ind_abs_x u := by
  have e1 : (0x5E &&& bnot mode_mask) = 66 := by decide
  have e2 : ((0x5E &&& mode_mask) >>> 2) = 7 := by decide
  simp only [cpu_do_next_op, fixed_address_modes, variable_address_modes, cpu_fetch, h0, e1, e2]
  simp [opcode_values, ind_abs_x]

theorem dispatch_24 (s : State) (u : Locals)
    (h0 : (read_memory s.mem s.cpu_PC.val).val = 0x24) :
    cpu_do_next_op s u = case_BIT (cpu_fetch s).2 zpg u := by
  have e1 : (0x24 &&& bnot mode_mask) = 32 := by decide
  have e2 : ((0x24 &&& mode_mask) >>> 2) = 1 := by decide
  simp only [cpu_do_next_op, fixed_address_modes, variable_address_modes, cpu_fetch, h0, e1, e2]
  simp [opcode_values, zpg]

theorem dispatch_2C (s : State) (u : Locals)
    (h0 : (read_memory s.mem s.cpu_PC.val).val = 0x2C) :
    cpu_do_next_op s u = case_BIT (cpu_fetch s).2 abs u := by
  have e1 : (0x2C &&& bnot mode_mask) = 32 := by decide
  have e2 : ((0x2C &&& mode_mask) >>> 2) = 3 := by decide
  simp only [cpu_do_next_op, fixed_address_modes, variable_address_modes, cpu_fetch, h0, e1, e2]
  simp [opcode_values, abs]

theorem dispatch_E0 (s : State) (u : Locals)
    (h0 : (read_memory s.mem s.cpu_PC.val).val = 0xE0) :
    cpu_do_next_op s u = COMP (cpu_fetch s).2 (cpu_fetch s).2.cpu_regX ind_indir_x u := by
  have e1 : (0xE0 &&& bnot mode_mask) = 224 := by decide
  have e2 : ((0xE0 &&& mode_mask) >>> 2) = 0 := by decide
  simp only [cpu_do_next_op, fixed_address_modes, variable_address_modes, cpu_fetch, h0, e1, e2]
  simp [opcode_values, ind_indir_x]

theorem dispatch_E4 (s : State) (u : Locals)
    (h0 : (read_memory s.mem s.cpu_PC.val).val = 0xE4) :
    cpu_do_next_op s u = COMP (cpu_fetch s).2 (cpu_fetch s).2.cpu_regX zpg u := by
  have e1 : (0xE4 &&& bnot mode_mask) = 224 := by decide
  have e2 : ((0xE4 &&& mode_mask) >>> 2) = 1 := by decide
  simp only [cpu_do_next_op, fixed_address_modes, variable_address_modes, cpu_fetch, h0, e1, e2]
  simp [opcode_values, zpg]

theorem dispatch_EC (s : State) (u : Locals)
    (h0 : (read_memory s.mem s.cpu_PC.val).val = 0xEC) :
    cpu_do_next_op s u = COMP (cpu_fetch s).2 (cpu_fetch s).2.cpu_regX abs u := by
  have e1 : (0xEC &&& bnot mode_mask) = 224 := by decide
  have e2 : ((0xEC &&& mode_mask) >>> 2) = 3 := by decide
  simp only [cpu_do_next_op, fixed_address_modes, variable_address_modes, cpu_fetch, h0, e1, e2]
  simp [opcode_values, abs]

theorem dispatch_C0 (s : State) (u : Locals)
    (h0 : (read_memory s.mem s.cpu_PC.val).val = 0xC0) :
    cpu_do_next_op s u = COMP (cpu_fetch s).2 (cpu_fetch s).2.cpu_regY ind_indir_x u := by
  have e1 : (0xC0 &&& bnot mode_mask) = 192 := by decide
  have e2 : ((0xC0 &&& mode_mask) >>> 2) = 0 := by decide
  simp only [cpu_do_next_op, fixed_address_modes, variable_address_modes, cpu_fetch, h0, e1, e2]
  simp [opcode_values, ind_indir_x]

theorem dispatch_C4 (s : State) (u : Locals)
    (h0 : (read_memory s.mem s.cpu_PC.val).val = 0xC4) :
    cpu_do_next_op s u = COMP (cpu_fetch s).2 (cpu_fetch s).2.cpu_regY zpg u := by
  have e1 : (0xC4 &&& bnot mode_mask) = 192 := by decide
  have e2 : ((0xC4 &&& mode_mask) >>> 2) = 1 := by decide
  simp only [cpu_do_next_op, fixed_address_modes, variable_address_modes, cpu_fetch, h0, e1, e2]
  simp [opcode_values, zpg]

theorem dispatch_CC (s : State) (u : Locals)
    (h0 : (read_memory s.mem s.cpu_PC.val).val = 0xCC) :
    cpu_do_next_op s u = COMP (cpu_fetch s).2 (cpu_fetch s).2.cpu_regY abs u := by
  have e1 : (0xCC &&& bnot mode_mask) = 192 := by decide
  have e2 : ((0xCC &&& mode_mask) >>> 2) = 3 := by decide
  simp only [cpu_do_next_op, fixed_address_modes, variable_address_modes, cpu_fetch, h0, e1, e2]
  simp [opcode_values, abs]

/-! ## SBC -/

set_option maxRecDepth 100000 in
theorem bnot_byte : ∀ m : byte, bnot m.val &&& 0xFF = 255 - m.val := by decide

/-- The signed intermediate of `case SBC` against the unsigned sum of the specification. -/
theorem sbc_arith (a m c : Nat) (hm : m < 256) :
    bits32 ((a : Int) + (-(m : Int) - 1) + (c : Int)) &&& 0xff = (a + (255 - m) + c) % 256 ∧
    ((a : Int) + (-(m : Int) - 1) + (c : Int) ≥ 0 ↔ a + (255 - m) + c > 255) ∧
    (intToByte ((a : Int) + (-(m : Int) - 1) + (c : Int))).val = (a + (255 - m) + c) % 256 ∧
    bits32 ((a : Int) + (-(m : Int) - 1) + (c : Int)) &&& 0x80 =
      if ((a + (255 - m) + c) % 256).testBit 7 then 0x80 else 0 := by
  refine ⟨?_, ?_, ?_, ?_⟩
  · rw [and_ff]; unfold bits32; omega
  · omega
  · unfold intToByte; simp only; omega
  · rw [and_80, testBit7]
    unfold bits32
    by_cases h : (a + (255 - m) + c) % 256 / 128 % 2 = 1
    · simp only [h, decide_True, if_true]; omega
    · simp only [h, decide_False]
      simp only [Bool.false_eq_true, if_false]; omega

/-- Claim C12: with D clear, for every A, operand `m` and carry-in, `SBC #m` (opcode 0xE9)
with `tmp = A + (~m & 0xFF) + c` leaves A = tmp & 0xFF, C = (tmp > 0xFF), N = bit 7 of the
new A and Z = (new A == 0); the flags B, D, I and bit 5 are unchanged. -/
theorem SBC_immediate_result_C_N_Z (s : State) (u : Locals) (m : byte)
    (h0 : (read_memory s.mem s.cpu_PC.val).val = 0xE9)
    (hv : read_memory s.mem (s.cpu_PC.val + 1) = m)
    (hd : flag_set s.cpu_FLAGS flag_D = false) :
    ∃ t c, cpu_do_next_op s u = some (t, c) ∧
      t.cpu_regA.val = sbc_tmp s m &&& 0xFF ∧
      flag_set t.cpu_FLAGS flag_C = decide (sbc_tmp s m > 0xFF) ∧
      flag_set t.cpu_FLAGS flag_N = t.cpu_regA.val.testBit 7 ∧
      flag_set t.cpu_FLAGS flag_Z = decide (t.cpu_regA.val = 0) ∧
      t.cpu_FLAGS.val &&& 0x3C = s.cpu_FLAGS.val &&& 0x3C := by
  rw [dispatch_E9 s u h0]
  have hd1 : s.cpu_FLAGS.val &&& flag_D = 0 := by
    simpa [flag_set] using hd
  simp only [case_SBC, show count_full_imm imm = 1 from rfl, get_args_one, fetch_operand s m hv,
    get_data_full_imm, if_true, update_Zflag, carry_in_byte, hd1, ne_eq, not_true_eq_false,
    if_false]
  refine ⟨_, _, rfl, ?_⟩
  obtain ⟨a1, a2, a3, a4⟩ := sbc_arith s.cpu_regA.val m.val
    (if flag_set s.cpu_FLAGS flag_C = true then 1 else 0) m.isLt
  have e : s.cpu_regA.val + (255 - m.val) + (if flag_set s.cpu_FLAGS flag_C = true then 1 else 0)
      = sbc_tmp s m := by
    unfold sbc_tmp; rw [bnot_byte]
  rw [e] at a1 a2 a3 a4
  simp only [a1, a3, a4, show flag_N = 0x80 from rfl, toByte_val, and_ff, Nat.mod_mod]
  generalize sbc_tmp s m = tmp at a2 ⊢
  generalize (s.cpu_regA.val : Int) + (-(m.val : Int) - 1) +
    ((if flag_set s.cpu_FLAGS flag_C = true then 1 else 0 : Nat) : Int) = i at a2 ⊢
  generalize s.cpu_FLAGS = p
  refine ⟨trivial, ?_⟩
  have t0 : Nat.testBit 0 7 = false := by decide
  by_cases hz : tmp % 256 = 0
  · simp only [hz, t0]
    by_cases hv1 : i > 127 ∨ i < -128 <;> by_cases hc : i ≥ 0 <;>
      simp only [hv1, hc, ← a2, if_true, if_false, decide_True, decide_False,
        Bool.false_eq_true] <;>
      revert p <;> set_option maxRecDepth 100000 in decide
  · cases hn : (tmp % 256).testBit 7 <;>
      by_cases hv1 : i > 127 ∨ i < -128 <;> by_cases hc : i ≥ 0 <;>
      simp only [hz, hv1, hc, ← a2, if_true, if_false, decide_True, decide_False,
        Bool.false_eq_true] <;>
      revert p <;> set_option maxRecDepth 100000 in decide

/-- Witness of `SBC_immediate_result_C_N_Z`: A = `$50`, operand `$30`, C = 1, D clear. -/
theorem SBC_immediate_result_C_N_Z_witness :
    (read_memory sbc_plain_input.mem sbc_plain_input.cpu_PC.val).val = 0xE9 ∧
    read_memory sbc_plain_input.mem (sbc_plain_input.cpu_PC.val + 1) = 0x30 ∧
    flag_set sbc_plain_input.cpu_FLAGS flag_D = false ∧
    ∃ t c, cpu_do_next_op sbc_plain_input locals0 = some (t, c) ∧
      t.cpu_regA.val = sbc_tmp sbc_plain_input 0x30 &&& 0xFF ∧
      flag_set t.cpu_FLAGS flag_C = decide (sbc_tmp sbc_plain_input 0x30 > 0xFF) ∧
      flag_set t.cpu_FLAGS flag_N = t.cpu_regA.val.testBit 7 ∧
      flag_set t.cpu_FLAGS flag_Z = decide (t.cpu_regA.val = 0) ∧
      t.cpu_FLAGS.val &&& 0x3C = sbc_plain_input.cpu_FLAGS.val &&& 0x3C :=
  ⟨by decide, by decide, by decide,
    SBC_immediate_result_C_N_Z sbc_plain_input locals0 0x30 (by decide) (by decide) (by decide)⟩

/-! ## CMP -/

theorem testBit7_low8 (x : Nat) : (x &&& 0xFF).testBit 7 = x.testBit 7 := by
  rw [Nat.testBit_and]
  simp [show Nat.testBit 0xFF 7 = true by decide]

/-- The three flag assignments of `case CMP` on the status byte `p`. -/
theorem cmp_flag_bits (p a m : byte) (f : byte)
    (hf : f = (if a.val ≥ m.val then
        toByte ((if (a.val : Int) + (-(m.val : Int) - 1) + 1 = 0 then
          toByte ((toByte ((bits32 ((a.val : Int) + (-(m.val : Int) - 1) + 1) &&& flag_N) |||
            (p.val &&& bnot flag_N))).val ||| flag_Z)
          else toByte ((toByte ((bits32 ((a.val : Int) + (-(m.val : Int) - 1) + 1) &&& flag_N) |||
            (p.val &&& bnot flag_N))).val &&& bnot flag_Z)).val ||| flag_C)
      else
        toByte ((if (a.val : Int) + (-(m.val : Int) - 1) + 1 = 0 then
          toByte ((toByte ((bits32 ((a.val : Int) + (-(m.val : Int) - 1) + 1) &&& flag_N) |||
            (p.val &&& bnot flag_N))).val ||| flag_Z)
          else toByte ((toByte ((bits32 ((a.val : Int) + (-(m.val : Int) - 1) + 1) &&& flag_N) |||
            (p.val &&& bnot flag_N))).val &&& bnot flag_Z)).val &&& bnot flag_C))) :
    flag_set f flag_C = decide (a.val ≥ m.val) ∧
    flag_set f flag_Z = decide (a = m) ∧
    flag_set f flag_N = (bits32 ((a.val : Int) - (m.val : Int)) &&& 0xFF).testBit 7 ∧
    f.val &&& 0x7C = p.val &&& 0x7C := by
  subst hf
  have e : (a.val : Int) + (-(m.val : Int) - 1) + 1 = (a.val : Int) - (m.val : Int) := by ring
  have ez : ((a.val : Int) - (m.val : Int) = 0) ↔ a = m := by
    rw [Fin.ext_iff]; omega
  rw [e, testBit7_low8]
  simp only [show flag_N = 0x80 from rfl, and_80_testBit, ez]
  generalize (bits32 ((a.val : Int) - (m.val : Int))).testBit 7 = b
  have hc : (a.val ≥ m.val) = True ∨ (a.val ≥ m.val) = False := by
    by_cases h : a.val ≥ m.val
    · exact Or.inl (eq_true h)
    · exact Or.inr (eq_false h)
  have hz : (a = m) = True ∨ (a = m) = False := by
    by_cases h : a = m
    · exact Or.inl (eq_true h)
    · exact Or.inr (eq_false h)
  rcases hc with hc | hc <;> rcases hz with hz | hz <;> cases b <;>
    simp only [hc, hz, if_true, if_false, decide_True, decide_False, Bool.false_eq_true]
  all_goals (revert p; set_option maxRecDepth 100000 in decide)

/-- Claim C14: for every A and operand `m`, CMP in its immediate (0xC9), zero-page (0xC5)
and absolute (0xCD) forms completes and sets C = (A >= m), Z = (A == m) and N = bit 7 of
`(A - m) & 0xFF`; A, X, Y, SP, the memory and the flags V, B, D, I and bit 5 are unchanged. -/
theorem CMP_sets_C_Z_N (s : State) (u : Locals) (form : Nat)
    (h : ((read_memory s.mem s.cpu_PC.val).val = 0xC9 ∧ form = imm) ∨
         ((read_memory s.mem s.cpu_PC.val).val = 0xC5 ∧ form = zpg) ∨
         ((read_memory s.mem s.cpu_PC.val).val = 0xCD ∧ form = abs)) :
    ∃ t c, cpu_do_next_op s u = some (t, c) ∧
      compare_post s t s.cpu_regA (operand_at s form) := by
  rcases h with ⟨h0, hf⟩ | ⟨h0, hf⟩ | ⟨h0, hf⟩
  · subst hf
    rw [dispatch_C9 s u h0]
    simp only [case_CMP, show count_full_imm imm = 1 from rfl, get_args_one,
      fetch_operand s _ rfl, get_data_full_imm, if_true]
    refine ⟨_, _, rfl, ?_⟩
    obtain ⟨c1, c2, c3, c4⟩ := cmp_flag_bits s.cpu_FLAGS s.cpu_regA
      (read_memory s.mem (s.cpu_PC.val + 1)) _ rfl
    exact ⟨c1, c2, c3, rfl, rfl, rfl, rfl, rfl, c4⟩
  · subst hf
    rw [dispatch_C5 s u h0]
    simp only [case_CMP, show count_full_imm zpg = 1 from rfl, get_args_one,
      fetch_operand s _ rfl, get_data_full_imm, show ¬ (zpg = imm) by decide, if_false,
      read_address, get_effective_address, if_true]
    refine ⟨_, _, rfl, ?_⟩
    obtain ⟨c1, c2, c3, c4⟩ := cmp_flag_bits s.cpu_FLAGS s.cpu_regA
      (read_memory s.mem (read_memory s.mem (s.cpu_PC.val + 1)).val) _ rfl
    exact ⟨c1, c2, c3, rfl, rfl, rfl, rfl, rfl, c4⟩
  · subst hf
    rw [dispatch_CD s u h0]
    simp only [case_CMP, show count_full_imm abs = 2 from rfl, get_args_two,
      fetch_operand s _ rfl, fetch_operand2 s _ rfl, get_data_full_imm,
      show ¬ (abs = imm) by decide, show ¬ (abs = zpg) by decide,
      show ¬ (abs = ind_zpg_x) by decide, show ¬ (abs = ind_zpg_y) by decide, if_false,
      read_address, get_effective_address, if_true, read_memory_toU16]
    refine ⟨_, _, rfl, ?_⟩
    have ec : ((read_memory s.mem (s.cpu_PC.val + 2)).val <<< 8) |||
        (read_memory s.mem (s.cpu_PC.val + 1)).val =
        (read_memory s.mem (s.cpu_PC.val + 1)).val |||
          ((read_memory s.mem (s.cpu_PC.val + 2)).val <<< 8) := Nat.lor_comm _ _
    simp only [ec]
    obtain ⟨c1, c2, c3, c4⟩ := cmp_flag_bits s.cpu_FLAGS s.cpu_regA
      (read_memory s.mem ((read_memory s.mem (s.cpu_PC.val + 1)).val |||
        ((read_memory s.mem (s.cpu_PC.val + 2)).val <<< 8))) _ rfl
    exact ⟨c1, c2, c3, rfl, rfl, rfl, rfl, rfl, c4⟩

/-- Witness of `CMP_sets_C_Z_N`: the absolute form, A = `$30` against the byte `$50`. -/
theorem CMP_sets_C_Z_N_witness :
    (((read_memory cmp_input.mem cmp_input.cpu_PC.val).val = 0xC9 ∧ abs = imm) ∨
     ((read_memory cmp_input.mem cmp_input.cpu_PC.val).val = 0xC5 ∧ abs = zpg) ∨
     ((read_memory cmp_input.mem cmp_input.cpu_PC.val).val = 0xCD ∧ abs = abs)) ∧
    ∃ t c, cpu_do_next_op cmp_input locals0 = some (t, c) ∧
      compare_post cmp_input t cmp_input.cpu_regA (operand_at cmp_input abs) :=
  ⟨by decide, CMP_sets_C_Z_N cmp_input locals0 abs (by decide)⟩

/-- The run of `cmp_input`: the operand is `$50`, and CMP clears C and Z, sets N and keeps
V. -/
theorem CMP_absolute_example :
    operand_at cmp_input abs = 0x50 ∧
    (cpu_do_next_op cmp_input locals0).map
        (fun r => (r.1.cpu_regA, flag_set r.1.cpu_FLAGS flag_C, flag_set r.1.cpu_FLAGS flag_Z,
          flag_set r.1.cpu_FLAGS flag_N, flag_set r.1.cpu_FLAGS flag_V, r.2)) =
      some (0x30, false, false, true, true, 4) := by
  decide

/-! ## ROL and ROR -/

theorem write_memory_mod (m : Memory) (a : Nat) (v : byte) :
    write_memory m (a % 65536) v = write_memory m a v := by
  simp [write_memory, memory_map, and_ffff]

/-- The operand fetch, the operand read and the write-back of the shift and rotate
instructions, in each of their five forms. -/
theorem shift_args (s : State) (u : Locals) (form : Nat)
    (hf : form = imm ∨ form = zpg ∨ form = ind_zpg_x ∨ form = abs ∨ form = ind_abs_x) :
    ∃ a1 a2 pc,
      get_args (cpu_fetch s).2 (count_full_a form) u.arg1 u.arg2 =
        (a1, a2, { s with cpu_PC := pc }) ∧
      get_data_accum { s with cpu_PC := pc } form a1 a2 = shift_operand s form ∧
      (∀ p w, set_data_accum { s with cpu_PC := pc, cpu_FLAGS := p } form a1 a2 w =
        if form = imm then { s with cpu_PC := pc, cpu_FLAGS := p, cpu_regA := w }
        else { s with cpu_PC := pc, cpu_FLAGS := p,
                      mem := write_memory s.mem (operand_address s form) w }) := by
  have hlt := (read_memory s.mem (s.cpu_PC.val + 1)).isLt
  have hlt2 := (read_memory s.mem (s.cpu_PC.val + 2)).isLt
  have hx := s.cpu_regX.isLt
  rcases hf with hf | hf | hf | hf | hf <;> subst hf
  · refine ⟨u.arg1, u.arg2, toU16 (s.cpu_PC.val + 1), ?_, ?_, ?_⟩
    · simp only [show count_full_a imm = 0 from rfl, get_args_zero, cpu_fetch]
    · simp only [get_data_accum, shift_operand, if_true]
    · intro p w
      simp only [set_data_accum, if_true]
  · refine ⟨read_memory s.mem (s.cpu_PC.val + 1), u.arg2, toU16 (s.cpu_PC.val + 2), ?_, ?_, ?_⟩
    · simp only [show count_full_a zpg = 1 from rfl, get_args_one, fetch_operand s _ rfl]
    · simp only [get_data_accum, shift_operand, show ¬ (zpg = imm) by decide, if_false,
        read_address, get_effective_address, operand_address, if_true]
    · intro p w
      simp only [set_data_accum, show ¬ (zpg = imm) by decide, if_false,
        get_effective_address, operand_address, if_true]
  · refine ⟨read_memory s.mem (s.cpu_PC.val + 1), u.arg2, toU16 (s.cpu_PC.val + 2), ?_, ?_, ?_⟩
    · simp only [show count_full_a ind_zpg_x = 1 from rfl, get_args_one, fetch_operand s _ rfl]
    · simp only [get_data_accum, shift_operand, show ¬ (ind_zpg_x = imm) by decide, if_false,
        show ¬ (ind_zpg_x = zpg) by decide,
        read_address, get_effective_address, operand_address, if_true, and_ff, Nat.add_comm]
    · intro p w
      simp only [set_data_accum, show ¬ (ind_zpg_x = imm) by decide, if_false,
        show ¬ (ind_zpg_x = zpg) by decide,
        get_effective_address, operand_address, if_true, and_ff, Nat.add_comm]
  · refine ⟨read_memory s.mem (s.cpu_PC.val + 1), read_memory s.mem (s.cpu_PC.val + 2),
      toU16 (s.cpu_PC.val + 3), ?_, ?_, ?_⟩
    · simp only [show count_full_a abs = 2 from rfl, get_args_two, fetch_operand s _ rfl,
        fetch_operand2 s _ rfl]
    · simp only [get_data_accum, shift_operand, show ¬ (abs = imm) by decide, if_false,
        show ¬ (abs = zpg) by decide, show ¬ (abs = ind_zpg_x) by decide,
        show ¬ (abs = ind_zpg_y) by decide,
        read_address, get_effective_address, operand_address, if_true, read_memory_toU16,
        Nat.lor_comm]
    · intro p w
      simp only [set_data_accum, show ¬ (abs = imm) by decide, if_false,
        show ¬ (abs = zpg) by decide, show ¬ (abs = ind_zpg_x) by decide,
        show ¬ (abs = ind_zpg_y) by decide,
        get_effective_address, operand_address, if_true, toU16_val, write_memory_mod,
        Nat.lor_comm]
  · have ea : (s.cpu_regX.val + (toU16 (((read_memory s.mem (s.cpu_PC.val + 2)).val <<< 8) |||
        (read_memory s.mem (s.cpu_PC.val + 1)).val)).val) &&& 0xffff =
        (((read_memory s.mem (s.cpu_PC.val + 1)).val |||
          ((read_memory s.mem (s.cpu_PC.val + 2)).val <<< 8)) + s.cpu_regX.val) % 65536 := by
      rw [and_ffff, toU16_val, shl8_or _ _ hlt, or_shl8 _ _ hlt]
      omega
    refine ⟨read_memory s.mem (s.cpu_PC.val + 1), read_memory s.mem (s.cpu_PC.val + 2),
      toU16 (s.cpu_PC.val + 3), ?_, ?_, ?_⟩
    · simp only [show count_full_a ind_abs_x = 2 from rfl, get_args_two, fetch_operand s _ rfl,
        fetch_operand2 s _ rfl]
    · simp only [get_data_accum, shift_operand, show ¬ (ind_abs_x = imm) by decide, if_false,
        show ¬ (ind_abs_x = zpg) by decide, show ¬ (ind_abs_x = ind_zpg_x) by decide,
        show ¬ (ind_abs_x = ind_zpg_y) by decide, show ¬ (ind_abs_x = abs) by decide,
        read_address, get_effective_address, operand_address, if_true, ea]
    · intro p w
      simp only [set_data_accum, show ¬ (ind_abs_x = imm) by decide, if_false,
        show ¬ (ind_abs_x = zpg) by decide, show ¬ (ind_abs_x = ind_zpg_x) by decide,
        show ¬ (ind_abs_x = ind_zpg_y) by decide, show ¬ (ind_abs_x = abs) by decide,
        get_effective_address, operand_address, if_true, ea]

/-- The carry replaced by the truth value of `c`, then `update_Zflag` and `update_Nflag`
with the byte `w`, on the status byte `p`. -/
theorem rotate_flags (p w : byte) (c : Prop) [Decidable c] :
    flag_set (toByte ((toByte ((toByte ((p.val &&& bnot flag_C) |||
        (if c then 1 else 0) * flag_C)).val &&& bnot flag_Z |||
        (if w.val = 0 then 1 else 0) * flag_Z)).val &&& bnot flag_N |||
        (if (w.val &&& 0x80) > 0 then 1 else 0) * flag_N)) flag_C = decide c ∧
    flag_set (toByte ((toByte ((toByte ((p.val &&& bnot flag_C) |||
        (if c then 1 else 0) * flag_C)).val &&& bnot flag_Z |||
        (if w.val = 0 then 1 else 0) * flag_Z)).val &&& bnot flag_N |||
        (if (w.val &&& 0x80) > 0 then 1 else 0) * flag_N)) flag_Z = decide (w.val = 0) ∧
    flag_set (toByte ((toByte ((toByte ((p.val &&& bnot flag_C) |||
        (if c then 1 else 0) * flag_C)).val &&& bnot flag_Z |||
        (if w.val = 0 then 1 else 0) * flag_Z)).val &&& bnot flag_N |||
        (if (w.val &&& 0x80) > 0 then 1 else 0) * flag_N)) flag_N = w.val.testBit 7 ∧
    (toByte ((toByte ((toByte ((p.val &&& bnot flag_C) |||
        (if c then 1 else 0) * flag_C)).val &&& bnot flag_Z |||
        (if w.val = 0 then 1 else 0) * flag_Z)).val &&& bnot flag_N |||
        (if (w.val &&& 0x80) > 0 then 1 else 0) * flag_N)).val &&& 0x7C = p.val &&& 0x7C := by
  rw [← bit7_byte w]
  by_cases h0 : c <;> by_cases h1 : w.val = 0 <;> by_cases h2 : (w.val &&& 0x80) > 0 <;>
    simp only [h0, h1, h2, if_true, if_false, decide_True, decide_False] <;>
    revert p <;> set_option maxRecDepth 100000 in decide

set_option maxRecDepth 100000 in
theorem bit7_mask : ∀ v : byte, decide (v.val &&& 0x80 = 0x80) = v.val.testBit 7 := by decide

set_option maxRecDepth 100000 in
theorem bit0_mask : ∀ v : byte, decide (v.val &&& 0x01 = 0x01) = v.val.testBit 0 := by decide

set_option maxRecDepth 100000 in
theorem rol_byte : ∀ v : byte,
    (toByte ((toByte ((v.val <<< 1) &&& 0xfe)).val ||| 0)).val = rol_value v 0 ∧
    (toByte ((toByte ((v.val <<< 1) &&& 0xfe)).val ||| 1)).val = rol_value v 1 := by decide

set_option maxRecDepth 100000 in
theorem ror_byte : ∀ v : byte,
    (toByte ((toByte ((v.val >>> 1) &&& 0x7f)).val ||| 0 * 0x80)).val = ror_value v 0 ∧
    (toByte ((toByte ((v.val >>> 1) &&& 0x7f)).val ||| 1 * 0x80)).val = ror_value v 1 := by decide

/-- The `case ROL:` of `cpu_do_next_op`, after the opcode fetch, in each of its five forms. -/
theorem ROL_step (s : State) (u : Locals) (form : Nat)
    (hf : form = imm ∨ form = zpg ∨ form = ind_zpg_x ∨ form = abs ∨ form = ind_abs_x) :
    ∃ t c, case_ROL (cpu_fetch s).2 form u = some (t, c) ∧
      rotate_post s t form (rol_value (shift_operand s form) (carry_in s))
        ((shift_operand s form).val.testBit 7) := by
  obtain ⟨a1, a2, pc, hg, hd, hw⟩ := shift_args s u form hf
  have hm : form = imm ∨ form = zpg ∨ form = abs ∨ form = ind_abs_x ∨ form = ind_zpg_x := by
    tauto
  simp only [case_ROL, hm, if_true, hg, hd, update_Zflag, update_Nflag, hw, carry_in_byte]
  refine ⟨_, _, rfl, ?_⟩
  generalize shift_operand s form = v
  have hW : (toByte ((toByte ((v.val <<< 1) &&& 0xfe)).val |||
      (if flag_set s.cpu_FLAGS flag_C = true then 1 else 0))).val = rol_value v (carry_in s) := by
    unfold carry_in
    cases flag_set s.cpu_FLAGS flag_C
    · exact (rol_byte v).1
    · exact (rol_byte v).2
  rw [← hW, ← bit7_mask v]
  obtain ⟨f1, f2, f3, f4⟩ := rotate_flags s.cpu_FLAGS
    (toByte ((toByte ((v.val <<< 1) &&& 0xfe)).val |||
      (if flag_set s.cpu_FLAGS flag_C = true then 1 else 0))) (v.val &&& 0x80 = 0x80)
  by_cases hi : form = imm
  · simp only [hi, if_true]
    exact ⟨⟨_, rfl, by simp only [if_true, and_self]⟩, f1, f2, f3, f4, rfl, rfl, rfl⟩
  · simp only [hi, if_false]
    exact ⟨⟨_, rfl, by simp only [hi, if_false, and_self]⟩, f1, f2, f3, f4, rfl, rfl, rfl⟩

/-- The `case ROR:` of `cpu_do_next_op`, after the opcode fetch, in each of its five forms. -/
theorem ROR_step (s : State) (u : Locals) (form : Nat)
    (hf : form = imm ∨ form = zpg ∨ form = ind_zpg_x ∨ form = abs ∨ form = ind_abs_x) :
    ∃ t c, case_ROR (cpu_fetch s).2 form u = some (t, c) ∧
      rotate_post s t form (ror_value (shift_operand s form) (carry_in s))
        ((shift_operand s form).val.testBit 0) := by
  obtain ⟨a1, a2, pc, hg, hd, hw⟩ := shift_args s u form hf
  have hm : form = imm ∨ form = zpg ∨ form = abs ∨ form = ind_abs_x ∨ form = ind_zpg_x := by
    tauto
  have hk : (if flag_C ≠ 0 then 1 else 0 : Nat) = flag_C := by decide
  simp only [case_ROR, hm, if_true, hg, hd, update_Zflag, update_Nflag, hw, hk, carry_in_byte]
  refine ⟨_, _, rfl, ?_⟩
  generalize shift_operand s form = v
  have hW : (toByte ((toByte ((v.val >>> 1) &&& 0x7f)).val |||
      (if flag_set s.cpu_FLAGS flag_C = true then 1 else 0) * 0x80)).val =
        ror_value v (carry_in s) := by
    unfold carry_in
    cases flag_set s.cpu_FLAGS flag_C
    · exact (ror_byte v).1
    · exact (ror_byte v).2
  rw [← hW, ← bit0_mask v]
  obtain ⟨f1, f2, f3, f4⟩ := rotate_flags s.cpu_FLAGS
    (toByte ((toByte ((v.val >>> 1) &&& 0x7f)).val |||
      (if flag_set s.cpu_FLAGS flag_C = true then 1 else 0) * 0x80)) (v.val &&& 0x01 = 0x01)
  by_cases hi : form = imm
  · simp only [hi, if_true]
    exact ⟨⟨_, rfl, by simp only [if_true, and_self]⟩, f1, f2, f3, f4, rfl, rfl, rfl⟩
  · simp only [hi, if_false]
    exact ⟨⟨_, rfl, by simp only [hi, if_false, and_self]⟩, f1, f2, f3, f4, rfl, rfl, rfl⟩

/-- Claim C18: for every operand value `v` and carry-in `c`, ROL (0x2A, 0x26, 0x36, 0x2E,
0x3E) writes `((v << 1) | c) & 0xFF` and sets C = bit 7 of `v`, and ROR (0x6A, 0x66, 0x76,
0x6E, 0x7E) writes `(v >> 1) | (c << 7)` and sets C = bit 0 of `v`; the value is written
to A in the accumulator form and to the operand address in the memory forms, Z and N
reflect the written value, and the other flags are unchanged. -/
theorem ROL_ROR_rotate_through_carry (s : State) (u : Locals) (left : Bool) (form : Nat)
    (hf : form = imm ∨ form = zpg ∨ form = ind_zpg_x ∨ form = abs ∨ form = ind_abs_x)
    (h0 : (read_memory s.mem s.cpu_PC.val).val = rotate_opcode left form) :
    ∃ t c, cpu_do_next_op s u = some (t, c) ∧
      rotate_post s t form
        (if left then rol_value (shift_operand s form) (carry_in s)
         else ror_value (shift_operand s form) (carry_in s))
        (if left then (shift_operand s form).val.testBit 7
         else (shift_operand s form).val.testBit 0) := by
  cases left
  · have hd : cpu_do_next_op s u = case_ROR (cpu_fetch s).2 form u := by
      rcases hf with h | h | h | h | h <;> subst h
      · exact dispatch_6A s u h0
      · exact dispatch_66 s u h0
      · exact dispatch_76 s u h0
      · exact dispatch_6E s u h0
      · exact dispatch_7E s u h0
    rw [hd]
    exact ROR_step s u form hf
  · have hd : cpu_do_next_op s u = case_ROL (cpu_fetch s).2 form u := by
      rcases hf with h | h | h | h | h <;> subst h
      · exact dispatch_2A s u h0
      · exact dispatch_26 s u h0
      · exact dispatch_36 s u h0
      · exact dispatch_2E s u h0
      · exact dispatch_3E s u h0
    rw [hd]
    exact ROL_step s u form hf

/-- Witness of `ROL_ROR_rotate_through_carry`: `ROL $10,X` with X = 2 on the byte `$C1`
with the carry set. -/
theorem ROL_ROR_rotate_through_carry_witness :
    (ind_zpg_x = imm ∨ ind_zpg_x = zpg ∨ ind_zpg_x = ind_zpg_x ∨ ind_zpg_x = abs ∨
      ind_zpg_x = ind_abs_x) ∧
    (read_memory rol_input.mem rol_input.cpu_PC.val).val = rotate_opcode true ind_zpg_x ∧
    ∃ t c, cpu_do_next_op rol_input locals0 = some (t, c) ∧
      rotate_post rol_input t ind_zpg_x
        (if true then rol_value (shift_operand rol_input ind_zpg_x) (carry_in rol_input)
         else ror_value (shift_operand rol_input ind_zpg_x) (carry_in rol_input))
        (if true then (shift_operand rol_input ind_zpg_x).val.testBit 7
         else (shift_operand rol_input ind_zpg_x).val.testBit 0) :=
  ⟨by decide, by decide,
    ROL_ROR_rotate_through_carry rol_input locals0 true ind_zpg_x (by decide) (by decide)⟩

/-- The runs of `rol_input` and `ror_input`: ROL of `$C1` at `$12` with C = 1 writes `$83`
there and leaves (C, Z, N, V) = (1, 0, 1, 1) and A = 7; ROR of A = `$03` with C = 1 leaves
A = `$81` and (C, Z, N, V) = (1, 0, 1, 1). -/
theorem ROL_ROR_examples :
    operand_address rol_input ind_zpg_x = 0x12 ∧
    shift_operand rol_input ind_zpg_x = 0xC1 ∧
    (cpu_do_next_op rol_input locals0).map
        (fun r => (read_memory r.1.mem 0x12, r.1.cpu_regA, flag_set r.1.cpu_FLAGS flag_C,
          flag_set r.1.cpu_FLAGS flag_Z, flag_set r.1.cpu_FLAGS flag_N,
          flag_set r.1.cpu_FLAGS flag_V)) =
      some (0x83, 7, true, false, true, true) ∧
    (cpu_do_next_op ror_input locals0).map
        (fun r => (r.1.cpu_regA, flag_set r.1.cpu_FLAGS flag_C,
          flag_set r.1.cpu_FLAGS flag_Z, flag_set r.1.cpu_FLAGS flag_N,
          flag_set r.1.cpu_FLAGS flag_V)) =
      some (0x81, true, false, true, true) := by
  refine ⟨by decide, by decide, by decide, by decide⟩

/-! ## The defects, for every state -/

/-- Every INY (opcode 0xC8) adds 1 to X and leaves Y as it was. -/
theorem INY_changes_X_for_every_state (s : State) (u : Locals)
    (h0 : (read_memory s.mem s.cpu_PC.val).val = 0xC8) :
    ∃ t c, cpu_do_next_op s u = some (t, c) ∧
      t.cpu_regX = toByte (s.cpu_regX.val + 1) ∧ t.cpu_regY = s.cpu_regY := by
  rw [dispatch_C8 s u h0]
  exact ⟨_, _, rfl, rfl, rfl⟩

/-- Every `CPX #v` (opcode 0xE0) and every `CPY #v` (opcode 0xC0) fails the assertion at
the label `COMP`: both opcodes decode to mode 0 (`ind_indir_x`). -/
theorem CPX_CPY_immediate_abort (s : State) (u : Locals)
    (h0 : (read_memory s.mem s.cpu_PC.val).val = 0xE0 ∨
      (read_memory s.mem s.cpu_PC.val).val = 0xC0) :
    cpu_do_next_op s u = none := by
  rcases h0 with h0 | h0
  · rw [dispatch_E0 s u h0]
    simp [COMP, imm, ind_indir_x, zpg, abs]
  · rw [dispatch_C0 s u h0]
    simp [COMP, imm, ind_indir_x, zpg, abs]

/-- Every `ADC #m` (opcode 0x69) leaves in N bit 7 of the accumulator it started with. -/
theorem ADC_negative_flag_for_every_state (s : State) (u : Locals) (m : byte)
    (h0 : (read_memory s.mem s.cpu_PC.val).val = 0x69)
    (hv : read_memory s.mem (s.cpu_PC.val + 1) = m) :
    ∃ t c, cpu_do_next_op s u = some (t, c) ∧
      flag_set t.cpu_FLAGS flag_N = s.cpu_regA.val.testBit 7 := by
  rw [dispatch_69 s u h0]
  simp only [case_ADC, show count_full_imm imm = 1 from rfl, get_args_one, fetch_operand s m hv,
    get_data_full_imm, if_true, update_Zflag, carry_in_byte]
  refine ⟨_, _, rfl, ?_⟩
  simp only [and_80_testBit]
  generalize (if flag_set s.cpu_FLAGS flag_C = true then 1 else 0) + m.val + s.cpu_regA.val = tmp
  generalize s.cpu_FLAGS = p
  have hz : (toByte tmp).val = tmp % 256 := rfl
  rw [hz]
  cases hA : s.cpu_regA.val.testBit 7 <;> cases hT : tmp.testBit 7 <;>
    by_cases hZ : tmp % 256 = 0 <;> by_cases hC : tmp > 255 <;>
    simp only [hZ, hC, if_true, if_false, decide_True, decide_False, Bool.false_eq_true,
      ne_eq, not_true_eq_false, not_false_eq_true, bne_self_eq_false] <;>
    revert p <;> set_option maxRecDepth 100000 in decide
/-- Every `ASL A` (opcode 0x0A) leaves the N flag as it was. -/
theorem ASL_negative_flag_for_every_state (s : State) (u : Locals)
    (h0 : (read_memory s.mem s.cpu_PC.val).val = 0x0A) :
    ∃ t c, cpu_do_next_op s u = some (t, c) ∧
      t.cpu_regA = toByte ((s.cpu_regA.val <<< 1) &&& 0xfe) ∧
      flag_set t.cpu_FLAGS flag_N = flag_set s.cpu_FLAGS flag_N := by
  rw [dispatch_0A s u h0]
  simp only [case_ASL, true_or, if_true, show count_full_a imm = 0 from rfl, get_args_zero,
    get_data_accum, set_data_accum, update_Zflag, cpu_fetch]
  refine ⟨_, _, rfl, rfl, ?_⟩
  generalize toByte ((s.cpu_regA.val <<< 1) &&& 0xfe) = w
  generalize s.cpu_FLAGS = p
  by_cases h1 : (s.cpu_regA.val &&& 0x80) = 0x80 <;> by_cases h2 : w.val = 0 <;>
    simp only [h1, h2, if_true, if_false] <;>
    revert p <;> set_option maxRecDepth 100000 in decide

/-- Every `LSR A` (opcode 0x4A) leaves the C and N flags as they were. -/
theorem LSR_flags_for_every_state (s : State) (u : Locals)
    (h0 : (read_memory s.mem s.cpu_PC.val).val = 0x4A) :
    ∃ t c, cpu_do_next_op s u = some (t, c) ∧
      t.cpu_regA = toByte ((s.cpu_regA.val >>> 1) &&& 0x7f) ∧
      flag_set t.cpu_FLAGS flag_C = flag_set s.cpu_FLAGS flag_C ∧
      flag_set t.cpu_FLAGS flag_N = flag_set s.cpu_FLAGS flag_N := by
  rw [dispatch_4A s u h0]
  simp only [case_LSR, true_or, if_true, show count_full_a imm = 0 from rfl, get_args_zero,
    get_data_accum, set_data_accum, update_Zflag, cpu_fetch]
  refine ⟨_, _, rfl, rfl, ?_⟩
  generalize toByte ((s.cpu_regA.val >>> 1) &&& 0x7f) = w
  generalize s.cpu_FLAGS = p
  by_cases h2 : w.val = 0 <;>
    simp only [h2, if_true, if_false] <;>
    revert p <;> set_option maxRecDepth 100000 in decide

/-- Every `BIT zp` (opcode 0x24) leaves in N and V the bits 7 and 6 of `A & M`, where M is
the zero-page byte addressed. -/
theorem BIT_flags_for_every_state (s : State) (u : Locals)
    (h0 : (read_memory s.mem s.cpu_PC.val).val = 0x24) :
    ∃ t c, cpu_do_next_op s u = some (t, c) ∧
      flag_set t.cpu_FLAGS flag_N = (s.cpu_regA.val &&& (operand_at s zpg).val).testBit 7 ∧
      flag_set t.cpu_FLAGS flag_V = (s.cpu_regA.val &&& (operand_at s zpg).val).testBit 6 := by
  rw [dispatch_24 s u h0]
  simp only [case_BIT, true_or, if_true, get_args_one, fetch_operand s _ rfl, read_address,
    get_effective_address, update_Zflag]
  refine ⟨_, _, rfl, ?_⟩
  have e : operand_at s zpg = read_memory s.mem (read_memory s.mem (s.cpu_PC.val + 1)).val := rfl
  rw [e]
  generalize read_memory s.mem (read_memory s.mem (s.cpu_PC.val + 1)).val = m
  generalize s.cpu_FLAGS = p
  have hb : ∀ a m : byte, (toByte (a.val &&& m.val)).val = a.val &&& m.val := by
    intro a m
    rw [toByte_val]
    exact Nat.mod_eq_of_lt (lt_of_le_of_lt Nat.and_le_left a.isLt)
  rw [hb]
  have hw : s.cpu_regA.val &&& m.val < 256 := lt_of_le_of_lt Nat.and_le_left s.cpu_regA.isLt
  generalize s.cpu_regA.val &&& m.val = w at hw ⊢
  have hq : ∀ b : byte, b.val &&& 192 = (if b.val.testBit 7 then 128 else 0) +
      (if b.val.testBit 6 then 64 else 0) := by
    set_option maxRecDepth 100000 in decide
  have hq1 := hq ⟨w, hw⟩
  simp only at hq1
  rw [hq1]
  cases w.testBit 7 <;> cases w.testBit 6 <;> by_cases h2 : w = 0 <;>
    simp only [h2, if_true, if_false, Bool.false_eq_true] <;>
    revert p <;> set_option maxRecDepth 100000 in decide

/-- Every `SBC #m` (opcode 0xE9) with D clear sets V exactly when the signed sum
`A + ~m + c` of the unsigned bytes A and `m` lies outside -128..127. -/
theorem SBC_overflow_flag_for_every_state (s : State) (u : Locals) (m : byte)
    (h0 : (read_memory s.mem s.cpu_PC.val).val = 0xE9)
    (hv : read_memory s.mem (s.cpu_PC.val + 1) = m)
    (hd : flag_set s.cpu_FLAGS flag_D = false) :
    ∃ t c, cpu_do_next_op s u = some (t, c) ∧
      flag_set t.cpu_FLAGS flag_V =
        decide ((s.cpu_regA.val : Int) + (-(m.val : Int) - 1) + (carry_in s : Int) > 127 ∨
          (s.cpu_regA.val : Int) + (-(m.val : Int) - 1) + (carry_in s : Int) < -128) := by
  rw [dispatch_E9 s u h0]
  have hd1 : s.cpu_FLAGS.val &&& flag_D = 0 := by
    simpa [flag_set] using hd
  simp only [case_SBC, show count_full_imm imm = 1 from rfl, get_args_one, fetch_operand s m hv,
    get_data_full_imm, if_true, update_Zflag, carry_in_byte, hd1, ne_eq, not_true_eq_false,
    if_false]
  refine ⟨_, _, rfl, ?_⟩
  unfold carry_in
  obtain ⟨a1, a2, a3, a4⟩ := sbc_arith s.cpu_regA.val m.val
    (if flag_set s.cpu_FLAGS flag_C = true then 1 else 0) m.isLt
  simp only [a3, a4, show flag_N = 0x80 from rfl]
  generalize s.cpu_regA.val + (255 - m.val) +
    (if flag_set s.cpu_FLAGS flag_C = true then 1 else 0) = tmp
  generalize (s.cpu_regA.val : Int) + (-(m.val : Int) - 1) +
    ((if flag_set s.cpu_FLAGS flag_C = true then 1 else 0 : Nat) : Int) = i
  generalize s.cpu_FLAGS = p
  have t0 : Nat.testBit 0 7 = false := by decide
  by_cases hz : tmp % 256 = 0
  · simp only [hz, t0]
    by_cases hv1 : i > 127 ∨ i < -128 <;> by_cases hc : i ≥ 0 <;>
      simp only [hv1, hc, if_true, if_false, decide_True, decide_False,
        Bool.false_eq_true] <;>
      revert p <;> set_option maxRecDepth 100000 in decide
  · cases hn : (tmp % 256).testBit 7 <;>
      by_cases hv1 : i > 127 ∨ i < -128 <;> by_cases hc : i ≥ 0 <;>
      simp only [hz, hv1, hc, if_true, if_false, decide_True, decide_False,
        Bool.false_eq_true] <;>
      revert p <;> set_option maxRecDepth 100000 in decide
theorem true_or_false (c : Prop) : c = True ∨ c = False := by
  by_cases h : c
  · exact Or.inl (eq_true h)
  · exact Or.inr (eq_false h)

/-- Every `CPX zp` (opcode 0xE4) sets C exactly when the difference `X - m` is at least
`m`, where `m` is the zero-page byte addressed. -/
theorem CPX_zero_page_carry_for_every_state (s : State) (u : Locals)
    (h0 : (read_memory s.mem s.cpu_PC.val).val = 0xE4) :
    ∃ t c, cpu_do_next_op s u = some (t, c) ∧
      flag_set t.cpu_FLAGS flag_C =
        decide ((s.cpu_regX.val : Int) - ((operand_at s zpg).val : Int) ≥
          ((operand_at s zpg).val : Int)) := by
  rw [dispatch_E4 s u h0]
  simp only [COMP, show (zpg = imm ∨ zpg = zpg ∨ zpg = abs) from Or.inr (Or.inl rfl), if_true,
    show count_full_imm zpg = 1 from rfl, get_args_one, fetch_operand s _ rfl,
    get_data_full_imm, show ¬ (zpg = imm) by decide, if_false, read_address,
    get_effective_address, show (cpu_fetch s).2.cpu_regX = s.cpu_regX from rfl]
  refine ⟨_, _, rfl, ?_⟩
  have e : operand_at s zpg = read_memory s.mem (read_memory s.mem (s.cpu_PC.val + 1)).val := rfl
  rw [e]
  generalize read_memory s.mem (read_memory s.mem (s.cpu_PC.val + 1)).val = m
  generalize (s.cpu_regX.val : Int) - (m.val : Int) = i
  generalize s.cpu_FLAGS = p
  rcases true_or_false ((bits32 i &&& 0x80) = 0x80) with h1 | h1 <;>
    rcases true_or_false (i ≥ (m.val : Int)) with h2 | h2 <;>
    rcases true_or_false (i = 0) with h3 | h3 <;>
    simp only [h1, h2, h3, if_true, if_false, decide_True, decide_False] <;>
    revert p <;> set_option maxRecDepth 100000 in decide

/-! ## TXS -/

/-- Claim C21 (counterexample): `TXS` with X = `$80` and P = `$00` leaves SP = `$80` and
P = `$80`: the status register is changed. -/
theorem TXS_changes_status_register :
    txs_input.cpu_FLAGS = 0x00 ∧
    (cpu_do_next_op txs_input locals0).map (fun r => (r.1.cpu_SP, r.1.cpu_FLAGS)) =
      some (0x80, 0x80) := by
  decide

/-- Claim C21 (amended): for every pre-state, TXS (opcode 0x9A) returns 2, makes SP equal
to X, sets Z = (X == 0) and N = bit 7 of X, and leaves the other six bits of P, the
registers A, X, Y and the memory unchanged. -/
theorem TXS_copies_X_and_updates_N_Z (s : State) (u : Locals)
    (h0 : (read_memory s.mem s.cpu_PC.val).val = 0x9A) :
    ∃ t, cpu_do_next_op s u = some (t, 2) ∧
      t.cpu_SP = s.cpu_regX ∧
      flag_set t.cpu_FLAGS flag_Z = decide (s.cpu_regX.val = 0) ∧
      flag_set t.cpu_FLAGS flag_N = s.cpu_regX.val.testBit 7 ∧
      t.cpu_FLAGS.val &&& 0x7d = s.cpu_FLAGS.val &&& 0x7d ∧
      t.cpu_regA = s.cpu_regA ∧ t.cpu_regX = s.cpu_regX ∧ t.cpu_regY = s.cpu_regY ∧
      t.mem = s.mem := by
  rw [dispatch_9A s u h0]
  refine ⟨_, rfl, rfl, ?_, ?_, ?_, rfl, rfl, rfl, rfl⟩
  · exact (flags_NZ { (cpu_fetch s).2 with cpu_SP := s.cpu_regX } s.cpu_regX).1
  · exact (flags_NZ { (cpu_fetch s).2 with cpu_SP := s.cpu_regX } s.cpu_regX).2.1
  · exact (flags_NZ { (cpu_fetch s).2 with cpu_SP := s.cpu_regX } s.cpu_regX).2.2

/-- Witness of `TXS_copies_X_and_updates_N_Z`: X = `$80`, P = `$00`. -/
theorem TXS_copies_X_and_updates_N_Z_witness :
    (read_memory txs_input.mem txs_input.cpu_PC.val).val = 0x9A ∧
    ∃ t, cpu_do_next_op txs_input locals0 = some (t, 2) ∧
      t.cpu_SP = txs_input.cpu_regX ∧
      flag_set t.cpu_FLAGS flag_Z = decide (txs_input.cpu_regX.val = 0) ∧
      flag_set t.cpu_FLAGS flag_N = txs_input.cpu_regX.val.testBit 7 ∧
      t.cpu_FLAGS.val &&& 0x7d = txs_input.cpu_FLAGS.val &&& 0x7d ∧
      t.cpu_regA = txs_input.cpu_regA ∧ t.cpu_regX = txs_input.cpu_regX ∧
      t.cpu_regY = txs_input.cpu_regY ∧ t.mem = txs_input.mem :=
  ⟨by decide, TXS_copies_X_and_updates_N_Z txs_input locals0 (by decide)⟩

/-! ## BRK, reset and IRQ -/

theorem dispatch_00 (s : State) (u : Locals)
    (h0 : (read_memory s.mem s.cpu_PC.val).val = 0x00) :
    cpu_do_next_op s u = case_BRK (cpu_fetch s).2 := by
  have e1 : (0x00 &&& bnot mode_mask) = 0 := by decide
  simp only [cpu_do_next_op, fixed_address_modes, cpu_fetch, h0, e1]
  simp [opcode_values]

/-- The state that `case BRK` leaves, for SP ≥ 3: three bytes pushed, SP lowered by 3, PC
loaded from the vector at `$FFFE`; nothing else is assigned. -/
theorem BRK_step (s : State) (u : Locals)
    (h0 : (read_memory s.mem s.cpu_PC.val).val = 0x00) (hsp : 3 ≤ s.cpu_SP.val) :
    cpu_do_next_op s u =
      some ({ s with
        mem := write_memory (write_memory (write_memory s.mem (256 + s.cpu_SP.val)
            (toByte (((toU16 (s.cpu_PC.val + 2)).val >>> 8) &&& 0xff)))
            (256 + (s.cpu_SP.val - 1)) (toByte ((toU16 (s.cpu_PC.val + 2)).val &&& 0xff)))
            (256 + (s.cpu_SP.val - 2)) (toByte (s.cpu_FLAGS.val ||| flag_B)),
        cpu_SP := toByte (s.cpu_SP.val - 3),
        cpu_PC := toU16 (word_at s.mem 0xFFFE) }, 7) := by
  have hS := s.cpu_SP.isLt
  have hsp1 : (toByte (s.cpu_SP.val + 256 - 1)).val = s.cpu_SP.val - 1 := by
    rw [toByte_val]; omega
  have hsp2 : (toByte (s.cpu_SP.val - 1 + 256 - 1)).val = s.cpu_SP.val - 2 := by
    rw [toByte_val]; omega
  have hsp3 : toByte (s.cpu_SP.val - 2 + 256 - 1) = toByte (s.cpu_SP.val - 3) := by
    apply Fin.ext; simp only [toByte_val]; omega
  rw [dispatch_00 s u h0, case_BRK]
  simp only [cpu_fetch, toU16_add]
  rw [push_ok _ _ (by simp only []; omega)]
  simp only [Option.some_bind]
  rw [push_ok _ _ (by simp only [hsp1]; omega)]
  simp only [Option.some_bind, hsp1]
  rw [push_ok _ _ (by simp only [hsp2]; omega)]
  have c1 : ¬ ((256 + s.cpu_SP.val) % 65536 = 65534 % 65536) := by omega
  have c2 : ¬ ((256 + (s.cpu_SP.val - 1)) % 65536 = 65534 % 65536) := by omega
  have c3 : ¬ ((256 + (s.cpu_SP.val - 2)) % 65536 = 65534 % 65536) := by omega
  have d1 : ¬ ((256 + s.cpu_SP.val) % 65536 = 65535 % 65536) := by omega
  have d2 : ¬ ((256 + (s.cpu_SP.val - 1)) % 65536 = 65535 % 65536) := by omega
  have d3 : ¬ ((256 + (s.cpu_SP.val - 2)) % 65536 = 65535 % 65536) := by omega
  simp only [Option.some_bind, hsp2, hsp3, Nat.add_assoc, Nat.reduceAdd, read_memory_word,
    read_write_memory, c1, c2, c3, d1, d2, d3, if_false, word_at, IRQ_ADDRESS]

set_option maxRecDepth 100000 in
theorem or_flag_B_byte : ∀ p : byte, (toByte (p.val ||| flag_B)).val = p.val ||| 0x10 := by
  decide

theorem word_at_lt (m : Memory) (a : Nat) : word_at m a < 65536 := by
  unfold word_at
  rw [or_shl8 _ _ (read_memory m a).isLt]
  have h1 := (read_memory m a).isLt
  have h2 := (read_memory m (a + 1)).isLt
  omega

/-- Claim C22: for every state with BRK (0x00) at address `a` = PC and SP ≥ 3,
`cpu_do_next_op` returns 7, stores the high byte of `a + 2` (modulo 2^16) at `$0100|SP`,
its low byte at `$0100|(SP-1)` and `P | 0x10` at `$0100|(SP-2)`, changes no other memory
cell, lowers SP by 3 and sets PC to the little-endian word at `$FFFE/$FFFF`. -/
theorem BRK_pushes_return_address_and_status (s : State) (u : Locals)
    (h0 : (read_memory s.mem s.cpu_PC.val).val = 0x00) (hsp : 3 ≤ s.cpu_SP.val) :
    ∃ t, cpu_do_next_op s u = some (t, 7) ∧
      (read_memory t.mem (0x0100 ||| s.cpu_SP.val)).val = (s.cpu_PC.val + 2) % 65536 / 256 ∧
      (read_memory t.mem (0x0100 ||| (s.cpu_SP.val - 1))).val =
        (s.cpu_PC.val + 2) % 65536 % 256 ∧
      (read_memory t.mem (0x0100 ||| (s.cpu_SP.val - 2))).val = s.cpu_FLAGS.val ||| 0x10 ∧
      (∀ a, a < 65536 → a ≠ (0x0100 ||| s.cpu_SP.val) → a ≠ (0x0100 ||| (s.cpu_SP.val - 1)) →
        a ≠ (0x0100 ||| (s.cpu_SP.val - 2)) → read_memory t.mem a = read_memory s.mem a) ∧
      t.cpu_SP.val = s.cpu_SP.val - 3 ∧
      t.cpu_PC.val = word_at s.mem 0xFFFE := by
  have hS := s.cpu_SP.isLt
  have hP := s.cpu_PC.isLt
  refine ⟨_, BRK_step s u h0 hsp, ?_, ?_, ?_, ?_, ?_, ?_⟩
  · rw [or_0100 _ hS]
    simp only [read_write_memory]
    rw [if_neg (by omega), if_neg (by omega)]
    simp only [if_true, toByte_val, toU16_val, and_ff, Nat.shiftRight_eq_div_pow]
    omega
  · rw [or_0100 _ (by omega)]
    simp only [read_write_memory]
    rw [if_neg (by omega)]
    simp only [if_true, toByte_val, toU16_val, and_ff]
    omega
  · rw [or_0100 _ (by omega)]
    simp only [read_write_memory]
    simp only [if_true]
    exact or_flag_B_byte s.cpu_FLAGS
  · intro a ha h1 h2 h3
    rw [or_0100 _ hS] at h1
    rw [or_0100 _ (by omega)] at h2 h3
    simp only [read_write_memory]
    rw [if_neg (by omega), if_neg (by omega), if_neg (by omega)]
  · simp only [toByte_val]
    omega
  · simp only [toU16_val]
    exact Nat.mod_eq_of_lt (word_at_lt _ _)

/-- Witness of `BRK_pushes_return_address_and_status`: BRK at `$1000` with SP = `$ff`. -/
theorem BRK_pushes_return_address_and_status_witness :
    (read_memory brk_input.mem brk_input.cpu_PC.val).val = 0x00 ∧ 3 ≤ brk_input.cpu_SP.val ∧
    ∃ t, cpu_do_next_op brk_input locals0 = some (t, 7) ∧
      (read_memory t.mem (0x0100 ||| brk_input.cpu_SP.val)).val =
        (brk_input.cpu_PC.val + 2) % 65536 / 256 ∧
      (read_memory t.mem (0x0100 ||| (brk_input.cpu_SP.val - 1))).val =
        (brk_input.cpu_PC.val + 2) % 65536 % 256 ∧
      (read_memory t.mem (0x0100 ||| (brk_input.cpu_SP.val - 2))).val =
        brk_input.cpu_FLAGS.val ||| 0x10 ∧
      (∀ a, a < 65536 → a ≠ (0x0100 ||| brk_input.cpu_SP.val) →
        a ≠ (0x0100 ||| (brk_input.cpu_SP.val - 1)) →
        a ≠ (0x0100 ||| (brk_input.cpu_SP.val - 2)) →
        read_memory t.mem a = read_memory brk_input.mem a) ∧
      t.cpu_SP.val = brk_input.cpu_SP.val - 3 ∧
      t.cpu_PC.val = word_at brk_input.mem 0xFFFE :=
  ⟨by decide, by decide,
    BRK_pushes_return_address_and_status brk_input locals0 (by decide) (by decide)⟩

/-- The run of `brk_input`: the stack receives `$10`, `$02`, `$51`, SP becomes `$fc`, PC
becomes `$1234` and P stays `$41`. -/
theorem BRK_example :
    (cpu_do_next_op brk_input locals0).map
        (fun r => (read_memory r.1.mem 0x01ff, read_memory r.1.mem 0x01fe,
          read_memory r.1.mem 0x01fd)) = some (0x10, 0x02, 0x51) ∧
    (cpu_do_next_op brk_input locals0).map
        (fun r => (r.1.cpu_SP, r.1.cpu_PC, r.1.cpu_FLAGS, r.2)) =
      some (0xfc, 0x1234, 0x41, 7) := by
  refine ⟨by decide, by decide⟩

/-- Claim C23 (counterexample): after BRK from a state with I clear (P = `$41`), I is still
clear. -/
theorem BRK_leaves_I_clear :
    flag_set brk_input.cpu_FLAGS flag_I = false ∧
    (cpu_do_next_op brk_input locals0).map (fun r => flag_set r.1.cpu_FLAGS flag_I) =
      some false := by
  decide

/-- Claim C23 (amended): for every pre-state with SP ≥ 3, BRK executes and leaves the
status register P unchanged, so that I keeps the value it had. -/
theorem BRK_leaves_status_register (s : State) (u : Locals)
    (h0 : (read_memory s.mem s.cpu_PC.val).val = 0x00) (hsp : 3 ≤ s.cpu_SP.val) :
    ∃ t c, cpu_do_next_op s u = some (t, c) ∧ t.cpu_FLAGS = s.cpu_FLAGS ∧
      flag_set t.cpu_FLAGS flag_I = flag_set s.cpu_FLAGS flag_I :=
  ⟨_, _, BRK_step s u h0 hsp, rfl, rfl⟩

/-- Witness of `BRK_leaves_status_register`: BRK at `$1000` with SP = `$ff`, P = `$41`. -/
theorem BRK_leaves_status_register_witness :
    (read_memory brk_input.mem brk_input.cpu_PC.val).val = 0x00 ∧ 3 ≤ brk_input.cpu_SP.val ∧
    ∃ t c, cpu_do_next_op brk_input locals0 = some (t, c) ∧
      t.cpu_FLAGS = brk_input.cpu_FLAGS ∧
      flag_set t.cpu_FLAGS flag_I = flag_set brk_input.cpu_FLAGS flag_I :=
  ⟨by decide, by decide, BRK_leaves_status_register brk_input locals0 (by decide) (by decide)⟩

/-- Claim C24 (counterexample): `cpu_reset` from a state with D set and I clear leaves D set
and I clear. -/
theorem cpu_reset_leaves_I_and_D :
    flag_set (cpu_reset reset_input).cpu_FLAGS flag_I = false ∧
    flag_set (cpu_reset reset_input).cpu_FLAGS flag_D = true ∧
    (cpu_reset reset_input).cpu_PC = 0x800d := by
  decide

/-- Claim C24 (amended): after `cpu_reset` from any state, PC equals the little-endian word
`read($FFFC) | (read($FFFD) << 8)`, and the status register (I and D included), the
registers A, X, Y, SP and the memory are unchanged. -/
theorem cpu_reset_loads_PC_only (s : State) :
    (cpu_reset s).cpu_PC.val =
      (read_memory s.mem 0xFFFC).val ||| ((read_memory s.mem 0xFFFD).val <<< 8) ∧
    (cpu_reset s).cpu_FLAGS = s.cpu_FLAGS ∧
    (cpu_reset s).cpu_regA = s.cpu_regA ∧ (cpu_reset s).cpu_regX = s.cpu_regX ∧
    (cpu_reset s).cpu_regY = s.cpu_regY ∧ (cpu_reset s).cpu_SP = s.cpu_SP ∧
    (cpu_reset s).mem = s.mem := by
  refine ⟨?_, rfl, rfl, rfl, rfl, rfl, rfl⟩
  simp only [cpu_reset, read_memory_word, toU16_val, RST_ADDRESS]
  exact Nat.mod_eq_of_lt (word_at_lt s.mem 0xFFFC)

/-- Claim C25 (counterexample): `IRQ()` from a state with I clear pushes nothing (SP and
the three stack cells are unchanged), leaves I clear and leaves PC at `$1000`, although
the vector at `$FFFE` holds `$1234`. -/
theorem IRQ_does_nothing_with_I_clear :
    flag_set irq_input.cpu_FLAGS flag_I = false ∧
    word_at irq_input.mem 0xFFFE = 0x1234 ∧
    (IRQ irq_input).cpu_PC = 0x1000 ∧
    (IRQ irq_input).cpu_SP = 0xff ∧
    flag_set (IRQ irq_input).cpu_FLAGS flag_I = false ∧
    read_memory (IRQ irq_input).mem 0x01ff = 0 := by
  decide

/-- Claim C25 (amended): for every state, with I clear or set, calling `IRQ()` changes
nothing. -/
theorem IRQ_changes_nothing (s : State) : IRQ s = s := rfl

/-! ## Stores -/

theorem dispatch_8E (s : State) (u : Locals)
    (h0 : (read_memory s.mem s.cpu_PC.val).val = 0x8E) :
    cpu_do_next_op s u = case_STX (cpu_fetch s).2 abs u := by
  have e1 : (0x8E &&& bnot mode_mask) = 130 := by decide
  have e2 : ((0x8E &&& mode_mask) >>> 2) = 3 := by decide
  simp only [cpu_do_next_op, fixed_address_modes, variable_address_modes, cpu_fetch, h0, e1, e2]
  simp [opcode_values, abs]

theorem dispatch_96 (s : State) (u : Locals)
    (h0 : (read_memory s.mem s.cpu_PC.val).val = 0x96) :
    cpu_do_next_op s u = case_STX (cpu_fetch s).2 ind_zpg_x u := by
  have e1 : (0x96 &&& bnot mode_mask) = 130 := by decide
  have e2 : ((0x96 &&& mode_mask) >>> 2) = 5 := by decide
  simp only [cpu_do_next_op, fixed_address_modes, variable_address_modes, cpu_fetch, h0, e1, e2]
  simp [opcode_values, ind_zpg_x]

theorem dispatch_8C (s : State) (u : Locals)
    (h0 : (read_memory s.mem s.cpu_PC.val).val = 0x8C) :
    cpu_do_next_op s u = case_STY (cpu_fetch s).2 abs u := by
  have e1 : (0x8C &&& bnot mode_mask) = 128 := by decide
  have e2 : ((0x8C &&& mode_mask) >>> 2) = 3 := by decide
  simp only [cpu_do_next_op, fixed_address_modes, variable_address_modes, cpu_fetch, h0, e1, e2]
  simp [opcode_values, abs]

theorem dispatch_94 (s : State) (u : Locals)
    (h0 : (read_memory s.mem s.cpu_PC.val).val = 0x94) :
    cpu_do_next_op s u = case_STY (cpu_fetch s).2 ind_zpg_x u := by
  have e1 : (0x94 &&& bnot mode_mask) = 128 := by decide
  have e2 : ((0x94 &&& mode_mask) >>> 2) = 5 := by decide
  simp only [cpu_do_next_op, fixed_address_modes, variable_address_modes, cpu_fetch, h0, e1, e2]
  simp [opcode_values, ind_zpg_x]

theorem get_args_none (s : State) (n : Nat) (h2 : n ≠ 2) (h1 : n ≠ 1) (a1 a2 : byte) :
    get_args s n a1 a2 = (a1, a2, s) := by
  simp [get_args, h1, h2]

/-- For every state, STX absolute (0x8E), STX zero-page,Y (0x96), STY absolute (0x8C) and
STY zero-page,X (0x94) fetch no operand byte: they leave PC at the opcode address + 1 and
form the address they write from the previous contents `arg1`, `arg2` of the locals. -/
theorem STX_STY_fetch_no_operand (s : State) (u : Locals)
    (h0 : (read_memory s.mem s.cpu_PC.val).val = 0x8E ∨
      (read_memory s.mem s.cpu_PC.val).val = 0x96 ∨
      (read_memory s.mem s.cpu_PC.val).val = 0x8C ∨
      (read_memory s.mem s.cpu_PC.val).val = 0x94) :
    ∃ t c, cpu_do_next_op s u = some (t, c) ∧ t.cpu_PC = toU16 (s.cpu_PC.val + 1) ∧
      ∃ r : byte, t.mem = write_memory s.mem
        (get_effective_address s
          (if (read_memory s.mem s.cpu_PC.val).val = 0x8E ∨
              (read_memory s.mem s.cpu_PC.val).val = 0x8C then abs
           else if (read_memory s.mem s.cpu_PC.val).val = 0x96 then ind_zpg_y else ind_zpg_x)
          u.arg1 u.arg2) r := by
  rcases h0 with h0 | h0 | h0 | h0
  · rw [dispatch_8E s u h0]
    simp only [case_STX, show (abs = zpg ∨ abs = ind_zpg_x ∨ abs = abs) from Or.inr (Or.inr rfl),
      if_true, get_args_none _ abs (by decide) (by decide), show ¬ (abs = ind_zpg_x) by decide,
      if_false, set_data_accum, show ¬ (abs = imm) by decide, h0, true_or, cpu_fetch]
    exact ⟨_, _, rfl, rfl, _, rfl⟩
  · rw [dispatch_96 s u h0]
    simp only [case_STX, show (ind_zpg_x = zpg ∨ ind_zpg_x = ind_zpg_x ∨ ind_zpg_x = abs) from
        Or.inr (Or.inl rfl),
      if_true, get_args_none _ ind_zpg_x (by decide) (by decide),
      set_data_accum, show ¬ (ind_zpg_y = imm) by decide, if_false, h0, cpu_fetch]
    exact ⟨_, _, rfl, rfl, _, rfl⟩
  · rw [dispatch_8C s u h0]
    simp only [case_STY, show (abs = zpg ∨ abs = ind_zpg_x ∨ abs = abs) from Or.inr (Or.inr rfl),
      if_true, get_args_none _ abs (by decide) (by decide),
      set_data_accum, show ¬ (abs = imm) by decide, if_false, h0, or_true, cpu_fetch]
    exact ⟨_, _, rfl, rfl, _, rfl⟩
  · rw [dispatch_94 s u h0]
    simp only [case_STY, show (ind_zpg_x = zpg ∨ ind_zpg_x = ind_zpg_x ∨ ind_zpg_x = abs) from
        Or.inr (Or.inl rfl),
      if_true, get_args_none _ ind_zpg_x (by decide) (by decide),
      set_data_accum, show ¬ (ind_zpg_x = imm) by decide, if_false, h0, cpu_fetch]
    exact ⟨_, _, rfl, rfl, _, rfl⟩

/-- Claim C26 (code defect): `STX $2000` with X = 7 leaves PC at `$1001` (not `$1003`) and
the cell `$2000` at 0; `STY $10,X` with X = 2, Y = 9 leaves PC at `$1001` (not `$1002`) and
the cell `$12` at 0.  `case STX` and `case STY` call `get_args(mode, ..)` with the mode
number as operand count, so only the zero-page forms (mode 1) fetch their operand. -/
theorem STX_STY_absolute_and_indexed_fetch_nothing :
    (cpu_do_next_op stx_absolute_input locals0).map
        (fun r => (r.1.cpu_PC, read_memory r.1.mem 0x2000, r.2)) = some (0x1001, 0, 4) ∧
    (cpu_do_next_op sty_zero_page_x_input locals0).map
        (fun r => (r.1.cpu_PC, read_memory r.1.mem 0x12, r.2)) = some (0x1001, 0, 4) := by
  refine ⟨by decide, by decide⟩

/-! ## Cycle counts -/

/-- The base counts that the ALU group reads, `cycles[c_conv[mode]]`, listed by mode
number 0..7 ((ind,X), zpg, imm, abs, (ind),Y, zpg,X, abs,Y, abs,X): `c_conv` maps a slot
of the cycle table to its mode number, and the code indexes it with the mode number. -/
theorem ALU_cycles_through_c_conv :
    (List.range 8).map (fun m => LDA_cycles (c_conv m)) = [4, 3, 4, 4, 5, 6, 2, 4] ∧
    (List.range 8).map (fun m => ADC_cycles (c_conv m)) = [4, 3, 4, 4, 5, 6, 2, 4] ∧
    (List.range 8).map (fun m => SBC_cycles (c_conv m)) = [4, 3, 4, 4, 5, 6, 2, 4] ∧
    (List.range 8).map (fun m => CMP_cycles (c_conv m)) = [4, 3, 4, 4, 5, 6, 2, 4] ∧
    (List.range 8).map (fun m => EOR_cycles (c_conv m)) = [4, 3, 4, 4, 5, 6, 2, 4] ∧
    (List.range 8).map (fun m => AND_cycles (c_conv m)) = [3, 2, 4, 4, 5, 6, 2, 4] ∧
    (List.range 8).map (fun m => AND_cycles m) = [2, 2, 3, 4, 4, 4, 6, 5] := by
  decide

/-- Every `LDA #v` (opcode 0xA9) returns 4 cycles. -/
theorem LDA_immediate_cycles_for_every_state (s : State) (u : Locals)
    (h0 : (read_memory s.mem s.cpu_PC.val).val = 0xA9) :
    ∃ t, cpu_do_next_op s u = some (t, 4) := by
  rw [dispatch_A9 s u h0]
  exact ⟨_, rfl⟩

/-- Claim C27 (code defect): `LDA #$80` returns 4 cycles, not 2: the ALU group reads its
cycle table at `c_conv[mode]`, and `c_conv[imm]` is 5, the slot of absolute,Y. -/
theorem LDA_immediate_returns_4_cycles :
    (cpu_do_next_op lda_input locals0).map (fun r => (r.1.cpu_regA, r.2)) = some (0x80, 4) ∧
    c_conv imm = 5 ∧ LDA_cycles 0 = 2 := by
  refine ⟨by decide, by decide, by decide⟩

/-! ## Cycle counts of the read-modify-write instructions -/

theorem dispatch_E6 (s : State) (u : Locals)
    (h0 : (read_memory s.mem s.cpu_PC.val).val = 0xE6) :
    cpu_do_next_op s u = case_INC (cpu_fetch s).2 zpg u := by
  have e1 : (0xE6 &&& bnot mode_mask) = 226 := by decide
  have e2 : ((0xE6 &&& mode_mask) >>> 2) = 1 := by decide
  simp only [cpu_do_next_op, fixed_address_modes, variable_address_modes, cpu_fetch, h0, e1, e2]
  simp [opcode_values, zpg]

theorem dispatch_F6 (s : State) (u : Locals)
    (h0 : (read_memory s.mem s.cpu_PC.val).val = 0xF6) :
    cpu_do_next_op s u = case_INC (cpu_fetch s).2 ind_zpg_x u := by
  have e1 : (0xF6 &&& bnot mode_mask) = 226 := by decide
  have e2 : ((0xF6 &&& mode_mask) >>> 2) = 5 := by decide
  simp only [cpu_do_next_op, fixed_address_modes, variable_address_modes, cpu_fetch, h0, e1, e2]
  simp [opcode_values, ind_zpg_x]

theorem dispatch_EE (s : State) (u : Locals)
    (h0 : (read_memory s.mem s.cpu_PC.val).val = 0xEE) :
    cpu_do_next_op s u = case_INC (cpu_fetch s).2 abs u := by
  have e1 : (0xEE &&& bnot mode_mask) = 226 := by decide
  have e2 : ((0xEE &&& mode_mask) >>> 2) = 3 := by decide
  simp only [cpu_do_next_op, fixed_address_modes, variable_address_modes, cpu_fetch, h0, e1, e2]
  simp [opcode_values, abs]

theorem dispatch_FE (s : State) (u : Locals)
    (h0 : (read_memory s.mem s.cpu_PC.val).val = 0xFE) :
    cpu_do_next_op s u = case_INC (cpu_fetch s).2 ind_abs_x u := by
  have e1 : (0xFE &&& bnot mode_mask) = 226 := by decide
  have e2 : ((0xFE &&& mode_mask) >>> 2) = 7 := by decide
  simp only [cpu_do_next_op, fixed_address_modes, variable_address_modes, cpu_fetch, h0, e1, e2]
  simp [opcode_values, ind_abs_x]

theorem dispatch_C6 (s : State) (u : Locals)
    (h0 : (read_memory s.mem s.cpu_PC.val).val = 0xC6) :
    cpu_do_next_op s u = case_DEC (cpu_fetch s).2 zpg u := by
  have e1 : (0xC6 &&& bnot mode_mask) = 194 := by decide
  have e2 : ((0xC6 &&& mode_mask) >>> 2) = 1 := by decide
  simp only [cpu_do_next_op, fixed_address_modes, variable_address_modes, cpu_fetch, h0, e1, e2]
  simp [opcode_values, zpg]

theorem dispatch_D6 (s : State) (u : Locals)
    (h0 : (read_memory s.mem s.cpu_PC.val).val = 0xD6) :
    cpu_do_next_op s u = case_DEC (cpu_fetch s).2 ind_zpg_x u := by
  have e1 : (0xD6 &&& bnot mode_mask) = 194 := by decide
  have e2 : ((0xD6 &&& mode_mask) >>> 2) = 5 := by decide
  simp only [cpu_do_next_op, fixed_address_modes, variable_address_modes, cpu_fetch, h0, e1, e2]
  simp [opcode_values, ind_zpg_x]

theorem dispatch_CE (s : State) (u : Locals)
    (h0 : (read_memory s.mem s.cpu_PC.val).val = 0xCE) :
    cpu_do_next_op s u = case_DEC (cpu_fetch s).2 abs u := by
  have e1 : (0xCE &&& bnot mode_mask) = 194 := by decide
  have e2 : ((0xCE &&& mode_mask) >>> 2) = 3 := by decide
  simp only [cpu_do_next_op, fixed_address_modes, variable_address_modes, cpu_fetch, h0, e1, e2]
  simp [opcode_values, abs]

theorem dispatch_DE (s : State) (u : Locals)
    (h0 : (read_memory s.mem s.cpu_PC.val).val = 0xDE) :
    cpu_do_next_op s u = case_DEC (cpu_fetch s).2 ind_abs_x u := by
  have e1 : (0xDE &&& bnot mode_mask) = 194 := by decide
  have e2 : ((0xDE &&& mode_mask) >>> 2) = 7 := by decide
  simp only [cpu_do_next_op, fixed_address_modes, variable_address_modes, cpu_fetch, h0, e1, e2]
  simp [opcode_values, ind_abs_x]

theorem address_delay_nonneg (s : State) (mode : Nat) (a1 a2 : byte) :
    0 ≤ address_delay s mode a1 a2 := by
  unfold address_delay
  dsimp only
  split_ifs <;> decide

theorem address_delay_not_indexed (s : State) (mode : Nat) (a1 a2 : byte)
    (h1 : mode ≠ ind_abs_x) (h2 : mode ≠ ind_indir_x) (h3 : mode ≠ indir_ind_y) :
    address_delay s mode a1 a2 = 0 := by
  unfold address_delay
  simp only [h1, h2, h3, if_false]

/-- The expression `address_delay(..) + mode == imm ? 2 : mode == zpg ? 5 : ...` that ends
the shift and rotate cases: the sum is compared with `imm`, and it equals `imm` exactly in
the accumulator form. -/
theorem rmw_cycle_expr (d : Int) (mode : Nat) (hd : 0 ≤ d)
    (hz : mode ≠ ind_abs_x → d = 0)
    (hm : mode = imm ∨ mode = zpg ∨ mode = ind_zpg_x ∨ mode = abs ∨ mode = ind_abs_x) :
    (if d + (mode : Int) = (imm : Int) then (2 : Int)
     else if mode = zpg then 5 else if mode = ind_zpg_x then 6
     else if mode = abs then 6 else 7) = rmw_cycles mode := by
  rcases hm with h | h | h | h | h <;> subst h
  · rw [hz (by decide)]; decide
  · rw [hz (by decide)]; decide
  · rw [hz (by decide)]; decide
  · rw [hz (by decide)]; decide
  · have : ¬ (d + ((ind_abs_x : Nat) : Int) = ((imm : Nat) : Int)) := by
      simp only [ind_abs_x, imm]; omega
    rw [if_neg this]; decide

theorem shift_delay_zero (s : State) (mode : Nat) (a1 a2 : byte)
    (hm : mode = imm ∨ mode = zpg ∨ mode = ind_zpg_x ∨ mode = abs ∨ mode = ind_abs_x)
    (h : mode ≠ ind_abs_x) : address_delay s mode a1 a2 = 0 := by
  apply address_delay_not_indexed _ _ _ _ h
  · rcases hm with h | h | h | h | h <;> subst h <;> decide
  · rcases hm with h | h | h | h | h <;> subst h <;> decide

theorem ROL_cycles (s : State) (mode : Nat) (u : Locals)
    (hm : mode = imm ∨ mode = zpg ∨ mode = ind_zpg_x ∨ mode = abs ∨ mode = ind_abs_x) :
    (case_ROL s mode u).map Prod.snd = some (rmw_cycles mode) := by
  have hm2 : mode = imm ∨ mode = zpg ∨ mode = abs ∨ mode = ind_abs_x ∨ mode = ind_zpg_x := by
    tauto
  simp only [case_ROL, hm2, if_true, Option.map_some']
  rw [rmw_cycle_expr _ mode (address_delay_nonneg _ _ _ _)
    (shift_delay_zero _ _ _ _ hm) hm]

theorem ROR_cycles (s : State) (mode : Nat) (u : Locals)
    (hm : mode = imm ∨ mode = zpg ∨ mode = ind_zpg_x ∨ mode = abs ∨ mode = ind_abs_x) :
    (case_ROR s mode u).map Prod.snd = some (rmw_cycles mode) := by
  have hm2 : mode = imm ∨ mode = zpg ∨ mode = abs ∨ mode = ind_abs_x ∨ mode = ind_zpg_x := by
    tauto
  simp only [case_ROR, hm2, if_true, Option.map_some']
  rw [rmw_cycle_expr _ mode (address_delay_nonneg _ _ _ _)
    (shift_delay_zero _ _ _ _ hm) hm]

theorem LSR_cycles (s : State) (mode : Nat) (u : Locals)
    (hm : mode = imm ∨ mode = zpg ∨ mode = ind_zpg_x ∨ mode = abs ∨ mode = ind_abs_x) :
    (case_LSR s mode u).map Prod.snd = some (rmw_cycles mode) := by
  have hm2 : mode = imm ∨ mode = zpg ∨ mode = abs ∨ mode = ind_abs_x ∨ mode = ind_zpg_x := by
    tauto
  simp only [case_LSR, hm2, if_true, Option.map_some']
  rw [rmw_cycle_expr _ mode (address_delay_nonneg _ _ _ _)
    (shift_delay_zero _ _ _ _ hm) hm]

theorem asl_cycle_expr (d : Int) (mode : Nat) (hd : 0 ≤ d)
    (hz : mode ≠ ind_abs_x → d = 0)
    (hm : mode = imm ∨ mode = zpg ∨ mode = ind_zpg_x ∨ mode = abs ∨ mode = ind_abs_x) :
    (if d + (mode : Int) = (imm : Int) then (2 : Int)
     else if mode = zpg then 5 else if mode = ind_zpg_x then 6
     else if mode = abs then 6 else if mode = ind_abs_x then 7 else -1) = rmw_cycles mode := by
  rcases hm with h | h | h | h | h <;> subst h
  · rw [hz (by decide)]; decide
  · rw [hz (by decide)]; decide
  · rw [hz (by decide)]; decide
  · rw [hz (by decide)]; decide
  · have : ¬ (d + ((ind_abs_x : Nat) : Int) = ((imm : Nat) : Int)) := by
      simp only [ind_abs_x, imm]; omega
    rw [if_neg this]; decide

theorem ASL_cycles (s : State) (mode : Nat) (u : Locals)
    (hm : mode = imm ∨ mode = zpg ∨ mode = ind_zpg_x ∨ mode = abs ∨ mode = ind_abs_x) :
    (case_ASL s mode u).map Prod.snd = some (rmw_cycles mode) := by
  simp only [case_ASL, hm, if_true, Option.map_some']
  rw [asl_cycle_expr _ mode (address_delay_nonneg _ _ _ _)
    (shift_delay_zero _ _ _ _ hm) hm]

theorem dec_cycle_expr (d : Int) (mode : Nat) (hd : 0 ≤ d)
    (hz : mode ≠ ind_abs_x → d = 0)
    (hm : mode = zpg ∨ mode = ind_zpg_x ∨ mode = abs ∨ mode = ind_abs_x) :
    (if d + (mode : Int) = (zpg : Int) then (5 : Int)
     else if mode = ind_zpg_x then 6 else if mode = abs then 6 else 7) = rmw_cycles mode := by
  rcases hm with h | h | h | h <;> subst h
  · rw [hz (by decide)]; decide
  · rw [hz (by decide)]; decide
  · rw [hz (by decide)]; decide
  · have : ¬ (d + ((ind_abs_x : Nat) : Int) = ((zpg : Nat) : Int)) := by
      simp only [ind_abs_x, zpg]; omega
    rw [if_neg this]; decide

theorem DEC_cycles (s : State) (mode : Nat) (u : Locals)
    (hm : mode = zpg ∨ mode = ind_zpg_x ∨ mode = abs ∨ mode = ind_abs_x) :
    (case_DEC s mode u).map Prod.snd = some (rmw_cycles mode) := by
  simp only [case_DEC, hm, if_true, Option.map_some']
  rw [dec_cycle_expr _ mode (address_delay_nonneg _ _ _ _)
    (shift_delay_zero _ _ _ _ (Or.inr hm)) hm]

theorem INC_cycles (s : State) (mode : Nat) (u : Locals)
    (hm : mode = zpg ∨ mode = ind_zpg_x ∨ mode = abs ∨ mode = ind_abs_x) :
    (case_INC s mode u).map Prod.snd = some (rmw_cycles mode) := by
  simp only [case_INC, hm, if_true, Option.map_some']
  rcases hm with h | h | h | h <;> subst h <;> rfl

theorem BIT_cycles (s : State) (mode : Nat) (u : Locals) (hm : mode = zpg ∨ mode = abs) :
    (case_BIT s mode u).map Prod.snd = some (if mode = zpg then 3 else 4) := by
  simp only [case_BIT, hm, if_true, Option.map_some']

/-- Claim C28: for every state and every content of the locals, each ASL, LSR, ROL, ROR
instruction returns 2 (accumulator), 5 (zero page), 6 (zero page,X), 6 (absolute) or 7
(absolute,X) cycles, each INC and DEC instruction 5, 6, 6 or 7, and BIT 3 (zero page) or 4
(absolute): the count depends on the opcode only, not on the registers or on a page
crossing. -/
theorem RMW_cycle_counts (s : State) (u : Locals) (op : Nat) (n : Int)
    (h : (op, n) ∈ rmw_cycle_table)
    (h0 : (read_memory s.mem s.cpu_PC.val).val = op) :
    (cpu_do_next_op s u).map Prod.snd = some n := by
  unfold rmw_cycle_table at h
  fin_cases h
  · rw [dispatch_0A s u h0]
    exact ASL_cycles _ imm u (by decide)
  · rw [dispatch_06 s u h0]
    exact ASL_cycles _ zpg u (by decide)
  · rw [dispatch_16 s u h0]
    exact ASL_cycles _ ind_zpg_x u (by decide)
  · rw [dispatch_0E s u h0]
    exact ASL_cycles _ abs u (by decide)
  · rw [dispatch_1E s u h0]
    exact ASL_cycles _ ind_abs_x u (by decide)
  · rw [dispatch_4A s u h0]
    exact LSR_cycles _ imm u (by decide)
  · rw [dispatch_46 s u h0]
    exact LSR_cycles _ zpg u (by decide)
  · rw [dispatch_56 s u h0]
    exact LSR_cycles _ ind_zpg_x u (by decide)
  · rw [dispatch_4E s u h0]
    exact LSR_cycles _ abs u (by decide)
  · rw [dispatch_5E s u h0]
    exact LSR_cycles _ ind_abs_x u (by decide)
  · rw [dispatch_2A s u h0]
    exact ROL_cycles _ imm u (by decide)
  · rw [dispatch_26 s u h0]
    exact ROL_cycles _ zpg u (by decide)
  · rw [dispatch_36 s u h0]
    exact ROL_cycles _ ind_zpg_x u (by decide)
  · rw [dispatch_2E s u h0]
    exact ROL_cycles _ abs u (by decide)
  · rw [dispatch_3E s u h0]
    exact ROL_cycles _ ind_abs_x u (by decide)
  · rw [dispatch_6A s u h0]
    exact ROR_cycles _ imm u (by decide)
  · rw [dispatch_66 s u h0]
    exact ROR_cycles _ zpg u (by decide)
  · rw [dispatch_76 s u h0]
    exact ROR_cycles _ ind_zpg_x u (by decide)
  · rw [dispatch_6E s u h0]
    exact ROR_cycles _ abs u (by decide)
  · rw [dispatch_7E s u h0]
    exact ROR_cycles _ ind_abs_x u (by decide)
  · rw [dispatch_E6 s u h0]
    exact INC_cycles _ zpg u (by decide)
  · rw [dispatch_F6 s u h0]
    exact INC_cycles _ ind_zpg_x u (by decide)
  · rw [dispatch_EE s u h0]
    exact INC_cycles _ abs u (by decide)
  · rw [dispatch_FE s u h0]
    exact INC_cycles _ ind_abs_x u (by decide)
  · rw [dispatch_C6 s u h0]
    exact DEC_cycles _ zpg u (by decide)
  · rw [dispatch_D6 s u h0]
    exact DEC_cycles _ ind_zpg_x u (by decide)
  · rw [dispatch_CE s u h0]
    exact DEC_cycles _ abs u (by decide)
  · rw [dispatch_DE s u h0]
    exact DEC_cycles _ ind_abs_x u (by decide)
  · rw [dispatch_24 s u h0]
    exact BIT_cycles _ zpg u (by decide)
  · rw [dispatch_2C s u h0]
    exact BIT_cycles _ abs u (by decide)

/-- Witness of `RMW_cycle_counts`: `ASL $20F0,X` with X = `$20`, whose indexed address
crosses a page, returns 7. -/
theorem RMW_cycle_counts_witness :
    ((0x1E, 7) ∈ rmw_cycle_table) ∧
    (read_memory asl_page_cross_input.mem asl_page_cross_input.cpu_PC.val).val = 0x1E ∧
    (cpu_do_next_op asl_page_cross_input locals0).map Prod.snd = some 7 :=
  ⟨by decide, by decide,
    RMW_cycle_counts asl_page_cross_input locals0 0x1E 7 (by decide) (by decide)⟩

/-- In the run of `asl_page_cross_input` the index addition does cross a page:
`address_delay` is 1 there. -/
theorem asl_page_cross_input_crosses :
    address_delay asl_page_cross_input ind_abs_x 0xF0 0x20 = 1 := by
  decide

/-! ## Disassembler output -/

theorem ne_of_low_bits (x c : Nat) (h : x &&& 3 = 1) (hc : c &&& 3 ≠ 1) : x ≠ c := by
  intro e
  rw [e] at h
  exact hc h

/-- The second `switch` of `dissasemble` has no case for an opcode outside
`fixed_opcodes`. -/
theorem dis_fixed_address_skip (d : Dis) (opcode : byte) (h : opcode.val ∉ fixed_opcodes) :
    dis_fixed_address d opcode = d := by
  simp only [fixed_opcodes, List.mem_cons, List.mem_singleton, List.not_mem_nil, or_false,
    not_or] at h
  obtain ⟨h1, h2, h3, h4, h5, h6, h7, h8, h9, h10, h11, h12, h13, h14, h15, h16, h17, h18,
    h19, h20, h21, h22, h23, h24, h25, h26, h27, h28, h29, h30, h31, h32, h33, h34, h35,
    h36⟩ := h
  unfold dis_fixed_address
  dsimp only
  rw [if_neg h1, if_neg h2, if_neg h3, if_neg h4, if_neg h5, if_neg h6, if_neg h7, if_neg h8,
    if_neg h9, if_neg h10, if_neg h11, if_neg h12, if_neg h13, if_neg h14, if_neg h15,
    if_neg h16, if_neg h17, if_neg h18, if_neg h19, if_neg h20, if_neg h21, if_neg h22,
    if_neg h23, if_neg h24, if_neg h25, if_neg h26, if_neg h27, if_neg h28, if_neg h29,
    if_neg h30, if_neg h31, if_neg h32, if_neg h33, if_neg h34, if_neg h35, if_neg h36]

/-- The first `switch` of `dissasemble` on an opcode of the ALU group. -/
theorem dis_full_address_alu (d : Dis) (opcode : byte) (base : Nat) (hb : base ∈ alu_bases)
    (hsw : opcode.val &&& bnot mode_mask = base) :
    dis_full_address d opcode =
      dis_operand d (alu_mnemonic base) (count_full_imm d.mode) d.mode := by
  simp only [alu_bases, List.mem_cons, List.mem_singleton, List.not_mem_nil, or_false] at hb
  unfold dis_full_address
  dsimp only
  rw [hsw]
  rcases hb with h | h | h | h | h | h | h <;> subst h <;> rfl

theorem append_space_ne_empty (a b : String) : a ++ " " ++ b ≠ "" := by
  intro h
  have h1 := congrArg String.length h
  simp only [String.length_append] at h1
  have h2 : " ".length = 1 := rfl
  have h3 : "".length = 0 := rfl
  omega

theorem address_mode_str_one_byte (s : State) (mode : Nat) (b1 a2 b2 : byte)
    (hm : mode = imm ∨ mode = zpg ∨ mode = ind_zpg_x) :
    address_mode_str s mode b1 a2 = operand_template mode b1 b2 := by
  rcases hm with h | h | h <;> subst h <;> rfl

theorem address_mode_str_two_bytes (s : State) (mode : Nat) (b1 b2 : byte)
    (hm : mode = abs ∨ mode = ind_abs_x ∨ mode = ind_abs_y) :
    address_mode_str s mode b1 b2 = operand_template mode b1 b2 := by
  rcases hm with h | h | h <;> subst h <;> rfl

theorem alu_decode (base mode : Nat) (hb : base ∈ alu_bases)
    (hm : mode ∈ [imm, zpg, ind_zpg_x, abs, ind_abs_x, ind_abs_y, ind_indir_x, indir_ind_y]) :
    (base ||| (mode <<< 2)) &&& bnot mode_mask = base ∧
    ((base ||| (mode <<< 2)) &&& mode_mask) >>> 2 = mode ∧
    (base ||| (mode <<< 2)) ∉ fixed_opcodes := by
  simp only [alu_bases, List.mem_cons, List.mem_singleton, List.not_mem_nil, or_false] at hb hm
  rcases hb with h | h | h | h | h | h | h <;> subst h <;>
    rcases hm with h | h | h | h | h | h | h | h <;> subst h <;> decide

/-- For every ALU-group opcode (ADC, AND, CMP, EOR, LDA, ORA, SBC) in the immediate,
zero-page, zero-page,X, absolute, absolute,X and absolute,Y modes, `dissasemble` returns,
leaves the state as it was, and writes the mnemonic, one space and the operand bytes
rendered by the template of the mode (`#%02x`, `$%02x`, `$%02x, X`, `$%04x`, `$%04x, X`,
`$%04x, Y`): on these six modes the code follows the operand format table. -/
theorem dissasemble_ALU_operand_format (s : State) (adr : uint16_t) (u : Locals)
    (base mode : Nat) (hb : base ∈ alu_bases)
    (hm : mode ∈ [imm, zpg, ind_zpg_x, abs, ind_abs_x, ind_abs_y])
    (h0 : (read_memory s.mem adr.val).val = base ||| (mode <<< 2)) :
    dissasemble s adr u = some (s, alu_mnemonic base ++ " " ++
      operand_template mode (read_memory s.mem (adr.val + 1))
        (read_memory s.mem (adr.val + 2))) := by
  obtain ⟨e1, e2, e3⟩ := alu_decode base mode hb
    (List.mem_append_left [ind_indir_x, indir_ind_y] hm)
  rw [← h0] at e1 e2 e3
  unfold dissasemble
  simp only [cpu_fetch]
  rw [dis_full_address_alu _ _ base hb e1, dis_fixed_address_skip _ _ e3]
  simp only [dis_operand, e2]
  rw [if_pos (append_space_ne_empty _ _)]
  simp only [List.mem_cons, List.mem_singleton, List.not_mem_nil, or_false] at hm
  have hw : ∀ a : Nat, a + 1 + 1 = a + 2 := fun a => rfl
  rcases hm with h | h | h | h | h | h <;> subst h
  · simp only [show count_full_imm imm = 1 from rfl, get_args_one, cpu_fetch, read_memory_toU16]
    rw [address_mode_str_one_byte _ imm _ _ (read_memory s.mem (adr.val + 2)) (by decide)]
  · simp only [show count_full_imm zpg = 1 from rfl, get_args_one, cpu_fetch, read_memory_toU16]
    rw [address_mode_str_one_byte _ zpg _ _ (read_memory s.mem (adr.val + 2)) (by decide)]
  · simp only [show count_full_imm ind_zpg_x = 1 from rfl, get_args_one, cpu_fetch,
      read_memory_toU16]
    rw [address_mode_str_one_byte _ ind_zpg_x _ _ (read_memory s.mem (adr.val + 2)) (by decide)]
  · simp only [show count_full_imm abs = 2 from rfl, get_args_two, cpu_fetch, read_memory_toU16,
      toU16_add, hw]
    rw [address_mode_str_two_bytes _ abs _ _ (by decide)]
  · simp only [show count_full_imm ind_abs_x = 2 from rfl, get_args_two, cpu_fetch,
      read_memory_toU16, toU16_add, hw]
    rw [address_mode_str_two_bytes _ ind_abs_x _ _ (by decide)]
  · simp only [show count_full_imm ind_abs_y = 2 from rfl, get_args_two, cpu_fetch,
      read_memory_toU16, toU16_add, hw]
    rw [address_mode_str_two_bytes _ ind_abs_y _ _ (by decide)]

/-- Instance of `dissasemble_ALU_operand_format`: the bytes AD 00 C0 (LDA absolute). -/
theorem dissasemble_ALU_operand_format_witness :
    LDA ∈ alu_bases ∧ abs ∈ [imm, zpg, ind_zpg_x, abs, ind_abs_x, ind_abs_y] ∧
    (read_memory lda_absolute_input.mem (0x1000 : uint16_t).val).val = LDA ||| (abs <<< 2) ∧
    dissasemble lda_absolute_input 0x1000 locals0 = some (lda_absolute_input,
      alu_mnemonic LDA ++ " " ++
        operand_template abs (read_memory lda_absolute_input.mem ((0x1000 : uint16_t).val + 1))
          (read_memory lda_absolute_input.mem ((0x1000 : uint16_t).val + 2))) :=
  ⟨by decide, by decide, by decide,
    dissasemble_ALU_operand_format lda_absolute_input 0x1000 locals0 LDA abs (by decide)
      (by decide) (by decide)⟩

/-- The text of the witness, and the conversions `%02x` and `%04x` on sample values. -/
theorem dissasemble_examples :
    (dissasemble lda_absolute_input 0x1000 locals0).map Prod.snd = some "LDA $c000" ∧
    (dissasemble dis_input 0x1000 locals0).map Prod.snd = some "LDA #05" ∧
    printf_x 2 0x0a = "0a" ∧ printf_x 2 0xff = "ff" ∧ printf_x 4 0x20 = "0020" ∧
    printf_x 4 0xc000 = "c000" ∧ printf_x 2 0x1234 = "1234" := by
  refine ⟨by decide, by decide, by decide, by decide, by decide, by decide, by decide⟩

/-- Claim C29 (code defect): the bytes A1 20 (LDA (indirect,X)) are disassembled as
`LDA $20`, not `LDA ($20, X)`: in `address_mode_str` the case `ind_indir_x` stores the
format `($%04x, X)` and, having no `break`, falls through into the case `zpg`, which
replaces it by `$%02x`.  The bytes B1 20 (LDA (indirect),Y) give `LDA ($0020), Y`, not
`LDA ($20), Y`.  In both modes the value printed is the word `arg1 | arg2 << 8`, whose
high byte is the local `arg2` that these one-operand modes never fetch: when that local
holds `$ff` the same bytes give `LDA $ff20` and `LDA ($ff20), Y`. -/
theorem dissasemble_indirect_modes_differ :
    (dissasemble lda_indirect_x_input 0x1000 locals0).map Prod.snd = some "LDA $20" ∧
    alu_mnemonic LDA ++ " " ++ operand_template ind_indir_x 0x20 0 = "LDA ($20, X)" ∧
    (dissasemble lda_indirect_y_input 0x1000 locals0).map Prod.snd = some "LDA ($0020), Y" ∧
    alu_mnemonic LDA ++ " " ++ operand_template indir_ind_y 0x20 0 = "LDA ($20), Y" ∧
    (dissasemble lda_indirect_x_input 0x1000 { locals0 with arg2 := 0xff }).map Prod.snd =
      some "LDA $ff20" ∧
    (dissasemble lda_indirect_y_input 0x1000 { locals0 with arg2 := 0xff }).map Prod.snd =
      some "LDA ($ff20), Y" := by
  refine ⟨by decide, by decide, by decide, by decide, by decide, by decide⟩

/-- For every state and every content of the locals, an ALU-group opcode in (indirect,X)
mode is disassembled with the template `$%02x`, and one in (indirect),Y mode with
`($%04x), Y`; both are applied to the word `b1 | arg2 << 8`, whose high byte is the
local `arg2`, which these one-operand modes do not fetch. -/
theorem dissasemble_ALU_indirect_for_every_state (s : State) (adr : uint16_t) (u : Locals)
    (base mode : Nat) (hb : base ∈ alu_bases) (hm : mode ∈ [ind_indir_x, indir_ind_y])
    (h0 : (read_memory s.mem adr.val).val = base ||| (mode <<< 2)) :
    dissasemble s adr u = some (s, alu_mnemonic base ++ " " ++
      (if mode = ind_indir_x then
        "$" ++ printf_x 2 ((read_memory s.mem (adr.val + 1)).val ||| (u.arg2.val <<< 8))
       else
        "($" ++ printf_x 4 ((read_memory s.mem (adr.val + 1)).val ||| (u.arg2.val <<< 8)) ++
          "), Y")) := by
  obtain ⟨e1, e2, e3⟩ := alu_decode base mode hb
    (List.mem_append_right [imm, zpg, ind_zpg_x, abs, ind_abs_x, ind_abs_y] hm)
  rw [← h0] at e1 e2 e3
  unfold dissasemble
  simp only [cpu_fetch]
  rw [dis_full_address_alu _ _ base hb e1, dis_fixed_address_skip _ _ e3]
  simp only [dis_operand, e2]
  rw [if_pos (append_space_ne_empty _ _)]
  simp only [List.mem_cons, List.mem_singleton, List.not_mem_nil, or_false] at hm
  rcases hm with h | h <;> subst h
  · simp only [show count_full_imm ind_indir_x = 1 from rfl, get_args_one, cpu_fetch,
      read_memory_toU16]
    rfl
  · simp only [show count_full_imm indir_ind_y = 1 from rfl, get_args_one, cpu_fetch,
      read_memory_toU16]
    rfl

/-! ## Disassembly of undocumented opcodes -/

/-- The three witnesses of the claim: 0x03 is rendered `<03>`; 0x02 and 0x80 are not. -/
theorem dissasemble_unknown_examples :
    (dissasemble (opcode_input 0x03) 0x1000 locals0).map Prod.snd = some "<03>" ∧
    (dissasemble (opcode_input 0xff) 0x1000 locals0).map Prod.snd = some "<ff>" ∧
    (dissasemble (opcode_input 0x02) 0x1000 locals0).map Prod.snd = none ∧
    (dissasemble (opcode_input 0x80) 0x1000 locals0).map Prod.snd = none := by
  refine ⟨by decide, by decide, by decide, by decide⟩

theorem abs_arg_val (arg1 arg2 : byte) :
    (toU16 ((arg2.val <<< 8) ||| arg1.val)).val = arg1.val ||| (arg2.val <<< 8) := by
  have h1 := arg1.isLt
  have h2 := arg2.isLt
  rw [toU16_val, Nat.lor_comm, or_shl8 _ _ h1]
  omega

theorem abs_arg_lt (arg1 arg2 : byte) : arg1.val ||| (arg2.val <<< 8) < 65536 := by
  have h1 := arg1.isLt
  have h2 := arg2.isLt
  rw [or_shl8 _ _ h1]
  omega

/-- Claim C31: for every X, Y, `arg1`, `arg2`, `get_effective_address` returns `arg1` for
zpg, `(X + arg1) & 0xFF` for ind_zpg_x, `(Y + arg1) & 0xFF` for ind_zpg_y,
`arg1 | (arg2 << 8)` for abs, and `((arg1 | arg2 << 8) + X) & 0xFFFF`, resp. `+ Y`, for
ind_abs_x, ind_abs_y; ind_zpg_x with `arg1` = 0xFF and X = 2 yields 0x01; and each of the
six results is below 2^16. -/
theorem direct_modes_effective_address (s : State) (arg1 arg2 : byte) :
    get_effective_address s zpg arg1 arg2 = arg1.val ∧
    get_effective_address s ind_zpg_x arg1 arg2 = (s.cpu_regX.val + arg1.val) &&& 0xFF ∧
    get_effective_address s ind_zpg_y arg1 arg2 = (s.cpu_regY.val + arg1.val) &&& 0xFF ∧
    get_effective_address s abs arg1 arg2 = arg1.val ||| (arg2.val <<< 8) ∧
    get_effective_address s ind_abs_x arg1 arg2 =
      ((arg1.val ||| (arg2.val <<< 8)) + s.cpu_regX.val) &&& 0xFFFF ∧
    get_effective_address s ind_abs_y arg1 arg2 =
      ((arg1.val ||| (arg2.val <<< 8)) + s.cpu_regY.val) &&& 0xFFFF ∧
    get_effective_address { s with cpu_regX := 2 } ind_zpg_x 0xFF arg2 = 0x01 ∧
    get_effective_address s zpg arg1 arg2 < 65536 ∧
    get_effective_address s ind_zpg_x arg1 arg2 < 65536 ∧
    get_effective_address s ind_zpg_y arg1 arg2 < 65536 ∧
    get_effective_address s abs arg1 arg2 < 65536 ∧
    get_effective_address s ind_abs_x arg1 arg2 < 65536 ∧
    get_effective_address s ind_abs_y arg1 arg2 < 65536 := by
  have h1 := arg1.isLt
  have hw := abs_arg_lt arg1 arg2
  have e1 : get_effective_address s zpg arg1 arg2 = arg1.val := rfl
  have e2 : get_effective_address s ind_zpg_x arg1 arg2 =
      (s.cpu_regX.val + arg1.val) &&& 0xFF := rfl
  have e3 : get_effective_address s ind_zpg_y arg1 arg2 =
      (s.cpu_regY.val + arg1.val) &&& 0xFF := rfl
  have e4 : get_effective_address s abs arg1 arg2 = arg1.val ||| (arg2.val <<< 8) := by
    rw [← abs_arg_val]; rfl
  have e5 : get_effective_address s ind_abs_x arg1 arg2 =
      ((arg1.val ||| (arg2.val <<< 8)) + s.cpu_regX.val) &&& 0xFFFF := by
    rw [← abs_arg_val, Nat.add_comm]; rfl
  have e6 : get_effective_address s ind_abs_y arg1 arg2 =
      ((arg1.val ||| (arg2.val <<< 8)) + s.cpu_regY.val) &&& 0xFFFF := by
    rw [← abs_arg_val, Nat.add_comm]; rfl
  have e7 : get_effective_address { s with cpu_regX := 2 } ind_zpg_x 0xFF arg2 = 0x01 := by
    have c : ((2 : byte).val + (0xFF : byte).val) &&& 0xff = 1 := by decide
    exact c
  refine ⟨e1, e2, e3, e4, e5, e6, e7, ?_, ?_, ?_, ?_, ?_, ?_⟩
  · rw [e1]; omega
  · rw [e2, and_ff]; omega
  · rw [e3, and_ff]; omega
  · rw [e4]; exact hw
  · rw [e5, and_ffff]; omega
  · rw [e6, and_ffff]; omega

/-- For every state, the (indirect,X) address is `read(ptr) << 8 | read(ptr + 1)` with
`ptr = (X + arg1) & 0xFF`: the byte at `ptr` becomes the high byte, and `ptr + 1` is not
reduced modulo 256. -/
theorem indexed_indirect_address_for_every_state (s : State) (arg1 arg2 : byte) :
    get_effective_address s ind_indir_x arg1 arg2 =
      ((read_memory s.mem ((s.cpu_regX.val + arg1.val) &&& 0xff)).val <<< 8) |||
        (read_memory s.mem (((s.cpu_regX.val + arg1.val) &&& 0xff) + 1)).val :=
  rfl

/-- Claim C32 (code defect): with zp[`$20`] = `$00`, zp[`$21`] = `$80`, X = 4 and operand
`$1C`, `get_effective_address` returns `$0080`, not the little-endian pointer `$8000`,
and `LDA ($1C,X)` loads A = `$99` from `$0080` instead of `$42` from `$8000`. -/
theorem indexed_indirect_pointer_bytes_swapped :
    get_effective_address indexed_indirect_input ind_indir_x 0x1C 0 = 0x0080 ∧
    (read_memory indexed_indirect_input.mem 0x20).val |||
      ((read_memory indexed_indirect_input.mem 0x21).val <<< 8) = 0x8000 ∧
    read_memory indexed_indirect_input.mem 0x8000 = 0x42 ∧
    (cpu_do_next_op indexed_indirect_input locals0).map (fun r => r.1.cpu_regA) =
      some 0x99 := by
  refine ⟨by decide, by decide, by decide, by decide⟩

/-- For every state, the (indirect),Y address is `read(arg1) + Y`: the byte at `arg1 + 1`
is not read. -/
theorem indirect_indexed_address_for_every_state (s : State) (arg1 arg2 : byte) :
    get_effective_address s indir_ind_y arg1 arg2 =
      (read_memory s.mem arg1.val).val + s.cpu_regY.val :=
  rfl

/-- Claim C33 (code defect): with zp[`$20`] = `$00`, zp[`$21`] = `$80` and Y = 4,
`get_effective_address` returns `$0004` for the operand `$20`, not `$8004`, and
`LDA ($20),Y` loads A = `$99` from `$0004` instead of `$42` from `$8004`. -/
theorem indirect_indexed_high_byte_not_read :
    get_effective_address indirect_indexed_input indir_ind_y 0x20 0 = 0x0004 ∧
    (((read_memory indirect_indexed_input.mem 0x20).val |||
      ((read_memory indirect_indexed_input.mem 0x21).val <<< 8)) +
        indirect_indexed_input.cpu_regY.val) &&& 0xFFFF = 0x8004 ∧
    read_memory indirect_indexed_input.mem 0x8004 = 0x42 ∧
    (cpu_do_next_op indirect_indexed_input locals0).map (fun r => r.1.cpu_regA) =
      some 0x99 := by
  refine ⟨by decide, by decide, by decide, by decide⟩

theorem dispatch_BE (s : State) (u : Locals)
    (h0 : (read_memory s.mem s.cpu_PC.val).val = 0xBE) :
    cpu_do_next_op s u = case_LDX (cpu_fetch s).2 ind_abs_x u := by
  have e1 : (0xBE &&& bnot mode_mask) = 162 := by decide
  have e2 : ((0xBE &&& mode_mask) >>> 2) = 7 := by decide
  simp only [cpu_do_next_op, fixed_address_modes, variable_address_modes, cpu_fetch, h0, e1, e2]
  simp [opcode_values, ind_abs_x]

theorem effective_address_absolute_X (s : State) (arg1 arg2 : byte) :
    get_effective_address s ind_abs_x arg1 arg2 =
      ((arg1.val ||| (arg2.val <<< 8)) + s.cpu_regX.val) &&& 0xFFFF := by
  rw [← abs_arg_val, Nat.add_comm]
  rfl

/-- For every state, LDX absolute,Y (opcode 0xBE) with operand word `w` loads X from the
address `(w + X) & 0xFFFF`: the index is the old X, and Y is not used. -/
theorem LDX_absolute_Y_for_every_state (s : State) (u : Locals)
    (h0 : (read_memory s.mem s.cpu_PC.val).val = 0xBE) :
    ∃ t c, cpu_do_next_op s u = some (t, c) ∧
      t.cpu_regX = read_memory s.mem
        ((((read_memory s.mem (s.cpu_PC.val + 1)).val |||
          ((read_memory s.mem (s.cpu_PC.val + 2)).val <<< 8)) + s.cpu_regX.val) &&& 0xFFFF) := by
  rw [dispatch_BE s u h0]
  simp only [case_LDX, show (ind_abs_x = ind_indir_x ∨ ind_abs_x = zpg ∨ ind_abs_x = abs ∨
      ind_abs_x = ind_abs_x ∨ ind_abs_x = ind_zpg_x) from Or.inr (Or.inr (Or.inr (Or.inl rfl))),
    if_true, show ¬ (ind_abs_x = ind_indir_x) by decide, if_false,
    show count_full_imm ind_abs_x = 2 from rfl, get_args_two, fetch_operand s _ rfl,
    fetch_operand2 s _ rfl, show ¬ (ind_abs_x = ind_zpg_x) by decide, get_data_full_imm,
    show ¬ (ind_abs_x = imm) by decide, read_address, update_Nflag_regX, update_Zflag_regX]
  refine ⟨_, _, rfl, ?_⟩
  rw [effective_address_absolute_X]
  rfl

/-- Claim C35 (code defect): `LDX $2000,Y` with X = 1 and Y = 2 loads X = `$11` from
`$2001` (index X), not `$22` from `$2002` (index Y): `case LDX` remaps zero-page,X to
zero-page,Y but leaves the mode absolute,X of the opcode 0xBE as it is. -/
theorem LDX_absolute_Y_indexes_with_X :
    read_memory ldx_absolute_y_input.mem ((0x2000 + ldx_absolute_y_input.cpu_regY.val) &&& 0xFFFF)
      = 0x22 ∧
    (cpu_do_next_op ldx_absolute_y_input locals0).map (fun r => r.1.cpu_regX) = some 0x11 := by
  refine ⟨by decide, by decide⟩

/-! ## Page-cross detection -/

theorem low_byte_of_word (lo hi : Nat) (h : lo < 256) : (lo ||| (hi <<< 8)) &&& 0xff = lo := by
  rw [or_shl8 _ _ h, and_ff]
  omega

/-- Claim C34 (counterexample): for the mode (indirect,X), which is not one of the three
modes of the claim, `address_delay` returns 1 when X + `arg1` exceeds 0xFF (X = `$ff`,
`arg1` = 2); and for absolute,Y it returns 0 although the low byte `$F0` plus Y = `$20`
exceeds 0xFF. -/
theorem address_delay_differs_on_two_modes :
    address_delay zero_page_wrap_input ind_indir_x 0x02 0 = 1 ∧
    address_delay index_y_input ind_abs_y 0xF0 0x20 = 0 ∧
    (0xF0 : Nat) + index_y_input.cpu_regY.val > 0xFF := by
  refine ⟨by decide, by decide, by decide⟩

/-- Claim C34 (amended): for every register state, memory and operand bytes,
`address_delay` returns 1 exactly when the index added to the low byte of the base address
exceeds 0xFF for ind_abs_x (index X, low byte `arg1`) and for indir_ind_y (index Y, low
byte read from the zero-page cell `arg1`); for ind_indir_x it returns 1 exactly when
X + `arg1` exceeds 0xFF; and it returns 0 for zpg, imm, abs and ind_zpg_x. -/
theorem address_delay_by_mode (s : State) (arg1 arg2 : byte) :
    address_delay s ind_abs_x arg1 arg2 =
      (if arg1.val + s.cpu_regX.val > 0xFF then 1 else 0) ∧
    address_delay s indir_ind_y arg1 arg2 =
      (if (read_memory s.mem arg1.val).val + s.cpu_regY.val > 0xFF then 1 else 0) ∧
    address_delay s ind_indir_x arg1 arg2 =
      (if s.cpu_regX.val + arg1.val > 0xFF then 1 else 0) ∧
    address_delay s zpg arg1 arg2 = 0 ∧ address_delay s imm arg1 arg2 = 0 ∧
    address_delay s abs arg1 arg2 = 0 ∧ address_delay s ind_zpg_x arg1 arg2 = 0 := by
  refine ⟨?_, ?_, rfl, rfl, rfl, rfl, rfl⟩
  · have e : address_delay s ind_abs_x arg1 arg2 =
        (if ((arg1.val ||| (arg2.val <<< 8)) &&& 0xff) + s.cpu_regX.val > 0xff then 1 else 0) :=
      rfl
    rw [e, low_byte_of_word _ _ arg1.isLt]
  · have e : address_delay s indir_ind_y arg1 arg2 =
        (if (((read_memory s.mem arg1.val).val |||
          ((read_memory s.mem (arg1.val + 1)).val <<< 8)) &&& 0xff) + s.cpu_regY.val > 0xff
          then 1 else 0) := rfl
    rw [e, low_byte_of_word _ _ (read_memory s.mem arg1.val).isLt]

/-! ## Length of the disassembly -/

theorem to_hex_length_le (fuel : Nat) : ∀ (n k : Nat), 1 ≤ k → n < 16 ^ k →
    (to_hex fuel n).length ≤ k := by
  induction fuel with
  | zero =>
    intro n k hk _
    simpa [to_hex] using hk
  | succ f ih =>
    intro n k hk hn
    unfold to_hex
    by_cases h : n < 16
    · rw [if_pos h]
      simpa using hk
    · rw [if_neg h]
      have hk2 : 2 ≤ k := by
        by_contra hc
        have : k = 1 := by omega
        subst this
        simp at hn
        omega
      have hdiv : n / 16 < 16 ^ (k - 1) := by
        have e : 16 ^ k = 16 ^ (k - 1) * 16 := by
          rw [← Nat.pow_succ]
          congr 1
          omega
        rw [e] at hn
        exact Nat.div_lt_of_lt_mul (by rw [Nat.mul_comm]; exact hn)
      have := ih (n / 16) (k - 1) (by omega) hdiv
      simp only [List.length_append, List.length_singleton]
      omega

theorem printf_x_length_le (width n k : Nat) (hk : 1 ≤ k) (hn : n < 16 ^ k) :
    (printf_x width n).length ≤ max width k := by
  have h1 : n % 4294967296 < 16 ^ k := lt_of_le_of_lt (Nat.mod_le _ _) hn
  have h2 := to_hex_length_le 7 (n % 4294967296) k hk h1
  unfold printf_x
  simp only [String.length, List.length_append, List.length_replicate]
  omega

theorem printf_x_2_byte (n : Nat) (hn : n < 256) : (printf_x 2 n).length ≤ 2 :=
  printf_x_length_le 2 n 2 (by decide) (by simpa using hn)

theorem printf_x_2_word (n : Nat) (hn : n < 65536) : (printf_x 2 n).length ≤ 4 :=
  printf_x_length_le 2 n 4 (by decide) (by simpa using hn)

theorem printf_x_4_word (n : Nat) (hn : n < 65536) : (printf_x 4 n).length ≤ 4 :=
  printf_x_length_le 4 n 4 (by decide) (by simpa using hn)

theorem length_append_le {a b : String} {m n : Nat} (ha : a.length ≤ m) (hb : b.length ≤ n) :
    (a ++ b).length ≤ m + n := by
  rw [String.length_append]
  omega

/-- The text of `address_mode_str` has at most 11 characters (the longest is that of a
branch, `$%02x ; $%04x`). -/
theorem address_mode_str_length (s : State) (mode : Nat) (arg1 arg2 : byte) :
    (address_mode_str s mode arg1 arg2).length ≤ 11 := by
  have hw := abs_arg_lt arg1 arg2
  have p1 := printf_x_2_byte arg1.val arg1.isLt
  have p2 := printf_x_2_word _ hw
  have p3 := printf_x_4_word _ hw
  have b1 : "A".length ≤ 11 := by decide
  have b2 : ("$" ++ printf_x 2 (arg1.val ||| (arg2.val <<< 8))).length ≤ 11 :=
    le_trans (length_append_le (m := 1) (by decide) p2) (by decide)
  have b3 : ("$" ++ printf_x 2 arg1.val).length ≤ 11 :=
    le_trans (length_append_le (m := 1) (by decide) p1) (by decide)
  have b4 : ("$" ++ printf_x 2 arg1.val ++ " ; $" ++
      printf_x 4 (0xffff &&& (s.cpu_PC.val +
        (if arg1.val &&& 0x80 ≠ 0 then 0xff00 ||| arg1.val else arg1.val)))).length ≤ 11 :=
    length_append_le (m := 7)
      (length_append_le (m := 3) (n := 4) (length_append_le (m := 1) (by decide) p1) (by decide))
      (printf_x_4_word _ (lt_of_le_of_lt Nat.and_le_left (by decide)))
  have b5 : ("#" ++ printf_x 2 arg1.val).length ≤ 11 :=
    le_trans (length_append_le (m := 1) (by decide) p1) (by decide)
  have b6 : ("$" ++ printf_x 4 (arg1.val ||| (arg2.val <<< 8))).length ≤ 11 :=
    le_trans (length_append_le (m := 1) (by decide) p3) (by decide)
  have b7 : ("($" ++ printf_x 4 (arg1.val ||| (arg2.val <<< 8)) ++ ")").length ≤ 11 :=
    le_trans (length_append_le (n := 1) (length_append_le (m := 2) (by decide) p3) (by decide))
      (by decide)
  have b8 : ("($" ++ printf_x 4 (arg1.val ||| (arg2.val <<< 8)) ++ "), Y").length ≤ 11 :=
    le_trans (length_append_le (n := 4) (length_append_le (m := 2) (by decide) p3) (by decide))
      (by decide)
  have b9 : ("$" ++ printf_x 2 arg1.val ++ ", X").length ≤ 11 :=
    le_trans (length_append_le (n := 3) (length_append_le (m := 1) (by decide) p1) (by decide))
      (by decide)
  have b10 : ("$" ++ printf_x 2 arg1.val ++ ", Y").length ≤ 11 :=
    le_trans (length_append_le (n := 3) (length_append_le (m := 1) (by decide) p1) (by decide))
      (by decide)
  have b11 : ("$" ++ printf_x 4 (arg1.val ||| (arg2.val <<< 8)) ++ ", X").length ≤ 11 :=
    le_trans (length_append_le (n := 3) (length_append_le (m := 1) (by decide) p3) (by decide))
      (by decide)
  have b12 : ("$" ++ printf_x 4 (arg1.val ||| (arg2.val <<< 8)) ++ ", Y").length ≤ 11 :=
    le_trans (length_append_le (n := 3) (length_append_le (m := 1) (by decide) p3) (by decide))
      (by decide)
  have b13 : "<??>".length ≤ 11 := by decide
  clear hw p1 p2 p3
  unfold address_mode_str
  dsimp only
  by_cases h1 : mode = reg_A
  · rw [if_pos h1]; exact b1
  rw [if_neg h1]
  by_cases h2 : mode = ind_indir_x
  · rw [if_pos h2]; exact b2
  rw [if_neg h2]
  by_cases h3 : mode = zpg
  · rw [if_pos h3]; exact b3
  rw [if_neg h3]
  by_cases h4 : mode = rel
  · rw [if_pos h4]; exact b4
  rw [if_neg h4]
  by_cases h5 : mode = imm
  · rw [if_pos h5]; exact b5
  rw [if_neg h5]
  by_cases h6 : mode = abs
  · rw [if_pos h6]; exact b6
  rw [if_neg h6]
  by_cases h7 : mode = ind_abs
  · rw [if_pos h7]; exact b7
  rw [if_neg h7]
  by_cases h8 : mode = indir_ind_y
  · rw [if_pos h8]; exact b8
  rw [if_neg h8]
  by_cases h9 : mode = ind_zpg_x
  · rw [if_pos h9]; exact b9
  rw [if_neg h9]
  by_cases h10 : mode = ind_zpg_y
  · rw [if_pos h10]; exact b10
  rw [if_neg h10]
  by_cases h11 : mode = ind_abs_x
  · rw [if_pos h11]; exact b11
  rw [if_neg h11]
  by_cases h12 : mode = ind_abs_y
  · rw [if_pos h12]; exact b12
  rw [if_neg h12]
  by_cases h13 : mode = indir_abs
  · rw [if_pos h13]; exact b7
  rw [if_neg h13]
  exact b13

theorem dis_operand_length (d : Dis) (name : String) (count mode2 : Nat)
    (hn : name.length ≤ 3) : (dis_operand d name count mode2).buffer.length ≤ 15 :=
  length_append_le (m := 4) (length_append_le (n := 1) hn (by decide))
    (address_mode_str_length _ _ _ _)

theorem ite_length (c : Prop) [Decidable c] (a b : Dis)
    (ha : a.buffer.length ≤ 15) (hb : b.buffer.length ≤ 15) :
    (if c then a else b).buffer.length ≤ 15 := by
  split_ifs <;> assumption

theorem ite_length_opt (c : Prop) [Decidable c] (a b : Option Dis)
    (ha : ∀ d1, a = some d1 → d1.buffer.length ≤ 15)
    (hb : ∀ d1, b = some d1 → d1.buffer.length ≤ 15) :
    ∀ d1, (if c then a else b) = some d1 → d1.buffer.length ≤ 15 := by
  split_ifs <;> assumption

theorem some_length_opt (a : Dis) (ha : a.buffer.length ≤ 15) :
    ∀ d1, some a = some d1 → d1.buffer.length ≤ 15 := by
  intro d1 h
  cases h
  exact ha

theorem none_length_opt :
    ∀ d1 : Dis, (none : Option Dis) = some d1 → d1.buffer.length ≤ 15 := by
  intro d1 h
  cases h

theorem name_length (d : Dis) (name : String) (hn : name.length ≤ 3) :
    ({ d with buffer := name } : Dis).buffer.length ≤ 15 :=
  le_trans hn (by decide)

theorem dis_operand_mode_length (d : Dis) (name : String) (count mode2 mode3 : Nat)
    (hn : name.length ≤ 3) :
    ({ dis_operand d name count mode2 with mode := mode3 } : Dis).buffer.length ≤ 15 :=
  dis_operand_length d name count mode2 hn

theorem dis_full_address_length (d : Dis) (opcode : byte) (hd : d.buffer.length ≤ 15) :
    (dis_full_address d opcode).buffer.length ≤ 15 := by
  unfold dis_full_address
  generalize opcode.val &&& bnot mode_mask = sw
  dsimp only
  repeat' first
    | exact dis_operand_length _ _ _ _ (by decide)
    | exact hd
    | apply ite_length

theorem dis_fixed_address_length (d : Dis) (opcode : byte) (hd : d.buffer.length ≤ 15) :
    (dis_fixed_address d opcode).buffer.length ≤ 15 := by
  unfold dis_fixed_address
  generalize opcode.val = op
  dsimp only
  repeat' first
    | exact dis_operand_length _ _ _ _ (by decide)
    | exact dis_operand_mode_length _ _ _ _ _ (by decide)
    | exact name_length _ _ (by decide)
    | exact hd
    | apply ite_length

theorem dis_variable_address_length (d d1 : Dis) (opcode : byte) (hd : d.buffer.length ≤ 15)
    (h : dis_variable_address d opcode = some d1) : d1.buffer.length ≤ 15 := by
  revert d1
  unfold dis_variable_address
  generalize opcode.val &&& bnot mode_mask = sw
  dsimp only
  repeat' first
    | exact none_length_opt
    | exact some_length_opt _ (dis_operand_length _ _ _ _ (by decide))
    | exact some_length_opt _ hd
    | apply ite_length_opt

/-- Claim C36: for every state and address at which `dissasemble` returns, the text it
writes has at most 15 characters, so that with its terminator it fits a buffer of 16
bytes (and the 24 bytes of the specification); and the text of `address_mode_str` has at
most 15 characters for every mode and argument bytes. -/
theorem disassembly_length_bound (s : State) (adr : uint16_t) (u : Locals)
    (r : State × String) (h : dissasemble s adr u = some r)
    (t : State) (mode : Nat) (arg1 arg2 : byte) :
    r.2.length ≤ 15 ∧ r.2.length + 1 ≤ 16 ∧ r.2.length + 1 ≤ 24 ∧
    (address_mode_str t mode arg1 arg2).length ≤ 15 := by
  have ha : (address_mode_str t mode arg1 arg2).length ≤ 15 :=
    le_trans (address_mode_str_length t mode arg1 arg2) (by decide)
  suffices hr : r.2.length ≤ 15 from ⟨hr, by omega, by omega, ha⟩
  unfold dissasemble at h
  dsimp only at h
  have h2 := dis_fixed_address_length
    (dis_full_address
      { s := (cpu_fetch { s with cpu_PC := adr }).2, buffer := "", arg1 := u.arg1,
        arg2 := u.arg2,
        mode := ((cpu_fetch { s with cpu_PC := adr }).1.val &&& mode_mask) >>> 2 }
      (cpu_fetch { s with cpu_PC := adr }).1)
    (cpu_fetch { s with cpu_PC := adr }).1
    (dis_full_address_length _ _ (show "".length ≤ 15 by decide))
  split_ifs at h with hb
  · cases h
    exact h2
  · cases hv : dis_variable_address
      (dis_fixed_address
        (dis_full_address
          { s := (cpu_fetch { s with cpu_PC := adr }).2, buffer := "", arg1 := u.arg1,
            arg2 := u.arg2,
            mode := ((cpu_fetch { s with cpu_PC := adr }).1.val &&& mode_mask) >>> 2 }
          (cpu_fetch { s with cpu_PC := adr }).1)
        (cpu_fetch { s with cpu_PC := adr }).1)
      (cpu_fetch { s with cpu_PC := adr }).1 with
    | none => rw [hv] at h; simp at h
    | some d1 =>
      rw [hv] at h
      simp only [Option.some_bind] at h
      cases h
      have h3 := dis_variable_address_length _ _ _ h2 hv
      dsimp only
      split_ifs
      · exact le_trans (length_append_le (n := 1) (length_append_le (m := 1) (by decide)
          (printf_x_2_byte _ (cpu_fetch { s with cpu_PC := adr }).1.isLt)) (by decide))
          (by decide)
      · exact h3

/-- Witness of `disassembly_length_bound`: the bytes D0 80 at `$1080` give the 15
characters `BNE $80 ; $1002`. -/
theorem disassembly_length_bound_witness :
    dissasemble bne_backward_input 0x1080 locals0 =
      some (bne_backward_input, "BNE $80 ; $1002") ∧
    (bne_backward_input, "BNE $80 ; $1002").2.length ≤ 15 ∧
    (bne_backward_input, "BNE $80 ; $1002").2.length + 1 ≤ 16 ∧
    (bne_backward_input, "BNE $80 ; $1002").2.length + 1 ≤ 24 ∧
    (address_mode_str bne_backward_input rel 0x80 0).length ≤ 15 :=
  ⟨by rfl, disassembly_length_bound bne_backward_input 0x1080 locals0
    (bne_backward_input, "BNE $80 ; $1002") (by rfl) bne_backward_input rel 0x80 0⟩

/-- The longest texts: a branch has exactly 15 characters, and the text of
`address_mode_str` for it has 11. -/
theorem disassembly_longest_examples :
    (dissasemble bne_backward_input 0x1080 locals0).map (fun r => (r.2, r.2.length)) =
      some ("BNE $80 ; $1002", 15) ∧
    (address_mode_str bne_backward_input rel 0x80 0).length = 11 ∧
    (dissasemble lda_indirect_y_input 0x1000 locals0).map (fun r => (r.2, r.2.length)) =
      some ("LDA ($0020), Y", 14) := by
  refine ⟨by decide, by decide, by decide⟩

end Emu6502
